import Mathlib

/-!
# repeat_n_view: random-access iterators over one aliased storage slot

Shallow embedding of the six view classes of the repository

* `repeat_n_view::repeat_n_owned_view`   (src/owned/repeat_n_owned_view.h)
* `notstd::single_view`                  (src/normal/single_view.h)
* `repeat_n_view::repeat_n_foreign_view` (src/foreign/repeat_n_foreign_view.h)
* `notstd::dereferencing_single_view`    (src/dereferencing/dereferencing_single_view.h)
* `repeat_n::foreign_view`               (src/include-noexcept/foreign_view.h)
* `repeat_n::owned_view`                 (src/include-noexcept/owned_view.h)

Every class is embedded in a Lean namespace of the same name, function by function.

Conventions of the embedding.

* The target is a 64-bit one: `std::size_t` is an unsigned 64-bit word, modelled as a `Nat`
  that every operation reduces modulo `2^64` (`cxx.to_size_t`); `std::ptrdiff_t` is a signed
  64-bit word, modelled as an `Int`; the conversion of a `std::size_t` to `std::ptrdiff_t`
  is `cxx.to_ptrdiff_t` (two's complement).
* A pointer is the address it holds (`cxx.pointer`), `nullptr` is address 0, and an lvalue
  (`cxx.reference`) is identified with the address of the object it designates.
* An iterator is its pair of data members `location`, `curr`. A member function that
  modifies `*this` and returns `*this` by reference returns the updated iterator; the
  postfix forms return the pair (returned copy, updated `*this`).
* The comparison operators and the iterator difference, which contain the `throw`
  statements of the checked classes, return `Except cxx.exception _` in every class.
* An owned view is identified by the address of its member holding the value
  (`std::addressof` of that member); a foreign view by the pointer it stores.
* The length `N` is a template argument of type `std::size_t`, hence `N < 2^64`; a position
  `i` in `[0, N]` is a `std::size_t` too, and reaches `operator+` converted to
  `difference_type`: `begin() + i` is `operator_plus begin (to_ptrdiff_t i)` (the argument
  is `i` itself when `i < 2^63`).
* `end` is a reserved word of Lean: the member function `end()` is `end_`; the `const`
  overloads of `begin()` and `end()` are `begin_const` and `end_const`.
* The values of the objects of the element type are held in a `cxx.memory`, read with
  `cxx.load` and written with `cxx.store` through an lvalue; the constructor of an owned
  view stores the constructed value at the address of the member, `data()` is the lvalue
  of the member.
* `std::reverse_iterator` (`cxx.reverse_iterator`) and the iteration loop of a client
  (`cxx.walk`) are not code of the repository; they are modelled once, with the operators
  of the iterator class as parameters, the way a template is instantiated.
-/

namespace cxx

/-- Address held by a pointer (a flat address space). -/
abbrev pointer := Int

/-- The null pointer value. -/
def nullptr : pointer := 0

/-- An lvalue, given by the address of the object it designates (the result of `*p`
is the lvalue at address `p`). -/
structure reference where
  addr : pointer
deriving DecidableEq

/-- Exceptions thrown by the library: only `std::invalid_argument(what_arg)`. -/
inductive exception where
  | invalid_argument (what_arg : String)
deriving DecidableEq

/-- The value `std::numeric_limits<std::ptrdiff_t>::max()`: `2^63 - 1`. -/
def PTRDIFF_MAX : Int := 9223372036854775807

/-- Conversion of an integer result to `std::size_t`: reduction modulo `2^64`
(unsigned arithmetic wraps around). -/
def to_size_t (x : Int) : Nat := (x % 18446744073709551616).toNat

/-- Conversion of a `std::size_t` value to `std::ptrdiff_t`: values from `2^63` on
become negative (two's complement). -/
def to_ptrdiff_t (x : Nat) : Int :=
  if x < 9223372036854775808 then (x : Int) else (x : Int) - 18446744073709551616

/-- Pointer arithmetic `p + n` on a pointer to objects of size `sizeof_T`: the address
moves by `n * sizeof_T`. -/
def pointer_add (sizeof_T : Nat) (p : pointer) (n : Int) : pointer := p + n * (sizeof_T : Int)

/-- An outcome is a thrown `std::invalid_argument`. -/
def throws_invalid_argument {α : Type} (r : Except exception α) : Prop :=
  ∃ what_arg : String, r = Except.error (exception.invalid_argument what_arg)

end cxx

open cxx

/-! ## `repeat_n_view::repeat_n_owned_view` (src/owned/repeat_n_owned_view.h) -/

namespace repeat_n_view

/-- Class `_iterator_templ<mutability>` of `repeat_n_view::repeat_n_owned_view` (src/owned/repeat_n_owned_view.h): the data members
`pointer location = nullptr; std::size_t curr = 0;`. -/
structure repeat_n_owned_view._iterator_templ (mutability : Bool) where
  location : pointer := nullptr
  curr : Nat := 0
deriving DecidableEq

namespace repeat_n_owned_view._iterator_templ

/-- Source: `reference operator*() const { return *location; }`. -/
def operator_star {mutability : Bool} (self : _iterator_templ mutability) : reference := ⟨self.location⟩

/-- Source: `operator++()`: `++curr; return *this;`. -/
def operator_preinc {mutability : Bool} (self : _iterator_templ mutability) : _iterator_templ mutability :=
  ⟨self.location, to_size_t ((self.curr : Int) + 1)⟩

/-- Source: `operator==`: throws when `lhs.location != rhs.location`, else
`return lhs.curr == rhs.curr;`. -/
def operator_eq {mutability : Bool} (lhs rhs : _iterator_templ mutability) : Except exception Bool :=
  if lhs.location ≠ rhs.location then
    Except.error (exception.invalid_argument "Requested comparison between different views")
  else
    Except.ok (decide (lhs.curr = rhs.curr))

/-- Source: `operator!=`: `return !(lhs == rhs);`. -/
def operator_ne {mutability : Bool} (lhs rhs : _iterator_templ mutability) : Except exception Bool :=
  match operator_eq lhs rhs with
  | Except.ok r => Except.ok (!r)
  | Except.error e => Except.error e

/-- Source: `pointer operator->() const { return &operator*(); }`. -/
def operator_arrow {mutability : Bool} (self : _iterator_templ mutability) : pointer := (operator_star self).addr

/-- Source: `operator++(int)`: `auto prev = *this; ++*this; return prev;`.
The result is (returned copy, updated `*this`). -/
def operator_postinc {mutability : Bool} (self : _iterator_templ mutability) : _iterator_templ mutability × _iterator_templ mutability :=
  (self, operator_preinc self)

/-- Source: `operator--()`: `--curr; return *this;`. -/
def operator_predec {mutability : Bool} (self : _iterator_templ mutability) : _iterator_templ mutability :=
  ⟨self.location, to_size_t ((self.curr : Int) - 1)⟩

/-- Source: `operator--(int)`: `auto prev = *this; --*this; return prev;`.
The result is (returned copy, updated `*this`). -/
def operator_postdec {mutability : Bool} (self : _iterator_templ mutability) : _iterator_templ mutability × _iterator_templ mutability :=
  (self, operator_predec self)

/-- Source: `operator+=(difference_type n)`: `curr += n; return *this;`. -/
def operator_add_assign {mutability : Bool} (self : _iterator_templ mutability) (n : Int) : _iterator_templ mutability :=
  ⟨self.location, to_size_t ((self.curr : Int) + n)⟩

/-- Source: `operator+(a, n)`: `return a += n;` on the by-value copy `a`. -/
def operator_plus {mutability : Bool} (a : _iterator_templ mutability) (n : Int) : _iterator_templ mutability :=
  operator_add_assign a n

/-- Source: `operator+(n, a)`: `return a + n;`. -/
def operator_plus_left {mutability : Bool} (n : Int) (a : _iterator_templ mutability) : _iterator_templ mutability :=
  operator_plus a n

/-- Source: `operator-=(difference_type n)`: `return operator+=(-n);`. -/
def operator_sub_assign {mutability : Bool} (self : _iterator_templ mutability) (n : Int) : _iterator_templ mutability :=
  operator_add_assign self (-n)

/-- Source: `operator-(a, n)`: `return a -= n;` on the by-value copy `a`. -/
def operator_minus {mutability : Bool} (a : _iterator_templ mutability) (n : Int) : _iterator_templ mutability :=
  operator_sub_assign a n

/-- Source: iterator difference `operator-(a, b)`: throws when
`a.location != b.location`, else `return a.curr - b.curr;` (an unsigned subtraction
converted to `difference_type`). -/
def operator_diff {mutability : Bool} (a b : _iterator_templ mutability) : Except exception Int :=
  if a.location ≠ b.location then
    Except.error (exception.invalid_argument "Requested difference between different views")
  else
    Except.ok (to_ptrdiff_t (to_size_t ((a.curr : Int) - (b.curr : Int))))

/-- Source: `reference operator[](difference_type n) { return *location; }`. -/
def operator_index {mutability : Bool} (self : _iterator_templ mutability) (_n : Int) : reference := ⟨self.location⟩

/-- Source: `operator<`: throws when `a.location != b.location`, else
`return a.curr < b.curr;`. -/
def operator_lt {mutability : Bool} (a b : _iterator_templ mutability) : Except exception Bool :=
  if a.location ≠ b.location then
    Except.error (exception.invalid_argument "Requested comparison between different views")
  else
    Except.ok (decide (a.curr < b.curr))

/-- Source: `operator<=`: throws when `a.location != b.location`, else
`return a.curr <= b.curr;`. -/
def operator_le {mutability : Bool} (a b : _iterator_templ mutability) : Except exception Bool :=
  if a.location ≠ b.location then
    Except.error (exception.invalid_argument "Requested comparison between different views")
  else
    Except.ok (decide (a.curr ≤ b.curr))

/-- Source: `operator>`: `return !(a <= b);`. -/
def operator_gt {mutability : Bool} (a b : _iterator_templ mutability) : Except exception Bool :=
  match operator_le a b with
  | Except.ok r => Except.ok (!r)
  | Except.error e => Except.error e

/-- Source: `operator>=`: `return !(a < b);`. -/
def operator_ge {mutability : Bool} (a b : _iterator_templ mutability) : Except exception Bool :=
  match operator_lt a b with
  | Except.ok r => Except.ok (!r)
  | Except.error e => Except.error e

/-- Source: the converting constructor from `iterator` to `const_iterator`:
`location(other.location), curr(other.curr)`. -/
def of_iterator (other : _iterator_templ true) : _iterator_templ false :=
  ⟨other.location, other.curr⟩

/-- Source: the converting assignment of an `iterator` to a `const_iterator`:
`location = other.location; curr = other.curr; return *this;`. -/
def operator_assign (_self : _iterator_templ false) (other : _iterator_templ true) : _iterator_templ false :=
  ⟨other.location, other.curr⟩

end repeat_n_owned_view._iterator_templ

/-- Class `repeat_n_view::repeat_n_owned_view<T, N>` (src/owned/repeat_n_owned_view.h). The view owns the member `T __contents;`:
the field is `std::addressof(__contents)`, the address at which this value is stored. -/
structure repeat_n_owned_view (N : Nat) where
  addressof___contents : pointer
deriving DecidableEq

namespace repeat_n_owned_view

/-- Source: `using iterator = _iterator_templ<true>;`. -/
abbrev iterator := _iterator_templ true

/-- Source: `using const_iterator = _iterator_templ<false>;`. -/
abbrev const_iterator := _iterator_templ false

/-- Source: `iterator begin() noexcept { return iterator(std::addressof(__contents), 0); }`. -/
def begin {N : Nat} (self : repeat_n_owned_view N) : iterator :=
  ⟨self.addressof___contents, 0⟩

/-- Source: `const_iterator begin() const noexcept { return const_iterator(std::addressof(__contents), 0); }`. -/
def begin_const {N : Nat} (self : repeat_n_owned_view N) : const_iterator :=
  ⟨self.addressof___contents, 0⟩

/-- Source: `const_iterator cbegin() const noexcept { return const_iterator(std::addressof(__contents), 0); }`. -/
def cbegin {N : Nat} (self : repeat_n_owned_view N) : const_iterator :=
  ⟨self.addressof___contents, 0⟩

/-- Source: `iterator end() noexcept { return iterator(std::addressof(__contents), N); }`. -/
def end_ {N : Nat} (self : repeat_n_owned_view N) : iterator :=
  ⟨self.addressof___contents, N⟩

/-- Source: `const_iterator end() const noexcept { return const_iterator(std::addressof(__contents), N); }`. -/
def end_const {N : Nat} (self : repeat_n_owned_view N) : const_iterator :=
  ⟨self.addressof___contents, N⟩

/-- Source: `const_iterator cend() const noexcept { return const_iterator(std::addressof(__contents), N); }`. -/
def cend {N : Nat} (self : repeat_n_owned_view N) : const_iterator :=
  ⟨self.addressof___contents, N⟩

/-- Source: `size_type size() const noexcept { return N; }`. -/
def size {N : Nat} (_self : repeat_n_owned_view N) : Nat := N

/-- Source: `max_size()`: `return std::numeric_limits<difference_type>::max();`. -/
def max_size {N : Nat} (_self : repeat_n_owned_view N) : Int := PTRDIFF_MAX

end repeat_n_owned_view

end repeat_n_view

/-! ## `notstd::single_view` (src/normal/single_view.h) -/

namespace notstd

/-- Class `_iterator_templ<mutability>` of `notstd::single_view` (src/normal/single_view.h): the data members
`pointer location = nullptr; std::size_t curr = 0;`. -/
structure single_view._iterator_templ (mutability : Bool) where
  location : pointer := nullptr
  curr : Nat := 0
deriving DecidableEq

namespace single_view._iterator_templ

/-- Source: `reference operator*() const { return *location; }`. -/
def operator_star {mutability : Bool} (self : _iterator_templ mutability) : reference := ⟨self.location⟩

/-- Source: `operator++()`: `++curr; return *this;`. -/
def operator_preinc {mutability : Bool} (self : _iterator_templ mutability) : _iterator_templ mutability :=
  ⟨self.location, to_size_t ((self.curr : Int) + 1)⟩

/-- Source: `operator==`: throws when `lhs.location != rhs.location`, else
`return lhs.curr == rhs.curr;`. -/
def operator_eq {mutability : Bool} (lhs rhs : _iterator_templ mutability) : Except exception Bool :=
  if lhs.location ≠ rhs.location then
    Except.error (exception.invalid_argument "Requested comparison between different views")
  else
    Except.ok (decide (lhs.curr = rhs.curr))

/-- Source: `operator!=`: `return !(lhs == rhs);`. -/
def operator_ne {mutability : Bool} (lhs rhs : _iterator_templ mutability) : Except exception Bool :=
  match operator_eq lhs rhs with
  | Except.ok r => Except.ok (!r)
  | Except.error e => Except.error e

/-- Source: `pointer operator->() const { return &operator*(); }`. -/
def operator_arrow {mutability : Bool} (self : _iterator_templ mutability) : pointer := (operator_star self).addr

/-- Source: `operator++(int)`: `auto prev = *this; ++*this; return prev;`.
The result is (returned copy, updated `*this`). -/
def operator_postinc {mutability : Bool} (self : _iterator_templ mutability) : _iterator_templ mutability × _iterator_templ mutability :=
  (self, operator_preinc self)

/-- Source: `operator--()`: `--curr; return *this;`. -/
def operator_predec {mutability : Bool} (self : _iterator_templ mutability) : _iterator_templ mutability :=
  ⟨self.location, to_size_t ((self.curr : Int) - 1)⟩

/-- Source: `operator--(int)`: `auto prev = *this; --*this; return prev;`.
The result is (returned copy, updated `*this`). -/
def operator_postdec {mutability : Bool} (self : _iterator_templ mutability) : _iterator_templ mutability × _iterator_templ mutability :=
  (self, operator_predec self)

/-- Source: `operator+=(difference_type n)`: `curr += n; return *this;`. -/
def operator_add_assign {mutability : Bool} (self : _iterator_templ mutability) (n : Int) : _iterator_templ mutability :=
  ⟨self.location, to_size_t ((self.curr : Int) + n)⟩

/-- Source: `operator+(a, n)`: `return a += n;` on the by-value copy `a`. -/
def operator_plus {mutability : Bool} (a : _iterator_templ mutability) (n : Int) : _iterator_templ mutability :=
  operator_add_assign a n

/-- Source: `operator+(n, a)`: `return a + n;`. -/
def operator_plus_left {mutability : Bool} (n : Int) (a : _iterator_templ mutability) : _iterator_templ mutability :=
  operator_plus a n

/-- Source: `operator-=(difference_type n)`: `return operator+=(-n);`. -/
def operator_sub_assign {mutability : Bool} (self : _iterator_templ mutability) (n : Int) : _iterator_templ mutability :=
  operator_add_assign self (-n)

/-- Source: `operator-(a, n)`: `return a -= n;` on the by-value copy `a`. -/
def operator_minus {mutability : Bool} (a : _iterator_templ mutability) (n : Int) : _iterator_templ mutability :=
  operator_sub_assign a n

/-- Source: iterator difference `operator-(a, b)`: throws when
`a.location != b.location`, else `return a.curr - b.curr;` (an unsigned subtraction
converted to `difference_type`). -/
def operator_diff {mutability : Bool} (a b : _iterator_templ mutability) : Except exception Int :=
  if a.location ≠ b.location then
    Except.error (exception.invalid_argument "Requested difference between different views")
  else
    Except.ok (to_ptrdiff_t (to_size_t ((a.curr : Int) - (b.curr : Int))))

/-- Source: `reference operator[](difference_type n) { return *location; }`. -/
def operator_index {mutability : Bool} (self : _iterator_templ mutability) (_n : Int) : reference := ⟨self.location⟩

/-- Source: `operator<`: throws when `a.location != b.location`, else
`return a.curr < b.curr;`. -/
def operator_lt {mutability : Bool} (a b : _iterator_templ mutability) : Except exception Bool :=
  if a.location ≠ b.location then
    Except.error (exception.invalid_argument "Requested comparison between different views")
  else
    Except.ok (decide (a.curr < b.curr))

/-- Source: `operator<=`: throws when `a.location != b.location`, else
`return a.curr <= b.curr;`. -/
def operator_le {mutability : Bool} (a b : _iterator_templ mutability) : Except exception Bool :=
  if a.location ≠ b.location then
    Except.error (exception.invalid_argument "Requested comparison between different views")
  else
    Except.ok (decide (a.curr ≤ b.curr))

/-- Source: `operator>`: `return !(a <= b);`. -/
def operator_gt {mutability : Bool} (a b : _iterator_templ mutability) : Except exception Bool :=
  match operator_le a b with
  | Except.ok r => Except.ok (!r)
  | Except.error e => Except.error e

/-- Source: `operator>=`: `return !(a < b);`. -/
def operator_ge {mutability : Bool} (a b : _iterator_templ mutability) : Except exception Bool :=
  match operator_lt a b with
  | Except.ok r => Except.ok (!r)
  | Except.error e => Except.error e

/-- Source: the converting constructor from `iterator` to `const_iterator`:
`location(other.location), curr(other.curr)`. -/
def of_iterator (other : _iterator_templ true) : _iterator_templ false :=
  ⟨other.location, other.curr⟩

/-- Source: the converting assignment of an `iterator` to a `const_iterator`:
`location = other.location; curr = other.curr; return *this;`. -/
def operator_assign (_self : _iterator_templ false) (other : _iterator_templ true) : _iterator_templ false :=
  ⟨other.location, other.curr⟩

end single_view._iterator_templ

/-- Class `notstd::single_view<T, N>` (src/normal/single_view.h). The view owns the member `T contents;`:
the field is `std::addressof(contents)`, the address at which this value is stored. -/
structure single_view (N : Nat) where
  addressof_contents : pointer
deriving DecidableEq

namespace single_view

/-- Source: `using iterator = _iterator_templ<true>;`. -/
abbrev iterator := _iterator_templ true

/-- Source: `using const_iterator = _iterator_templ<false>;`. -/
abbrev const_iterator := _iterator_templ false

/-- Source: `iterator begin() noexcept { return iterator(std::addressof(contents), 0); }`. -/
def begin {N : Nat} (self : single_view N) : iterator :=
  ⟨self.addressof_contents, 0⟩

/-- Source: `const_iterator begin() const noexcept { return const_iterator(std::addressof(contents), 0); }`. -/
def begin_const {N : Nat} (self : single_view N) : const_iterator :=
  ⟨self.addressof_contents, 0⟩

/-- Source: `const_iterator cbegin() const noexcept { return const_iterator(std::addressof(contents), 0); }`. -/
def cbegin {N : Nat} (self : single_view N) : const_iterator :=
  ⟨self.addressof_contents, 0⟩

/-- Source: `iterator end() noexcept { return iterator(std::addressof(contents), N); }`. -/
def end_ {N : Nat} (self : single_view N) : iterator :=
  ⟨self.addressof_contents, N⟩

/-- Source: `const_iterator end() const noexcept { return const_iterator(std::addressof(contents), N); }`. -/
def end_const {N : Nat} (self : single_view N) : const_iterator :=
  ⟨self.addressof_contents, N⟩

/-- Source: `const_iterator cend() const noexcept { return const_iterator(std::addressof(contents), N); }`. -/
def cend {N : Nat} (self : single_view N) : const_iterator :=
  ⟨self.addressof_contents, N⟩

/-- Source: `size_type size() const noexcept { return N; }`. -/
def size {N : Nat} (_self : single_view N) : Nat := N

/-- Source: `max_size()`: `return std::numeric_limits<difference_type>::max();`. -/
def max_size {N : Nat} (_self : single_view N) : Int := PTRDIFF_MAX

end single_view

end notstd

/-! ## `repeat_n_view::repeat_n_foreign_view` (src/foreign/repeat_n_foreign_view.h) -/

namespace repeat_n_view

/-- Class `const_iterator` of `repeat_n_view::repeat_n_foreign_view` (src/foreign/repeat_n_foreign_view.h): the data members
`pointer location = nullptr; std::size_t curr = 0;`. -/
structure repeat_n_foreign_view.const_iterator where
  location : pointer := nullptr
  curr : Nat := 0
deriving DecidableEq

namespace repeat_n_foreign_view.const_iterator

/-- Source: `reference operator*() const { return *location; }`. -/
def operator_star (self : const_iterator) : reference := ⟨self.location⟩

/-- Source: `operator++()`: `++curr; return *this;`. -/
def operator_preinc (self : const_iterator) : const_iterator :=
  ⟨self.location, to_size_t ((self.curr : Int) + 1)⟩

/-- Source: `operator==`: throws when `lhs.location != rhs.location`, else
`return lhs.curr == rhs.curr;`. -/
def operator_eq (lhs rhs : const_iterator) : Except exception Bool :=
  if lhs.location ≠ rhs.location then
    Except.error (exception.invalid_argument "Requested comparison between different views")
  else
    Except.ok (decide (lhs.curr = rhs.curr))

/-- Source: `operator!=`: `return !(lhs == rhs);`. -/
def operator_ne (lhs rhs : const_iterator) : Except exception Bool :=
  match operator_eq lhs rhs with
  | Except.ok r => Except.ok (!r)
  | Except.error e => Except.error e

/-- Source: `pointer operator->() const { return &operator*(); }`. -/
def operator_arrow (self : const_iterator) : pointer := (operator_star self).addr

/-- Source: `operator++(int)`: `auto prev = *this; ++*this; return prev;`.
The result is (returned copy, updated `*this`). -/
def operator_postinc (self : const_iterator) : const_iterator × const_iterator :=
  (self, operator_preinc self)

/-- Source: `operator--()`: `--curr; return *this;`. -/
def operator_predec (self : const_iterator) : const_iterator :=
  ⟨self.location, to_size_t ((self.curr : Int) - 1)⟩

/-- Source: `operator--(int)`: `auto prev = *this; --*this; return prev;`.
The result is (returned copy, updated `*this`). -/
def operator_postdec (self : const_iterator) : const_iterator × const_iterator :=
  (self, operator_predec self)

/-- Source: `operator+=(difference_type n)`: `curr += n; return *this;`. -/
def operator_add_assign (self : const_iterator) (n : Int) : const_iterator :=
  ⟨self.location, to_size_t ((self.curr : Int) + n)⟩

/-- Source: `operator+(a, n)`: `return a += n;` on the by-value copy `a`. -/
def operator_plus (a : const_iterator) (n : Int) : const_iterator :=
  operator_add_assign a n

/-- Source: `operator+(n, a)`: `return a + n;`. -/
def operator_plus_left (n : Int) (a : const_iterator) : const_iterator :=
  operator_plus a n

/-- Source: `operator-=(difference_type n)`: `return operator+=(-n);`. -/
def operator_sub_assign (self : const_iterator) (n : Int) : const_iterator :=
  operator_add_assign self (-n)

/-- Source: `operator-(a, n)`: `return a -= n;` on the by-value copy `a`. -/
def operator_minus (a : const_iterator) (n : Int) : const_iterator :=
  operator_sub_assign a n

/-- Source: iterator difference `operator-(a, b)`: throws when
`a.location != b.location`, else `return a.curr - b.curr;` (an unsigned subtraction
converted to `difference_type`). -/
def operator_diff (a b : const_iterator) : Except exception Int :=
  if a.location ≠ b.location then
    Except.error (exception.invalid_argument "Requested difference between different views")
  else
    Except.ok (to_ptrdiff_t (to_size_t ((a.curr : Int) - (b.curr : Int))))

/-- Source: `reference operator[](difference_type n) { return *location; }`. -/
def operator_index (self : const_iterator) (_n : Int) : reference := ⟨self.location⟩

/-- Source: `operator<`: throws when `a.location != b.location`, else
`return a.curr < b.curr;`. -/
def operator_lt (a b : const_iterator) : Except exception Bool :=
  if a.location ≠ b.location then
    Except.error (exception.invalid_argument "Requested comparison between different views")
  else
    Except.ok (decide (a.curr < b.curr))

/-- Source: `operator<=`: throws when `a.location != b.location`, else
`return a.curr <= b.curr;`. -/
def operator_le (a b : const_iterator) : Except exception Bool :=
  if a.location ≠ b.location then
    Except.error (exception.invalid_argument "Requested comparison between different views")
  else
    Except.ok (decide (a.curr ≤ b.curr))

/-- Source: `operator>`: `return !(a <= b);`. -/
def operator_gt (a b : const_iterator) : Except exception Bool :=
  match operator_le a b with
  | Except.ok r => Except.ok (!r)
  | Except.error e => Except.error e

/-- Source: `operator>=`: `return !(a < b);`. -/
def operator_ge (a b : const_iterator) : Except exception Bool :=
  match operator_lt a b with
  | Except.ok r => Except.ok (!r)
  | Except.error e => Except.error e

end repeat_n_foreign_view.const_iterator

/-- Class `repeat_n_view::repeat_n_foreign_view<T, N>` (src/foreign/repeat_n_foreign_view.h). The view stores the member
`const_pointer __contents;`, set by the constructor from `outsider`. -/
structure repeat_n_foreign_view (N : Nat) where
  __contents : pointer
deriving DecidableEq

namespace repeat_n_foreign_view

/-- Source: `const_iterator begin() const noexcept { return const_iterator(__contents, 0); }`. -/
def begin {N : Nat} (self : repeat_n_foreign_view N) : const_iterator :=
  ⟨self.__contents, 0⟩

/-- Source: `const_iterator cbegin() const noexcept { return const_iterator(__contents, 0); }`. -/
def cbegin {N : Nat} (self : repeat_n_foreign_view N) : const_iterator :=
  ⟨self.__contents, 0⟩

/-- Source: `const_iterator end() const noexcept { return const_iterator(__contents, N); }`. -/
def end_ {N : Nat} (self : repeat_n_foreign_view N) : const_iterator :=
  ⟨self.__contents, N⟩

/-- Source: `const_iterator cend() const noexcept { return const_iterator(__contents, N); }`. -/
def cend {N : Nat} (self : repeat_n_foreign_view N) : const_iterator :=
  ⟨self.__contents, N⟩

/-- Source: `size_type size() const noexcept { return N; }`. -/
def size {N : Nat} (_self : repeat_n_foreign_view N) : Nat := N

/-- Source: `max_size()`: `return std::numeric_limits<difference_type>::max();`. -/
def max_size {N : Nat} (_self : repeat_n_foreign_view N) : Int := PTRDIFF_MAX

end repeat_n_foreign_view

end repeat_n_view

/-! ## `notstd::dereferencing_single_view` (src/dereferencing/dereferencing_single_view.h) -/

namespace notstd

/-- Class `iterator` of `notstd::dereferencing_single_view` (src/dereferencing/dereferencing_single_view.h): the data members
`pointer location = nullptr; std::size_t curr = 0;`. -/
structure dereferencing_single_view.iterator where
  location : pointer := nullptr
  curr : Nat := 0
deriving DecidableEq

namespace dereferencing_single_view.iterator

/-- Source: `reference operator*() const { return *location; }`. -/
def operator_star (self : iterator) : reference := ⟨self.location⟩

/-- Source: `operator++()`: `++curr; return *this;`. -/
def operator_preinc (self : iterator) : iterator :=
  ⟨self.location, to_size_t ((self.curr : Int) + 1)⟩

/-- Source: `operator==`: throws when `lhs.location != rhs.location`, else
`return lhs.curr == rhs.curr;`. -/
def operator_eq (lhs rhs : iterator) : Except exception Bool :=
  if lhs.location ≠ rhs.location then
    Except.error (exception.invalid_argument "Requested comparison between different views")
  else
    Except.ok (decide (lhs.curr = rhs.curr))

/-- Source: `operator!=`: `return !(lhs == rhs);`. -/
def operator_ne (lhs rhs : iterator) : Except exception Bool :=
  match operator_eq lhs rhs with
  | Except.ok r => Except.ok (!r)
  | Except.error e => Except.error e

/-- Source: `pointer operator->() const { return &operator*(); }`. -/
def operator_arrow (self : iterator) : pointer := (operator_star self).addr

/-- Source: `operator++(int)`: `auto prev = *this; ++*this; return prev;`.
The result is (returned copy, updated `*this`). -/
def operator_postinc (self : iterator) : iterator × iterator :=
  (self, operator_preinc self)

/-- Source: `operator--()`: `--curr; return *this;`. -/
def operator_predec (self : iterator) : iterator :=
  ⟨self.location, to_size_t ((self.curr : Int) - 1)⟩

/-- Source: `operator--(int)`: `auto prev = *this; --*this; return prev;`.
The result is (returned copy, updated `*this`). -/
def operator_postdec (self : iterator) : iterator × iterator :=
  (self, operator_predec self)

/-- Source: `operator+=(difference_type n)`: `curr += n; return *this;`. -/
def operator_add_assign (self : iterator) (n : Int) : iterator :=
  ⟨self.location, to_size_t ((self.curr : Int) + n)⟩

/-- Source: `operator+(a, n)`: `return a += n;` on the by-value copy `a`. -/
def operator_plus (a : iterator) (n : Int) : iterator :=
  operator_add_assign a n

/-- Source: `operator+(n, a)`: `return a + n;`. -/
def operator_plus_left (n : Int) (a : iterator) : iterator :=
  operator_plus a n

/-- Source: `operator-=(difference_type n)`: `return operator+=(-n);`. -/
def operator_sub_assign (self : iterator) (n : Int) : iterator :=
  operator_add_assign self (-n)

/-- Source: `operator-(a, n)`: `return a -= n;` on the by-value copy `a`. -/
def operator_minus (a : iterator) (n : Int) : iterator :=
  operator_sub_assign a n

/-- Source: iterator difference `operator-(a, b)`: throws when
`a.location != b.location`, else `return a.curr - b.curr;` (an unsigned subtraction
converted to `difference_type`). -/
def operator_diff (a b : iterator) : Except exception Int :=
  if a.location ≠ b.location then
    Except.error (exception.invalid_argument "Requested difference between different views")
  else
    Except.ok (to_ptrdiff_t (to_size_t ((a.curr : Int) - (b.curr : Int))))

/-- Source: `reference operator[](difference_type n) { return *location; }`. -/
def operator_index (self : iterator) (_n : Int) : reference := ⟨self.location⟩

/-- Source: `operator<`: throws when `a.location != b.location`, else
`return a.curr < b.curr;`. -/
def operator_lt (a b : iterator) : Except exception Bool :=
  if a.location ≠ b.location then
    Except.error (exception.invalid_argument "Requested comparison between different views")
  else
    Except.ok (decide (a.curr < b.curr))

/-- Source: `operator<=`: throws when `a.location != b.location`, else
`return a.curr <= b.curr;`. -/
def operator_le (a b : iterator) : Except exception Bool :=
  if a.location ≠ b.location then
    Except.error (exception.invalid_argument "Requested comparison between different views")
  else
    Except.ok (decide (a.curr ≤ b.curr))

/-- Source: `operator>`: `return !(a <= b);`. -/
def operator_gt (a b : iterator) : Except exception Bool :=
  match operator_le a b with
  | Except.ok r => Except.ok (!r)
  | Except.error e => Except.error e

/-- Source: `operator>=`: `return !(a < b);`. -/
def operator_ge (a b : iterator) : Except exception Bool :=
  match operator_lt a b with
  | Except.ok r => Except.ok (!r)
  | Except.error e => Except.error e

end dereferencing_single_view.iterator

/-- Class `notstd::dereferencing_single_view<T, N>` (src/dereferencing/dereferencing_single_view.h). The view stores the member
`const_pointer contents;`, set by the constructor from `outsider`. -/
structure dereferencing_single_view (N : Nat) where
  contents : pointer
deriving DecidableEq

namespace dereferencing_single_view

/-- Source: `using const_iterator = iterator;`. -/
abbrev const_iterator := iterator

/-- Source: `iterator begin() noexcept { return iterator(contents, 0); }`. -/
def begin {N : Nat} (self : dereferencing_single_view N) : iterator :=
  ⟨self.contents, 0⟩

/-- Source: `const_iterator begin() const noexcept { return const_iterator(contents, 0); }`. -/
def begin_const {N : Nat} (self : dereferencing_single_view N) : const_iterator :=
  ⟨self.contents, 0⟩

/-- Source: `const_iterator cbegin() const noexcept { return const_iterator(contents, 0); }`. -/
def cbegin {N : Nat} (self : dereferencing_single_view N) : const_iterator :=
  ⟨self.contents, 0⟩

/-- Source: `iterator end() noexcept { return iterator(contents, N); }`. -/
def end_ {N : Nat} (self : dereferencing_single_view N) : iterator :=
  ⟨self.contents, N⟩

/-- Source: `const_iterator end() const noexcept { return const_iterator(contents, N); }`. -/
def end_const {N : Nat} (self : dereferencing_single_view N) : const_iterator :=
  ⟨self.contents, N⟩

/-- Source: `const_iterator cend() const noexcept { return const_iterator(contents, N); }`. -/
def cend {N : Nat} (self : dereferencing_single_view N) : const_iterator :=
  ⟨self.contents, N⟩

/-- Source: `size_type size() const noexcept { return N; }`. -/
def size {N : Nat} (_self : dereferencing_single_view N) : Nat := N

/-- Source: `max_size()`: `return std::numeric_limits<difference_type>::max();`. -/
def max_size {N : Nat} (_self : dereferencing_single_view N) : Int := PTRDIFF_MAX

end dereferencing_single_view

end notstd

/-! ## `repeat_n::foreign_view` (src/include-noexcept/foreign_view.h) -/

namespace repeat_n

/-- Class `const_iterator` of `repeat_n::foreign_view` (src/include-noexcept/foreign_view.h): the data members
`pointer location = nullptr; std::size_t curr = 0;`. -/
structure foreign_view.const_iterator where
  location : pointer := nullptr
  curr : Nat := 0
deriving DecidableEq

namespace foreign_view.const_iterator

/-- Source: `reference operator*() const { return *location; }`. -/
def operator_star (self : const_iterator) : reference := ⟨self.location⟩

/-- Source: `operator++()`: `++curr; return *this;`. -/
def operator_preinc (self : const_iterator) : const_iterator :=
  ⟨self.location, to_size_t ((self.curr : Int) + 1)⟩

/-- Source: `operator==`: throws when `lhs.location != rhs.location`, else
`return lhs.curr == rhs.curr;`. -/
def operator_eq (lhs rhs : const_iterator) : Except exception Bool :=
  if lhs.location ≠ rhs.location then
    Except.error (exception.invalid_argument "Requested comparison between different views")
  else
    Except.ok (decide (lhs.curr = rhs.curr))

/-- Source: `operator!=`: `return !(lhs == rhs);`. -/
def operator_ne (lhs rhs : const_iterator) : Except exception Bool :=
  match operator_eq lhs rhs with
  | Except.ok r => Except.ok (!r)
  | Except.error e => Except.error e

/-- Source: `pointer operator->() const { return &operator*(); }`. -/
def operator_arrow (self : const_iterator) : pointer := (operator_star self).addr

/-- Source: `operator++(int)`: `auto prev = *this; ++*this; return prev;`.
The result is (returned copy, updated `*this`). -/
def operator_postinc (self : const_iterator) : const_iterator × const_iterator :=
  (self, operator_preinc self)

/-- Source: `operator--()`: `--curr; return *this;`. -/
def operator_predec (self : const_iterator) : const_iterator :=
  ⟨self.location, to_size_t ((self.curr : Int) - 1)⟩

/-- Source: `operator--(int)`: `auto prev = *this; --*this; return prev;`.
The result is (returned copy, updated `*this`). -/
def operator_postdec (self : const_iterator) : const_iterator × const_iterator :=
  (self, operator_predec self)

/-- Source: `operator+=(difference_type n)`: `curr += n; return *this;`. -/
def operator_add_assign (self : const_iterator) (n : Int) : const_iterator :=
  ⟨self.location, to_size_t ((self.curr : Int) + n)⟩

/-- Source: `operator+(a, n)`: `return a += n;` on the by-value copy `a`. -/
def operator_plus (a : const_iterator) (n : Int) : const_iterator :=
  operator_add_assign a n

/-- Source: `operator+(n, a)`: `return a + n;`. -/
def operator_plus_left (n : Int) (a : const_iterator) : const_iterator :=
  operator_plus a n

/-- Source: `operator-=(difference_type n)`: `return operator+=(-n);`. -/
def operator_sub_assign (self : const_iterator) (n : Int) : const_iterator :=
  operator_add_assign self (-n)

/-- Source: `operator-(a, n)`: `return a -= n;` on the by-value copy `a`. -/
def operator_minus (a : const_iterator) (n : Int) : const_iterator :=
  operator_sub_assign a n

/-- Source: iterator difference `operator-(a, b)`: throws when
`a.location != b.location`, else `return a.curr - b.curr;` (an unsigned subtraction
converted to `difference_type`). -/
def operator_diff (a b : const_iterator) : Except exception Int :=
  if a.location ≠ b.location then
    Except.error (exception.invalid_argument "Requested difference between different views")
  else
    Except.ok (to_ptrdiff_t (to_size_t ((a.curr : Int) - (b.curr : Int))))

/-- Source: `reference operator[](difference_type n) { return *(location + n); }`;
`sizeof_T` is `sizeof(T)` of the element type. -/
def operator_index (sizeof_T : Nat) (self : const_iterator) (n : Int) : reference :=
  ⟨pointer_add sizeof_T self.location n⟩

/-- Source: `operator<`: throws when `a.location != b.location`, else
`return a.curr < b.curr;`. -/
def operator_lt (a b : const_iterator) : Except exception Bool :=
  if a.location ≠ b.location then
    Except.error (exception.invalid_argument "Requested comparison between different views")
  else
    Except.ok (decide (a.curr < b.curr))

/-- Source: `operator<=`: throws when `a.location != b.location`, else
`return a.curr <= b.curr;`. -/
def operator_le (a b : const_iterator) : Except exception Bool :=
  if a.location ≠ b.location then
    Except.error (exception.invalid_argument "Requested comparison between different views")
  else
    Except.ok (decide (a.curr ≤ b.curr))

/-- Source: `operator>`: `return !(a <= b);`. -/
def operator_gt (a b : const_iterator) : Except exception Bool :=
  match operator_le a b with
  | Except.ok r => Except.ok (!r)
  | Except.error e => Except.error e

/-- Source: `operator>=`: `return !(a < b);`. -/
def operator_ge (a b : const_iterator) : Except exception Bool :=
  match operator_lt a b with
  | Except.ok r => Except.ok (!r)
  | Except.error e => Except.error e

end foreign_view.const_iterator

/-- Class `repeat_n::foreign_view<T, N>` (src/include-noexcept/foreign_view.h). The view stores the member
`const_pointer M_contents;`, set by the constructor from `outsider`. -/
structure foreign_view (N : Nat) where
  M_contents : pointer
deriving DecidableEq

namespace foreign_view

/-- Source: `const_iterator begin() const noexcept { return const_iterator(M_contents, 0); }`. -/
def begin {N : Nat} (self : foreign_view N) : const_iterator :=
  ⟨self.M_contents, 0⟩

/-- Source: `const_iterator cbegin() const noexcept { return const_iterator(M_contents, 0); }`. -/
def cbegin {N : Nat} (self : foreign_view N) : const_iterator :=
  ⟨self.M_contents, 0⟩

/-- Source: `const_iterator end() const noexcept { return const_iterator(M_contents, N); }`. -/
def end_ {N : Nat} (self : foreign_view N) : const_iterator :=
  ⟨self.M_contents, N⟩

/-- Source: `const_iterator cend() const noexcept { return const_iterator(M_contents, N); }`. -/
def cend {N : Nat} (self : foreign_view N) : const_iterator :=
  ⟨self.M_contents, N⟩

/-- Source: `size_type size() const noexcept { return N; }`. -/
def size {N : Nat} (_self : foreign_view N) : Nat := N

/-- Source: `max_size()`: `return std::numeric_limits<difference_type>::max();`. -/
def max_size {N : Nat} (_self : foreign_view N) : Int := PTRDIFF_MAX

end foreign_view

end repeat_n

/-! ## `repeat_n::owned_view` (src/include-noexcept/owned_view.h) -/

namespace repeat_n

/-- Class `_iterator_templ<mutability>` of `repeat_n::owned_view` (src/include-noexcept/owned_view.h): the data members
`pointer location = nullptr; std::size_t curr = 0;`. -/
structure owned_view._iterator_templ (mutability : Bool) where
  location : pointer := nullptr
  curr : Nat := 0
deriving DecidableEq

namespace owned_view._iterator_templ

/-- Source: `reference operator*() const { return *location; }`. -/
def operator_star {mutability : Bool} (self : _iterator_templ mutability) : reference := ⟨self.location⟩

/-- Source: `operator++()`: `++curr; return *this;`. -/
def operator_preinc {mutability : Bool} (self : _iterator_templ mutability) : _iterator_templ mutability :=
  ⟨self.location, to_size_t ((self.curr : Int) + 1)⟩

/-- Source: `operator==`: `return lhs.location == rhs.location && lhs.curr == rhs.curr;`. -/
def operator_eq {mutability : Bool} (lhs rhs : _iterator_templ mutability) : Except exception Bool :=
  Except.ok (decide (lhs.location = rhs.location) && decide (lhs.curr = rhs.curr))

/-- Source: `operator!=`: `return !(lhs == rhs);`. -/
def operator_ne {mutability : Bool} (lhs rhs : _iterator_templ mutability) : Except exception Bool :=
  match operator_eq lhs rhs with
  | Except.ok r => Except.ok (!r)
  | Except.error e => Except.error e

/-- Source: `pointer operator->() const { return &operator*(); }`. -/
def operator_arrow {mutability : Bool} (self : _iterator_templ mutability) : pointer := (operator_star self).addr

/-- Source: `operator++(int)`: `auto prev = *this; ++*this; return prev;`.
The result is (returned copy, updated `*this`). -/
def operator_postinc {mutability : Bool} (self : _iterator_templ mutability) : _iterator_templ mutability × _iterator_templ mutability :=
  (self, operator_preinc self)

/-- Source: `operator--()`: `--curr; return *this;`. -/
def operator_predec {mutability : Bool} (self : _iterator_templ mutability) : _iterator_templ mutability :=
  ⟨self.location, to_size_t ((self.curr : Int) - 1)⟩

/-- Source: `operator--(int)`: `auto prev = *this; --*this; return prev;`.
The result is (returned copy, updated `*this`). -/
def operator_postdec {mutability : Bool} (self : _iterator_templ mutability) : _iterator_templ mutability × _iterator_templ mutability :=
  (self, operator_predec self)

/-- Source: `operator+=(difference_type n)`: `curr += n; return *this;`. -/
def operator_add_assign {mutability : Bool} (self : _iterator_templ mutability) (n : Int) : _iterator_templ mutability :=
  ⟨self.location, to_size_t ((self.curr : Int) + n)⟩

/-- Source: `operator+(a, n)`: `return a += n;` on the by-value copy `a`. -/
def operator_plus {mutability : Bool} (a : _iterator_templ mutability) (n : Int) : _iterator_templ mutability :=
  operator_add_assign a n

/-- Source: `operator+(n, a)`: `return a + n;`. -/
def operator_plus_left {mutability : Bool} (n : Int) (a : _iterator_templ mutability) : _iterator_templ mutability :=
  operator_plus a n

/-- Source: `operator-=(difference_type n)`: `return operator+=(-n);`. -/
def operator_sub_assign {mutability : Bool} (self : _iterator_templ mutability) (n : Int) : _iterator_templ mutability :=
  operator_add_assign self (-n)

/-- Source: `operator-(a, n)`: `return a -= n;` on the by-value copy `a`. -/
def operator_minus {mutability : Bool} (a : _iterator_templ mutability) (n : Int) : _iterator_templ mutability :=
  operator_sub_assign a n

/-- Source: iterator difference `operator-(a, b)`:
`return a.location == b.location ? a.curr - b.curr : 0;` (the conditional has type
`std::size_t` and is converted to `difference_type`). -/
def operator_diff {mutability : Bool} (a b : _iterator_templ mutability) : Except exception Int :=
  Except.ok (to_ptrdiff_t
    (if a.location = b.location then to_size_t ((a.curr : Int) - (b.curr : Int)) else 0))

/-- Source: `reference operator[](difference_type n) { return *(location + n); }`;
`sizeof_T` is `sizeof(T)` of the element type. -/
def operator_index {mutability : Bool} (sizeof_T : Nat) (self : _iterator_templ mutability) (n : Int) : reference :=
  ⟨pointer_add sizeof_T self.location n⟩

/-- Source: `operator<`: `return a.location == b.location && a.curr < b.curr;`. -/
def operator_lt {mutability : Bool} (a b : _iterator_templ mutability) : Except exception Bool :=
  Except.ok (decide (a.location = b.location) && decide (a.curr < b.curr))

/-- Source: `operator<=`: `return a.location == b.location && a.curr <= b.curr;`. -/
def operator_le {mutability : Bool} (a b : _iterator_templ mutability) : Except exception Bool :=
  Except.ok (decide (a.location = b.location) && decide (a.curr ≤ b.curr))

/-- Source: `operator>`: `return !(a <= b);`. -/
def operator_gt {mutability : Bool} (a b : _iterator_templ mutability) : Except exception Bool :=
  match operator_le a b with
  | Except.ok r => Except.ok (!r)
  | Except.error e => Except.error e

/-- Source: `operator>=`: `return !(a < b);`. -/
def operator_ge {mutability : Bool} (a b : _iterator_templ mutability) : Except exception Bool :=
  match operator_lt a b with
  | Except.ok r => Except.ok (!r)
  | Except.error e => Except.error e

/-- Source: the converting constructor from `iterator` to `const_iterator`:
`location(other.location), curr(other.curr)`. -/
def of_iterator (other : _iterator_templ true) : _iterator_templ false :=
  ⟨other.location, other.curr⟩

/-- Source: the converting assignment of an `iterator` to a `const_iterator`:
`location = other.location; curr = other.curr; return *this;`. -/
def operator_assign (_self : _iterator_templ false) (other : _iterator_templ true) : _iterator_templ false :=
  ⟨other.location, other.curr⟩

end owned_view._iterator_templ

/-- Class `repeat_n::owned_view<T, N>` (src/include-noexcept/owned_view.h). The view owns the member `T M_contents;`:
the field is `std::addressof(M_contents)`, the address at which this value is stored. -/
structure owned_view (N : Nat) where
  addressof_M_contents : pointer
deriving DecidableEq

namespace owned_view

/-- Source: `using iterator = _iterator_templ<true>;`. -/
abbrev iterator := _iterator_templ true

/-- Source: `using const_iterator = _iterator_templ<false>;`. -/
abbrev const_iterator := _iterator_templ false

/-- Source: `iterator begin() noexcept { return iterator(std::addressof(M_contents), 0); }`. -/
def begin {N : Nat} (self : owned_view N) : iterator :=
  ⟨self.addressof_M_contents, 0⟩

/-- Source: `const_iterator begin() const noexcept { return const_iterator(std::addressof(M_contents), 0); }`. -/
def begin_const {N : Nat} (self : owned_view N) : const_iterator :=
  ⟨self.addressof_M_contents, 0⟩

/-- Source: `const_iterator cbegin() const noexcept { return const_iterator(std::addressof(M_contents), 0); }`. -/
def cbegin {N : Nat} (self : owned_view N) : const_iterator :=
  ⟨self.addressof_M_contents, 0⟩

/-- Source: `iterator end() noexcept { return iterator(std::addressof(M_contents), N); }`. -/
def end_ {N : Nat} (self : owned_view N) : iterator :=
  ⟨self.addressof_M_contents, N⟩

/-- Source: `const_iterator end() const noexcept { return const_iterator(std::addressof(M_contents), N); }`. -/
def end_const {N : Nat} (self : owned_view N) : const_iterator :=
  ⟨self.addressof_M_contents, N⟩

/-- Source: `const_iterator cend() const noexcept { return const_iterator(std::addressof(M_contents), N); }`. -/
def cend {N : Nat} (self : owned_view N) : const_iterator :=
  ⟨self.addressof_M_contents, N⟩

/-- Source: `size_type size() const noexcept { return N; }`. -/
def size {N : Nat} (_self : owned_view N) : Nat := N

/-- Source: `max_size()`: `return std::numeric_limits<difference_type>::max();`. -/
def max_size {N : Nat} (_self : owned_view N) : Int := PTRDIFF_MAX

end owned_view

end repeat_n

/-! ## Memory, reverse iterators and iteration -/

namespace cxx

/-- The values of the objects of the element type `T`, by address. -/
abbrev memory (T : Type) := pointer → T

/-- Reading an lvalue: the value of the object it designates. -/
def load {T : Type} (m : memory T) (r : reference) : T := m r.addr

/-- Assigning `w` through an lvalue: the object it designates takes the value `w`, every
other object keeps its value. -/
def store {T : Type} (m : memory T) (r : reference) (w : T) : memory T :=
  fun a => if a = r.addr then w else m a

/-- Modelled from the spec: `std::reverse_iterator<Iterator>`, the standard reverse adapter
(standard library, not in src/) that `rbegin()`, `rend()`, `crbegin()` and `crend()` build
from a forward iterator: it wraps the iterator `current` given to its constructor. -/
structure reverse_iterator (Iterator : Type) where
  current : Iterator
deriving DecidableEq

/-- Modelled from the spec: `std::reverse_iterator::base()`, `return current;`. -/
def reverse_iterator.base {Iterator : Type} (self : reverse_iterator Iterator) : Iterator :=
  self.current

/-- Modelled from the spec: `std::reverse_iterator::operator*()`,
`Iterator tmp = current; return *--tmp;`, instantiated with the `operator--` and `operator*`
of `Iterator`. -/
def reverse_iterator.operator_star {Iterator : Type} (operator_predec : Iterator → Iterator)
    (operator_star : Iterator → reference) (self : reverse_iterator Iterator) : reference :=
  operator_star (operator_predec self.current)

/-- Modelled from the spec: the difference of two `std::reverse_iterator`s,
`operator-(x, y)`: `return y.base() - x.base();`, instantiated with the difference of
`Iterator`. -/
def reverse_iterator.operator_diff {Iterator : Type}
    (operator_diff : Iterator → Iterator → Except exception Int)
    (x y : reverse_iterator Iterator) : Except exception Int :=
  operator_diff y.base x.base

/-- Modelled from the spec: the forward iteration of a client over a range (the scenario
"iterating forward yields the sequence"; client code, not in src/):
`for (auto it = first; it != last; ++it) visit(*it);`, instantiated with the `operator!=`,
`operator++` and `operator*` of the iterator. The result is the list of the values read, in
order; an exception of `operator!=` ends the walk; `none` means that `fuel` evaluations of
the loop condition were not enough to finish. -/
def walk {Iterator T : Type} (operator_ne : Iterator → Iterator → Except exception Bool)
    (operator_preinc : Iterator → Iterator) (operator_star : Iterator → reference)
    (m : memory T) (last : Iterator) : Nat → Iterator → Option (Except exception (List T))
  | 0, _ => none
  | fuel + 1, it =>
    match operator_ne it last with
    | Except.error e => some (Except.error e)
    | Except.ok false => some (Except.ok [])
    | Except.ok true =>
      match walk operator_ne operator_preinc operator_star m last fuel (operator_preinc it) with
      | some (Except.ok vs) => some (Except.ok (load m (operator_star it) :: vs))
      | some (Except.error e) => some (Except.error e)
      | none => none

/-- The operations that move an iterator: `++it`, `it++`, `--it`, `it--`, `it += n`,
`it -= n`, `it + n`, `n + it`, `it - n`. -/
inductive move where
  | preinc
  | postinc
  | predec
  | postdec
  | add_assign (n : Int)
  | sub_assign (n : Int)
  | plus (n : Int)
  | plus_left (n : Int)
  | minus (n : Int)
deriving DecidableEq

end cxx

/-! ### `repeat_n_view::repeat_n_owned_view` (src/owned/repeat_n_owned_view.h), continued -/

namespace repeat_n_view.repeat_n_owned_view

/-- The iterator that a variable holds after one move is applied to it: for the
compound and unary forms the updated `*this`, for the binary forms the returned
iterator. -/
def _iterator_templ.apply_move {mutability : Bool} (mv : move) (self : _iterator_templ mutability) : _iterator_templ mutability :=
  match mv with
  | move.preinc => _iterator_templ.operator_preinc self
  | move.postinc => (_iterator_templ.operator_postinc self).2
  | move.predec => _iterator_templ.operator_predec self
  | move.postdec => (_iterator_templ.operator_postdec self).2
  | move.add_assign n => _iterator_templ.operator_add_assign self n
  | move.sub_assign n => _iterator_templ.operator_sub_assign self n
  | move.plus n => _iterator_templ.operator_plus self n
  | move.plus_left n => _iterator_templ.operator_plus_left n self
  | move.minus n => _iterator_templ.operator_minus self n

/-- Source: `template<typename... Args> explicit repeat_n_owned_view(Args &&... args) :
__contents(std::forward<Args>(args)...) {}`. The view is placed so that its member
`__contents` is at address `addressof`, and `value` is the `T` that the arguments construct. -/
def construct {T : Type} (N : Nat) (m : memory T) (addressof : pointer) (value : T) :
    repeat_n_owned_view N × memory T :=
  (⟨addressof⟩, store m ⟨addressof⟩ value)

/-- Source: `reference data() noexcept { return __contents; }`. -/
def data {N : Nat} (self : repeat_n_owned_view N) : reference := ⟨self.addressof___contents⟩

/-- Source: `const_reference data() const noexcept { return __contents; }`. -/
def data_const {N : Nat} (self : repeat_n_owned_view N) : reference := ⟨self.addressof___contents⟩

/-- Source: `using reverse_iterator = std::reverse_iterator<iterator>;`. -/
abbrev reverse_iterator := cxx.reverse_iterator iterator

/-- Source: `using const_reverse_iterator = std::reverse_iterator<const_iterator>;`. -/
abbrev const_reverse_iterator := cxx.reverse_iterator const_iterator

/-- Source: `reverse_iterator rbegin() noexcept { return reverse_iterator(end()); }`. -/
def rbegin {N : Nat} (self : repeat_n_owned_view N) : reverse_iterator :=
  ⟨self.end_⟩

/-- Source: `const_reverse_iterator rbegin() const noexcept { return const_reverse_iterator(end()); }`. -/
def rbegin_const {N : Nat} (self : repeat_n_owned_view N) : const_reverse_iterator :=
  ⟨self.end_const⟩

/-- Source: `const_reverse_iterator crbegin() const noexcept { return const_reverse_iterator(cend()); }`. -/
def crbegin {N : Nat} (self : repeat_n_owned_view N) : const_reverse_iterator :=
  ⟨self.cend⟩

/-- Source: `reverse_iterator rend() noexcept { return reverse_iterator(begin()); }`. -/
def rend {N : Nat} (self : repeat_n_owned_view N) : reverse_iterator :=
  ⟨self.begin⟩

/-- Source: `const_reverse_iterator rend() const noexcept { return const_reverse_iterator(begin()); }`. -/
def rend_const {N : Nat} (self : repeat_n_owned_view N) : const_reverse_iterator :=
  ⟨self.begin_const⟩

/-- Source: `const_reverse_iterator crend() const noexcept { return const_reverse_iterator(cbegin()); }`. -/
def crend {N : Nat} (self : repeat_n_owned_view N) : const_reverse_iterator :=
  ⟨self.cbegin⟩

end repeat_n_view.repeat_n_owned_view

/-! ### `notstd::single_view` (src/normal/single_view.h), continued -/

namespace notstd.single_view

/-- The iterator that a variable holds after one move is applied to it: for the
compound and unary forms the updated `*this`, for the binary forms the returned
iterator. -/
def _iterator_templ.apply_move {mutability : Bool} (mv : move) (self : _iterator_templ mutability) : _iterator_templ mutability :=
  match mv with
  | move.preinc => _iterator_templ.operator_preinc self
  | move.postinc => (_iterator_templ.operator_postinc self).2
  | move.predec => _iterator_templ.operator_predec self
  | move.postdec => (_iterator_templ.operator_postdec self).2
  | move.add_assign n => _iterator_templ.operator_add_assign self n
  | move.sub_assign n => _iterator_templ.operator_sub_assign self n
  | move.plus n => _iterator_templ.operator_plus self n
  | move.plus_left n => _iterator_templ.operator_plus_left n self
  | move.minus n => _iterator_templ.operator_minus self n

/-- Source: `template<typename... Args> explicit single_view(Args &&... args) :
contents(std::forward<Args>(args)...) {}`. The view is placed so that its member
`contents` is at address `addressof`, and `value` is the `T` that the arguments construct. -/
def construct {T : Type} (N : Nat) (m : memory T) (addressof : pointer) (value : T) :
    single_view N × memory T :=
  (⟨addressof⟩, store m ⟨addressof⟩ value)

/-- Source: `reference data() noexcept { return contents; }`. -/
def data {N : Nat} (self : single_view N) : reference := ⟨self.addressof_contents⟩

/-- Source: `const_reference data() const noexcept { return contents; }`. -/
def data_const {N : Nat} (self : single_view N) : reference := ⟨self.addressof_contents⟩

/-- Source: `using reverse_iterator = std::reverse_iterator<iterator>;`. -/
abbrev reverse_iterator := cxx.reverse_iterator iterator

/-- Source: `using const_reverse_iterator = std::reverse_iterator<const_iterator>;`. -/
abbrev const_reverse_iterator := cxx.reverse_iterator const_iterator

/-- Source: `reverse_iterator rbegin() noexcept { return reverse_iterator(end()); }`. -/
def rbegin {N : Nat} (self : single_view N) : reverse_iterator :=
  ⟨self.end_⟩

/-- Source: `const_reverse_iterator rbegin() const noexcept { return const_reverse_iterator(end()); }`. -/
def rbegin_const {N : Nat} (self : single_view N) : const_reverse_iterator :=
  ⟨self.end_const⟩

/-- Source: `const_reverse_iterator crbegin() const noexcept { return const_reverse_iterator(cend()); }`. -/
def crbegin {N : Nat} (self : single_view N) : const_reverse_iterator :=
  ⟨self.cend⟩

/-- Source: `reverse_iterator rend() noexcept { return reverse_iterator(begin()); }`. -/
def rend {N : Nat} (self : single_view N) : reverse_iterator :=
  ⟨self.begin⟩

/-- Source: `const_reverse_iterator rend() const noexcept { return const_reverse_iterator(begin()); }`. -/
def rend_const {N : Nat} (self : single_view N) : const_reverse_iterator :=
  ⟨self.begin_const⟩

/-- Source: `const_reverse_iterator crend() const noexcept { return const_reverse_iterator(cbegin()); }`. -/
def crend {N : Nat} (self : single_view N) : const_reverse_iterator :=
  ⟨self.cbegin⟩

end notstd.single_view

/-! ### `repeat_n_view::repeat_n_foreign_view` (src/foreign/repeat_n_foreign_view.h), continued -/

namespace repeat_n_view.repeat_n_foreign_view

/-- The iterator that a variable holds after one move is applied to it: for the
compound and unary forms the updated `*this`, for the binary forms the returned
iterator. -/
def const_iterator.apply_move (mv : move) (self : const_iterator) : const_iterator :=
  match mv with
  | move.preinc => const_iterator.operator_preinc self
  | move.postinc => (const_iterator.operator_postinc self).2
  | move.predec => const_iterator.operator_predec self
  | move.postdec => (const_iterator.operator_postdec self).2
  | move.add_assign n => const_iterator.operator_add_assign self n
  | move.sub_assign n => const_iterator.operator_sub_assign self n
  | move.plus n => const_iterator.operator_plus self n
  | move.plus_left n => const_iterator.operator_plus_left n self
  | move.minus n => const_iterator.operator_minus self n

/-- Source: `explicit repeat_n_foreign_view(const_pointer outsider) : __contents(outsider) {}`. -/
def construct (N : Nat) (outsider : pointer) : repeat_n_foreign_view N := ⟨outsider⟩

/-- Source: `using const_reverse_iterator = std::reverse_iterator<const_iterator>;`. -/
abbrev const_reverse_iterator := cxx.reverse_iterator const_iterator

/-- Source: `const_reverse_iterator rbegin() const noexcept { return const_reverse_iterator(end()); }`. -/
def rbegin {N : Nat} (self : repeat_n_foreign_view N) : const_reverse_iterator :=
  ⟨self.end_⟩

/-- Source: `const_reverse_iterator crbegin() const noexcept { return const_reverse_iterator(cend()); }`. -/
def crbegin {N : Nat} (self : repeat_n_foreign_view N) : const_reverse_iterator :=
  ⟨self.cend⟩

/-- Source: `const_reverse_iterator rend() const noexcept { return const_reverse_iterator(begin()); }`. -/
def rend {N : Nat} (self : repeat_n_foreign_view N) : const_reverse_iterator :=
  ⟨self.begin⟩

/-- Source: `const_reverse_iterator crend() const noexcept { return const_reverse_iterator(cbegin()); }`. -/
def crend {N : Nat} (self : repeat_n_foreign_view N) : const_reverse_iterator :=
  ⟨self.cbegin⟩

end repeat_n_view.repeat_n_foreign_view

/-! ### `notstd::dereferencing_single_view` (src/dereferencing/dereferencing_single_view.h), continued -/

namespace notstd.dereferencing_single_view

/-- The iterator that a variable holds after one move is applied to it: for the
compound and unary forms the updated `*this`, for the binary forms the returned
iterator. -/
def iterator.apply_move (mv : move) (self : iterator) : iterator :=
  match mv with
  | move.preinc => iterator.operator_preinc self
  | move.postinc => (iterator.operator_postinc self).2
  | move.predec => iterator.operator_predec self
  | move.postdec => (iterator.operator_postdec self).2
  | move.add_assign n => iterator.operator_add_assign self n
  | move.sub_assign n => iterator.operator_sub_assign self n
  | move.plus n => iterator.operator_plus self n
  | move.plus_left n => iterator.operator_plus_left n self
  | move.minus n => iterator.operator_minus self n

/-- Source: `explicit dereferencing_single_view(const_pointer outsider) : contents(outsider) {}`. -/
def construct (N : Nat) (outsider : pointer) : dereferencing_single_view N := ⟨outsider⟩

/-- Source: `using reverse_iterator = std::reverse_iterator<iterator>;`. -/
abbrev reverse_iterator := cxx.reverse_iterator iterator

/-- Source: `using const_reverse_iterator = std::reverse_iterator<const_iterator>;`. -/
abbrev const_reverse_iterator := cxx.reverse_iterator const_iterator

/-- Source: `reverse_iterator rbegin() noexcept { return reverse_iterator(end()); }`. -/
def rbegin {N : Nat} (self : dereferencing_single_view N) : reverse_iterator :=
  ⟨self.end_⟩

/-- Source: `const_reverse_iterator rbegin() const noexcept { return const_reverse_iterator(end()); }`. -/
def rbegin_const {N : Nat} (self : dereferencing_single_view N) : const_reverse_iterator :=
  ⟨self.end_const⟩

/-- Source: `const_reverse_iterator crbegin() const noexcept { return const_reverse_iterator(cend()); }`. -/
def crbegin {N : Nat} (self : dereferencing_single_view N) : const_reverse_iterator :=
  ⟨self.cend⟩

/-- Source: `reverse_iterator rend() noexcept { return reverse_iterator(begin()); }`. -/
def rend {N : Nat} (self : dereferencing_single_view N) : reverse_iterator :=
  ⟨self.begin⟩

/-- Source: `const_reverse_iterator rend() const noexcept { return const_reverse_iterator(begin()); }`. -/
def rend_const {N : Nat} (self : dereferencing_single_view N) : const_reverse_iterator :=
  ⟨self.begin_const⟩

/-- Source: `const_reverse_iterator crend() const noexcept { return const_reverse_iterator(cbegin()); }`. -/
def crend {N : Nat} (self : dereferencing_single_view N) : const_reverse_iterator :=
  ⟨self.cbegin⟩

end notstd.dereferencing_single_view

/-! ### `repeat_n::foreign_view` (src/include-noexcept/foreign_view.h), continued -/

namespace repeat_n.foreign_view

/-- The iterator that a variable holds after one move is applied to it: for the
compound and unary forms the updated `*this`, for the binary forms the returned
iterator. -/
def const_iterator.apply_move (mv : move) (self : const_iterator) : const_iterator :=
  match mv with
  | move.preinc => const_iterator.operator_preinc self
  | move.postinc => (const_iterator.operator_postinc self).2
  | move.predec => const_iterator.operator_predec self
  | move.postdec => (const_iterator.operator_postdec self).2
  | move.add_assign n => const_iterator.operator_add_assign self n
  | move.sub_assign n => const_iterator.operator_sub_assign self n
  | move.plus n => const_iterator.operator_plus self n
  | move.plus_left n => const_iterator.operator_plus_left n self
  | move.minus n => const_iterator.operator_minus self n

/-- Source: `explicit foreign_view(const_pointer outsider) : M_contents(outsider) {}`. -/
def construct (N : Nat) (outsider : pointer) : foreign_view N := ⟨outsider⟩

/-- Source: `using const_reverse_iterator = std::reverse_iterator<const_iterator>;`. -/
abbrev const_reverse_iterator := cxx.reverse_iterator const_iterator

/-- Source: `const_reverse_iterator rbegin() const noexcept { return const_reverse_iterator(end()); }`. -/
def rbegin {N : Nat} (self : foreign_view N) : const_reverse_iterator :=
  ⟨self.end_⟩

/-- Source: `const_reverse_iterator crbegin() const noexcept { return const_reverse_iterator(cend()); }`. -/
def crbegin {N : Nat} (self : foreign_view N) : const_reverse_iterator :=
  ⟨self.cend⟩

/-- Source: `const_reverse_iterator rend() const noexcept { return const_reverse_iterator(begin()); }`. -/
def rend {N : Nat} (self : foreign_view N) : const_reverse_iterator :=
  ⟨self.begin⟩

/-- Source: `const_reverse_iterator crend() const noexcept { return const_reverse_iterator(cbegin()); }`. -/
def crend {N : Nat} (self : foreign_view N) : const_reverse_iterator :=
  ⟨self.cbegin⟩

end repeat_n.foreign_view

/-! ### `repeat_n::owned_view` (src/include-noexcept/owned_view.h), continued -/

namespace repeat_n.owned_view

/-- The iterator that a variable holds after one move is applied to it: for the
compound and unary forms the updated `*this`, for the binary forms the returned
iterator. -/
def _iterator_templ.apply_move {mutability : Bool} (mv : move) (self : _iterator_templ mutability) : _iterator_templ mutability :=
  match mv with
  | move.preinc => _iterator_templ.operator_preinc self
  | move.postinc => (_iterator_templ.operator_postinc self).2
  | move.predec => _iterator_templ.operator_predec self
  | move.postdec => (_iterator_templ.operator_postdec self).2
  | move.add_assign n => _iterator_templ.operator_add_assign self n
  | move.sub_assign n => _iterator_templ.operator_sub_assign self n
  | move.plus n => _iterator_templ.operator_plus self n
  | move.plus_left n => _iterator_templ.operator_plus_left n self
  | move.minus n => _iterator_templ.operator_minus self n

/-- Source: `template<typename... Args> explicit owned_view(Args &&... args) :
M_contents(std::forward<Args>(args)...) {}`. The view is placed so that its member
`M_contents` is at address `addressof`, and `value` is the `T` that the arguments construct. -/
def construct {T : Type} (N : Nat) (m : memory T) (addressof : pointer) (value : T) :
    owned_view N × memory T :=
  (⟨addressof⟩, store m ⟨addressof⟩ value)

/-- Source: `reference data() noexcept { return M_contents; }`. -/
def data {N : Nat} (self : owned_view N) : reference := ⟨self.addressof_M_contents⟩

/-- Source: `const_reference data() const noexcept { return M_contents; }`. -/
def data_const {N : Nat} (self : owned_view N) : reference := ⟨self.addressof_M_contents⟩

/-- Source: `using reverse_iterator = std::reverse_iterator<iterator>;`. -/
abbrev reverse_iterator := cxx.reverse_iterator iterator

/-- Source: `using const_reverse_iterator = std::reverse_iterator<const_iterator>;`. -/
abbrev const_reverse_iterator := cxx.reverse_iterator const_iterator

/-- Source: `reverse_iterator rbegin() noexcept { return reverse_iterator(end()); }`. -/
def rbegin {N : Nat} (self : owned_view N) : reverse_iterator :=
  ⟨self.end_⟩

/-- Source: `const_reverse_iterator rbegin() const noexcept { return const_reverse_iterator(end()); }`. -/
def rbegin_const {N : Nat} (self : owned_view N) : const_reverse_iterator :=
  ⟨self.end_const⟩

/-- Source: `const_reverse_iterator crbegin() const noexcept { return const_reverse_iterator(cend()); }`. -/
def crbegin {N : Nat} (self : owned_view N) : const_reverse_iterator :=
  ⟨self.cend⟩

/-- Source: `reverse_iterator rend() noexcept { return reverse_iterator(begin()); }`. -/
def rend {N : Nat} (self : owned_view N) : reverse_iterator :=
  ⟨self.begin⟩

/-- Source: `const_reverse_iterator rend() const noexcept { return const_reverse_iterator(begin()); }`. -/
def rend_const {N : Nat} (self : owned_view N) : const_reverse_iterator :=
  ⟨self.begin_const⟩

/-- Source: `const_reverse_iterator crend() const noexcept { return const_reverse_iterator(cbegin()); }`. -/
def crend {N : Nat} (self : owned_view N) : const_reverse_iterator :=
  ⟨self.cbegin⟩

end repeat_n.owned_view

/-! ## Default construction -/

/-- Source: `_iterator_templ() = default;` of `repeat_n_view::repeat_n_owned_view`, with the default member
initializers `pointer location = nullptr; std::size_t curr = 0;`. -/
def repeat_n_view.repeat_n_owned_view._iterator_templ.default_constructor {mutability : Bool} : repeat_n_view.repeat_n_owned_view._iterator_templ mutability := {}

/-- Source: `_iterator_templ() = default;` of `notstd::single_view`, with the default member
initializers `pointer location = nullptr; std::size_t curr = 0;`. -/
def notstd.single_view._iterator_templ.default_constructor {mutability : Bool} : notstd.single_view._iterator_templ mutability := {}

/-- Source: `const_iterator() = default;` of `repeat_n_view::repeat_n_foreign_view`, with the default member
initializers `pointer location = nullptr; std::size_t curr = 0;`. -/
def repeat_n_view.repeat_n_foreign_view.const_iterator.default_constructor : repeat_n_view.repeat_n_foreign_view.const_iterator := {}

/-- Source: `iterator() = default;` of `notstd::dereferencing_single_view`, with the default member
initializers `pointer location = nullptr; std::size_t curr = 0;`. -/
def notstd.dereferencing_single_view.iterator.default_constructor : notstd.dereferencing_single_view.iterator := {}

/-- Source: `const_iterator() = default;` of `repeat_n::foreign_view`, with the default member
initializers `pointer location = nullptr; std::size_t curr = 0;`. -/
def repeat_n.foreign_view.const_iterator.default_constructor : repeat_n.foreign_view.const_iterator := {}

/-- Source: `_iterator_templ() = default;` of `repeat_n::owned_view`, with the default member
initializers `pointer location = nullptr; std::size_t curr = 0;`. -/
def repeat_n.owned_view._iterator_templ.default_constructor {mutability : Bool} : repeat_n.owned_view._iterator_templ mutability := {}

/-! ## Machine arithmetic -/

/-- A value converted to `std::size_t` is below `2^64`. -/
theorem cxx.to_size_t_lt (x : Int) : to_size_t x < 18446744073709551616 := by
  unfold to_size_t; omega

/-- A natural number below `2^64` is its own `std::size_t` value. -/
theorem cxx.to_size_t_of_lt (n : Nat) (h : n < 18446744073709551616) :
    to_size_t (n : Int) = n := by
  unfold to_size_t; omega

/-- A `std::size_t` value passed as a `difference_type` argument and converted back is
unchanged. -/
theorem cxx.to_size_t_to_ptrdiff_t (n : Nat) (h : n < 18446744073709551616) :
    to_size_t (to_ptrdiff_t n) = n := by
  unfold to_size_t to_ptrdiff_t; split <;> omega

/-- The unsigned difference converted to `std::ptrdiff_t` is the exact difference precisely
when that difference is representable in 64 signed bits. -/
theorem cxx.to_ptrdiff_t_sub_iff (i j : Nat) :
    to_ptrdiff_t (to_size_t ((i : Int) - (j : Int))) = (i : Int) - (j : Int) ↔
      (-9223372036854775808 ≤ (i : Int) - (j : Int) ∧ (i : Int) - (j : Int) < 9223372036854775808) := by
  unfold to_size_t to_ptrdiff_t; split <;> omega

/-- A `std::size_t` value keeps its value as a `std::ptrdiff_t` precisely below `2^63`. -/
theorem cxx.to_ptrdiff_t_eq_iff (n : Nat) (h : n < 18446744073709551616) :
    to_ptrdiff_t n = (n : Int) ↔ n < 9223372036854775808 := by
  unfold to_ptrdiff_t; split <;> omega

/-- Incrementing after a reduction modulo `2^64` is incrementing before it. -/
theorem cxx.to_size_t_succ (x : Int) :
    to_size_t ((to_size_t x : Int) + 1) = to_size_t (x + 1) := by
  unfold to_size_t; omega

/-- Decrementing after a reduction modulo `2^64` is decrementing before it. -/
theorem cxx.to_size_t_pred (x : Int) :
    to_size_t ((to_size_t x : Int) - 1) = to_size_t (x - 1) := by
  unfold to_size_t; omega

/-! ## Repeated increment and decrement -/

/-- Applying `++` `k` times in `repeat_n_view::repeat_n_owned_view` keeps the storage address and moves the
position by `k` modulo `2^64`. -/
theorem repeat_n_owned_view_iterate_preinc {m : Bool} (k : Nat) (x : repeat_n_view.repeat_n_owned_view._iterator_templ m)
    (hx : x.curr < 18446744073709551616) :
    Nat.iterate repeat_n_view.repeat_n_owned_view._iterator_templ.operator_preinc k x =
      ⟨x.location, to_size_t ((x.curr : Int) + (k : Int))⟩ := by
  induction k with
  | zero =>
    have h0 := cxx.to_size_t_of_lt x.curr hx
    cases x
    simp_all
  | succ k ih =>
    rw [Function.iterate_succ_apply', ih]
    simp only [repeat_n_view.repeat_n_owned_view._iterator_templ.operator_preinc, cxx.to_size_t_succ, Nat.cast_add, Nat.cast_one, add_assoc]

/-- Applying `--` `k` times in `repeat_n_view::repeat_n_owned_view` keeps the storage address and moves the
position by `k` modulo `2^64`. -/
theorem repeat_n_owned_view_iterate_predec {m : Bool} (k : Nat) (x : repeat_n_view.repeat_n_owned_view._iterator_templ m)
    (hx : x.curr < 18446744073709551616) :
    Nat.iterate repeat_n_view.repeat_n_owned_view._iterator_templ.operator_predec k x =
      ⟨x.location, to_size_t ((x.curr : Int) - (k : Int))⟩ := by
  induction k with
  | zero =>
    have h0 := cxx.to_size_t_of_lt x.curr hx
    cases x
    simp_all
  | succ k ih =>
    rw [Function.iterate_succ_apply', ih]
    simp only [repeat_n_view.repeat_n_owned_view._iterator_templ.operator_predec, cxx.to_size_t_pred, Nat.cast_add, Nat.cast_one, sub_sub]

/-- Applying `++` `k` times in `notstd::single_view` keeps the storage address and moves the
position by `k` modulo `2^64`. -/
theorem single_view_iterate_preinc {m : Bool} (k : Nat) (x : notstd.single_view._iterator_templ m)
    (hx : x.curr < 18446744073709551616) :
    Nat.iterate notstd.single_view._iterator_templ.operator_preinc k x =
      ⟨x.location, to_size_t ((x.curr : Int) + (k : Int))⟩ := by
  induction k with
  | zero =>
    have h0 := cxx.to_size_t_of_lt x.curr hx
    cases x
    simp_all
  | succ k ih =>
    rw [Function.iterate_succ_apply', ih]
    simp only [notstd.single_view._iterator_templ.operator_preinc, cxx.to_size_t_succ, Nat.cast_add, Nat.cast_one, add_assoc]

/-- Applying `--` `k` times in `notstd::single_view` keeps the storage address and moves the
position by `k` modulo `2^64`. -/
theorem single_view_iterate_predec {m : Bool} (k : Nat) (x : notstd.single_view._iterator_templ m)
    (hx : x.curr < 18446744073709551616) :
    Nat.iterate notstd.single_view._iterator_templ.operator_predec k x =
      ⟨x.location, to_size_t ((x.curr : Int) - (k : Int))⟩ := by
  induction k with
  | zero =>
    have h0 := cxx.to_size_t_of_lt x.curr hx
    cases x
    simp_all
  | succ k ih =>
    rw [Function.iterate_succ_apply', ih]
    simp only [notstd.single_view._iterator_templ.operator_predec, cxx.to_size_t_pred, Nat.cast_add, Nat.cast_one, sub_sub]

/-- Applying `++` `k` times in `repeat_n_view::repeat_n_foreign_view` keeps the storage address and moves the
position by `k` modulo `2^64`. -/
theorem repeat_n_foreign_view_iterate_preinc (k : Nat) (x : repeat_n_view.repeat_n_foreign_view.const_iterator)
    (hx : x.curr < 18446744073709551616) :
    Nat.iterate repeat_n_view.repeat_n_foreign_view.const_iterator.operator_preinc k x =
      ⟨x.location, to_size_t ((x.curr : Int) + (k : Int))⟩ := by
  induction k with
  | zero =>
    have h0 := cxx.to_size_t_of_lt x.curr hx
    cases x
    simp_all
  | succ k ih =>
    rw [Function.iterate_succ_apply', ih]
    simp only [repeat_n_view.repeat_n_foreign_view.const_iterator.operator_preinc, cxx.to_size_t_succ, Nat.cast_add, Nat.cast_one, add_assoc]

/-- Applying `--` `k` times in `repeat_n_view::repeat_n_foreign_view` keeps the storage address and moves the
position by `k` modulo `2^64`. -/
theorem repeat_n_foreign_view_iterate_predec (k : Nat) (x : repeat_n_view.repeat_n_foreign_view.const_iterator)
    (hx : x.curr < 18446744073709551616) :
    Nat.iterate repeat_n_view.repeat_n_foreign_view.const_iterator.operator_predec k x =
      ⟨x.location, to_size_t ((x.curr : Int) - (k : Int))⟩ := by
  induction k with
  | zero =>
    have h0 := cxx.to_size_t_of_lt x.curr hx
    cases x
    simp_all
  | succ k ih =>
    rw [Function.iterate_succ_apply', ih]
    simp only [repeat_n_view.repeat_n_foreign_view.const_iterator.operator_predec, cxx.to_size_t_pred, Nat.cast_add, Nat.cast_one, sub_sub]

/-- Applying `++` `k` times in `notstd::dereferencing_single_view` keeps the storage address and moves the
position by `k` modulo `2^64`. -/
theorem dereferencing_single_view_iterate_preinc (k : Nat) (x : notstd.dereferencing_single_view.iterator)
    (hx : x.curr < 18446744073709551616) :
    Nat.iterate notstd.dereferencing_single_view.iterator.operator_preinc k x =
      ⟨x.location, to_size_t ((x.curr : Int) + (k : Int))⟩ := by
  induction k with
  | zero =>
    have h0 := cxx.to_size_t_of_lt x.curr hx
    cases x
    simp_all
  | succ k ih =>
    rw [Function.iterate_succ_apply', ih]
    simp only [notstd.dereferencing_single_view.iterator.operator_preinc, cxx.to_size_t_succ, Nat.cast_add, Nat.cast_one, add_assoc]

/-- Applying `--` `k` times in `notstd::dereferencing_single_view` keeps the storage address and moves the
position by `k` modulo `2^64`. -/
theorem dereferencing_single_view_iterate_predec (k : Nat) (x : notstd.dereferencing_single_view.iterator)
    (hx : x.curr < 18446744073709551616) :
    Nat.iterate notstd.dereferencing_single_view.iterator.operator_predec k x =
      ⟨x.location, to_size_t ((x.curr : Int) - (k : Int))⟩ := by
  induction k with
  | zero =>
    have h0 := cxx.to_size_t_of_lt x.curr hx
    cases x
    simp_all
  | succ k ih =>
    rw [Function.iterate_succ_apply', ih]
    simp only [notstd.dereferencing_single_view.iterator.operator_predec, cxx.to_size_t_pred, Nat.cast_add, Nat.cast_one, sub_sub]

/-- Applying `++` `k` times in `repeat_n::foreign_view` keeps the storage address and moves the
position by `k` modulo `2^64`. -/
theorem noexcept_foreign_view_iterate_preinc (k : Nat) (x : repeat_n.foreign_view.const_iterator)
    (hx : x.curr < 18446744073709551616) :
    Nat.iterate repeat_n.foreign_view.const_iterator.operator_preinc k x =
      ⟨x.location, to_size_t ((x.curr : Int) + (k : Int))⟩ := by
  induction k with
  | zero =>
    have h0 := cxx.to_size_t_of_lt x.curr hx
    cases x
    simp_all
  | succ k ih =>
    rw [Function.iterate_succ_apply', ih]
    simp only [repeat_n.foreign_view.const_iterator.operator_preinc, cxx.to_size_t_succ, Nat.cast_add, Nat.cast_one, add_assoc]

/-- Applying `--` `k` times in `repeat_n::foreign_view` keeps the storage address and moves the
position by `k` modulo `2^64`. -/
theorem noexcept_foreign_view_iterate_predec (k : Nat) (x : repeat_n.foreign_view.const_iterator)
    (hx : x.curr < 18446744073709551616) :
    Nat.iterate repeat_n.foreign_view.const_iterator.operator_predec k x =
      ⟨x.location, to_size_t ((x.curr : Int) - (k : Int))⟩ := by
  induction k with
  | zero =>
    have h0 := cxx.to_size_t_of_lt x.curr hx
    cases x
    simp_all
  | succ k ih =>
    rw [Function.iterate_succ_apply', ih]
    simp only [repeat_n.foreign_view.const_iterator.operator_predec, cxx.to_size_t_pred, Nat.cast_add, Nat.cast_one, sub_sub]

/-- Applying `++` `k` times in `repeat_n::owned_view` keeps the storage address and moves the
position by `k` modulo `2^64`. -/
theorem noexcept_owned_view_iterate_preinc {m : Bool} (k : Nat) (x : repeat_n.owned_view._iterator_templ m)
    (hx : x.curr < 18446744073709551616) :
    Nat.iterate repeat_n.owned_view._iterator_templ.operator_preinc k x =
      ⟨x.location, to_size_t ((x.curr : Int) + (k : Int))⟩ := by
  induction k with
  | zero =>
    have h0 := cxx.to_size_t_of_lt x.curr hx
    cases x
    simp_all
  | succ k ih =>
    rw [Function.iterate_succ_apply', ih]
    simp only [repeat_n.owned_view._iterator_templ.operator_preinc, cxx.to_size_t_succ, Nat.cast_add, Nat.cast_one, add_assoc]

/-- Applying `--` `k` times in `repeat_n::owned_view` keeps the storage address and moves the
position by `k` modulo `2^64`. -/
theorem noexcept_owned_view_iterate_predec {m : Bool} (k : Nat) (x : repeat_n.owned_view._iterator_templ m)
    (hx : x.curr < 18446744073709551616) :
    Nat.iterate repeat_n.owned_view._iterator_templ.operator_predec k x =
      ⟨x.location, to_size_t ((x.curr : Int) - (k : Int))⟩ := by
  induction k with
  | zero =>
    have h0 := cxx.to_size_t_of_lt x.curr hx
    cases x
    simp_all
  | succ k ih =>
    rw [Function.iterate_succ_apply', ih]
    simp only [repeat_n.owned_view._iterator_templ.operator_predec, cxx.to_size_t_pred, Nat.cast_add, Nat.cast_one, sub_sub]
/-! ## Cross-view comparison and subtraction -/

/-- C1: in each of the five checked classes (`repeat_n_owned_view`, `single_view`,
`repeat_n_foreign_view`, `dereferencing_single_view`, `repeat_n::foreign_view`), for any two
iterators `a` and `b`, each of `a == b`, `a != b`, `a < b`, `a <= b`, `a > b`,
`a >= b` and the difference `a - b` throws `std::invalid_argument` exactly when the
storage addresses differ, and returns a value exactly when they are equal. -/
theorem C1_checked_fails_iff_storage_differs (m1 m2 : Bool)
    (a1 b1 : repeat_n_view.repeat_n_owned_view._iterator_templ m1)
    (a2 b2 : notstd.single_view._iterator_templ m2)
    (a3 b3 : repeat_n_view.repeat_n_foreign_view.const_iterator)
    (a4 b4 : notstd.dereferencing_single_view.iterator)
    (a5 b5 : repeat_n.foreign_view.const_iterator) :
    ((throws_invalid_argument (a1.operator_eq b1) ↔ a1.location ≠ b1.location) ∧
     ((∃ r, a1.operator_eq b1 = Except.ok r) ↔ a1.location = b1.location) ∧
     (throws_invalid_argument (a1.operator_ne b1) ↔ a1.location ≠ b1.location) ∧
     ((∃ r, a1.operator_ne b1 = Except.ok r) ↔ a1.location = b1.location) ∧
     (throws_invalid_argument (a1.operator_lt b1) ↔ a1.location ≠ b1.location) ∧
     ((∃ r, a1.operator_lt b1 = Except.ok r) ↔ a1.location = b1.location) ∧
     (throws_invalid_argument (a1.operator_le b1) ↔ a1.location ≠ b1.location) ∧
     ((∃ r, a1.operator_le b1 = Except.ok r) ↔ a1.location = b1.location) ∧
     (throws_invalid_argument (a1.operator_gt b1) ↔ a1.location ≠ b1.location) ∧
     ((∃ r, a1.operator_gt b1 = Except.ok r) ↔ a1.location = b1.location) ∧
     (throws_invalid_argument (a1.operator_ge b1) ↔ a1.location ≠ b1.location) ∧
     ((∃ r, a1.operator_ge b1 = Except.ok r) ↔ a1.location = b1.location) ∧
     (throws_invalid_argument (a1.operator_diff b1) ↔ a1.location ≠ b1.location) ∧
     ((∃ r, a1.operator_diff b1 = Except.ok r) ↔ a1.location = b1.location)) ∧
    ((throws_invalid_argument (a2.operator_eq b2) ↔ a2.location ≠ b2.location) ∧
     ((∃ r, a2.operator_eq b2 = Except.ok r) ↔ a2.location = b2.location) ∧
     (throws_invalid_argument (a2.operator_ne b2) ↔ a2.location ≠ b2.location) ∧
     ((∃ r, a2.operator_ne b2 = Except.ok r) ↔ a2.location = b2.location) ∧
     (throws_invalid_argument (a2.operator_lt b2) ↔ a2.location ≠ b2.location) ∧
     ((∃ r, a2.operator_lt b2 = Except.ok r) ↔ a2.location = b2.location) ∧
     (throws_invalid_argument (a2.operator_le b2) ↔ a2.location ≠ b2.location) ∧
     ((∃ r, a2.operator_le b2 = Except.ok r) ↔ a2.location = b2.location) ∧
     (throws_invalid_argument (a2.operator_gt b2) ↔ a2.location ≠ b2.location) ∧
     ((∃ r, a2.operator_gt b2 = Except.ok r) ↔ a2.location = b2.location) ∧
     (throws_invalid_argument (a2.operator_ge b2) ↔ a2.location ≠ b2.location) ∧
     ((∃ r, a2.operator_ge b2 = Except.ok r) ↔ a2.location = b2.location) ∧
     (throws_invalid_argument (a2.operator_diff b2) ↔ a2.location ≠ b2.location) ∧
     ((∃ r, a2.operator_diff b2 = Except.ok r) ↔ a2.location = b2.location)) ∧
    ((throws_invalid_argument (a3.operator_eq b3) ↔ a3.location ≠ b3.location) ∧
     ((∃ r, a3.operator_eq b3 = Except.ok r) ↔ a3.location = b3.location) ∧
     (throws_invalid_argument (a3.operator_ne b3) ↔ a3.location ≠ b3.location) ∧
     ((∃ r, a3.operator_ne b3 = Except.ok r) ↔ a3.location = b3.location) ∧
     (throws_invalid_argument (a3.operator_lt b3) ↔ a3.location ≠ b3.location) ∧
     ((∃ r, a3.operator_lt b3 = Except.ok r) ↔ a3.location = b3.location) ∧
     (throws_invalid_argument (a3.operator_le b3) ↔ a3.location ≠ b3.location) ∧
     ((∃ r, a3.operator_le b3 = Except.ok r) ↔ a3.location = b3.location) ∧
     (throws_invalid_argument (a3.operator_gt b3) ↔ a3.location ≠ b3.location) ∧
     ((∃ r, a3.operator_gt b3 = Except.ok r) ↔ a3.location = b3.location) ∧
     (throws_invalid_argument (a3.operator_ge b3) ↔ a3.location ≠ b3.location) ∧
     ((∃ r, a3.operator_ge b3 = Except.ok r) ↔ a3.location = b3.location) ∧
     (throws_invalid_argument (a3.operator_diff b3) ↔ a3.location ≠ b3.location) ∧
     ((∃ r, a3.operator_diff b3 = Except.ok r) ↔ a3.location = b3.location)) ∧
    ((throws_invalid_argument (a4.operator_eq b4) ↔ a4.location ≠ b4.location) ∧
     ((∃ r, a4.operator_eq b4 = Except.ok r) ↔ a4.location = b4.location) ∧
     (throws_invalid_argument (a4.operator_ne b4) ↔ a4.location ≠ b4.location) ∧
     ((∃ r, a4.operator_ne b4 = Except.ok r) ↔ a4.location = b4.location) ∧
     (throws_invalid_argument (a4.operator_lt b4) ↔ a4.location ≠ b4.location) ∧
     ((∃ r, a4.operator_lt b4 = Except.ok r) ↔ a4.location = b4.location) ∧
     (throws_invalid_argument (a4.operator_le b4) ↔ a4.location ≠ b4.location) ∧
     ((∃ r, a4.operator_le b4 = Except.ok r) ↔ a4.location = b4.location) ∧
     (throws_invalid_argument (a4.operator_gt b4) ↔ a4.location ≠ b4.location) ∧
     ((∃ r, a4.operator_gt b4 = Except.ok r) ↔ a4.location = b4.location) ∧
     (throws_invalid_argument (a4.operator_ge b4) ↔ a4.location ≠ b4.location) ∧
     ((∃ r, a4.operator_ge b4 = Except.ok r) ↔ a4.location = b4.location) ∧
     (throws_invalid_argument (a4.operator_diff b4) ↔ a4.location ≠ b4.location) ∧
     ((∃ r, a4.operator_diff b4 = Except.ok r) ↔ a4.location = b4.location)) ∧
    ((throws_invalid_argument (a5.operator_eq b5) ↔ a5.location ≠ b5.location) ∧
     ((∃ r, a5.operator_eq b5 = Except.ok r) ↔ a5.location = b5.location) ∧
     (throws_invalid_argument (a5.operator_ne b5) ↔ a5.location ≠ b5.location) ∧
     ((∃ r, a5.operator_ne b5 = Except.ok r) ↔ a5.location = b5.location) ∧
     (throws_invalid_argument (a5.operator_lt b5) ↔ a5.location ≠ b5.location) ∧
     ((∃ r, a5.operator_lt b5 = Except.ok r) ↔ a5.location = b5.location) ∧
     (throws_invalid_argument (a5.operator_le b5) ↔ a5.location ≠ b5.location) ∧
     ((∃ r, a5.operator_le b5 = Except.ok r) ↔ a5.location = b5.location) ∧
     (throws_invalid_argument (a5.operator_gt b5) ↔ a5.location ≠ b5.location) ∧
     ((∃ r, a5.operator_gt b5 = Except.ok r) ↔ a5.location = b5.location) ∧
     (throws_invalid_argument (a5.operator_ge b5) ↔ a5.location ≠ b5.location) ∧
     ((∃ r, a5.operator_ge b5 = Except.ok r) ↔ a5.location = b5.location) ∧
     (throws_invalid_argument (a5.operator_diff b5) ↔ a5.location ≠ b5.location) ∧
     ((∃ r, a5.operator_diff b5 = Except.ok r) ↔ a5.location = b5.location)) := by
  refine ⟨?_, ?_, ?_, ?_, ?_⟩
  · by_cases h : a1.location = b1.location <;>
      simp [throws_invalid_argument,
        repeat_n_view.repeat_n_owned_view._iterator_templ.operator_eq,
        repeat_n_view.repeat_n_owned_view._iterator_templ.operator_ne,
        repeat_n_view.repeat_n_owned_view._iterator_templ.operator_lt,
        repeat_n_view.repeat_n_owned_view._iterator_templ.operator_le,
        repeat_n_view.repeat_n_owned_view._iterator_templ.operator_gt,
        repeat_n_view.repeat_n_owned_view._iterator_templ.operator_ge,
        repeat_n_view.repeat_n_owned_view._iterator_templ.operator_diff, h]
    omega
  · by_cases h : a2.location = b2.location <;>
      simp [throws_invalid_argument,
        notstd.single_view._iterator_templ.operator_eq,
        notstd.single_view._iterator_templ.operator_ne,
        notstd.single_view._iterator_templ.operator_lt,
        notstd.single_view._iterator_templ.operator_le,
        notstd.single_view._iterator_templ.operator_gt,
        notstd.single_view._iterator_templ.operator_ge,
        notstd.single_view._iterator_templ.operator_diff, h]
    omega
  · by_cases h : a3.location = b3.location <;>
      simp [throws_invalid_argument,
        repeat_n_view.repeat_n_foreign_view.const_iterator.operator_eq,
        repeat_n_view.repeat_n_foreign_view.const_iterator.operator_ne,
        repeat_n_view.repeat_n_foreign_view.const_iterator.operator_lt,
        repeat_n_view.repeat_n_foreign_view.const_iterator.operator_le,
        repeat_n_view.repeat_n_foreign_view.const_iterator.operator_gt,
        repeat_n_view.repeat_n_foreign_view.const_iterator.operator_ge,
        repeat_n_view.repeat_n_foreign_view.const_iterator.operator_diff, h]
    omega
  · by_cases h : a4.location = b4.location <;>
      simp [throws_invalid_argument,
        notstd.dereferencing_single_view.iterator.operator_eq,
        notstd.dereferencing_single_view.iterator.operator_ne,
        notstd.dereferencing_single_view.iterator.operator_lt,
        notstd.dereferencing_single_view.iterator.operator_le,
        notstd.dereferencing_single_view.iterator.operator_gt,
        notstd.dereferencing_single_view.iterator.operator_ge,
        notstd.dereferencing_single_view.iterator.operator_diff, h]
    omega
  · by_cases h : a5.location = b5.location <;>
      simp [throws_invalid_argument,
        repeat_n.foreign_view.const_iterator.operator_eq,
        repeat_n.foreign_view.const_iterator.operator_ne,
        repeat_n.foreign_view.const_iterator.operator_lt,
        repeat_n.foreign_view.const_iterator.operator_le,
        repeat_n.foreign_view.const_iterator.operator_gt,
        repeat_n.foreign_view.const_iterator.operator_ge,
        repeat_n.foreign_view.const_iterator.operator_diff, h]
    omega

/-! ## Distance between positions -/

/-- C2 (as amended): on a 64-bit target, for every view of length `N` and positions `i`, `j`
in `[0, N]`, the difference `(begin()+i) - (begin()+j)` returns the signed integer `i - j`
exactly when `-2^63 <= i - j < 2^63`; in particular `(begin()+k) - begin() == k` exactly
when `k < 2^63`. A position is passed to `operator+` as a `difference_type`
(`to_ptrdiff_t`). -/
theorem C2_difference_of_positions (N i j k : Nat)
    (v1 : repeat_n_view.repeat_n_owned_view N)
    (v2 : notstd.single_view N)
    (v3 : repeat_n_view.repeat_n_foreign_view N)
    (v4 : notstd.dereferencing_single_view N)
    (v5 : repeat_n.foreign_view N)
    (v6 : repeat_n.owned_view N)
    (hi : i ≤ N) (hj : j ≤ N) (hk : k ≤ N) (hN : N < 18446744073709551616) :
    (((v1.begin.operator_plus (to_ptrdiff_t i)).operator_diff (v1.begin.operator_plus (to_ptrdiff_t j)) = Except.ok ((i : Int) - (j : Int)) ↔
        (-9223372036854775808 ≤ (i : Int) - (j : Int) ∧
          (i : Int) - (j : Int) < 9223372036854775808)) ∧
     ((v1.begin.operator_plus (to_ptrdiff_t k)).operator_diff v1.begin = Except.ok (k : Int) ↔ k < 9223372036854775808)) ∧
    (((v1.cbegin.operator_plus (to_ptrdiff_t i)).operator_diff (v1.cbegin.operator_plus (to_ptrdiff_t j)) = Except.ok ((i : Int) - (j : Int)) ↔
        (-9223372036854775808 ≤ (i : Int) - (j : Int) ∧
          (i : Int) - (j : Int) < 9223372036854775808)) ∧
     ((v1.cbegin.operator_plus (to_ptrdiff_t k)).operator_diff v1.cbegin = Except.ok (k : Int) ↔ k < 9223372036854775808)) ∧
    (((v2.begin.operator_plus (to_ptrdiff_t i)).operator_diff (v2.begin.operator_plus (to_ptrdiff_t j)) = Except.ok ((i : Int) - (j : Int)) ↔
        (-9223372036854775808 ≤ (i : Int) - (j : Int) ∧
          (i : Int) - (j : Int) < 9223372036854775808)) ∧
     ((v2.begin.operator_plus (to_ptrdiff_t k)).operator_diff v2.begin = Except.ok (k : Int) ↔ k < 9223372036854775808)) ∧
    (((v2.cbegin.operator_plus (to_ptrdiff_t i)).operator_diff (v2.cbegin.operator_plus (to_ptrdiff_t j)) = Except.ok ((i : Int) - (j : Int)) ↔
        (-9223372036854775808 ≤ (i : Int) - (j : Int) ∧
          (i : Int) - (j : Int) < 9223372036854775808)) ∧
     ((v2.cbegin.operator_plus (to_ptrdiff_t k)).operator_diff v2.cbegin = Except.ok (k : Int) ↔ k < 9223372036854775808)) ∧
    (((v3.begin.operator_plus (to_ptrdiff_t i)).operator_diff (v3.begin.operator_plus (to_ptrdiff_t j)) = Except.ok ((i : Int) - (j : Int)) ↔
        (-9223372036854775808 ≤ (i : Int) - (j : Int) ∧
          (i : Int) - (j : Int) < 9223372036854775808)) ∧
     ((v3.begin.operator_plus (to_ptrdiff_t k)).operator_diff v3.begin = Except.ok (k : Int) ↔ k < 9223372036854775808)) ∧
    (((v4.begin.operator_plus (to_ptrdiff_t i)).operator_diff (v4.begin.operator_plus (to_ptrdiff_t j)) = Except.ok ((i : Int) - (j : Int)) ↔
        (-9223372036854775808 ≤ (i : Int) - (j : Int) ∧
          (i : Int) - (j : Int) < 9223372036854775808)) ∧
     ((v4.begin.operator_plus (to_ptrdiff_t k)).operator_diff v4.begin = Except.ok (k : Int) ↔ k < 9223372036854775808)) ∧
    (((v5.begin.operator_plus (to_ptrdiff_t i)).operator_diff (v5.begin.operator_plus (to_ptrdiff_t j)) = Except.ok ((i : Int) - (j : Int)) ↔
        (-9223372036854775808 ≤ (i : Int) - (j : Int) ∧
          (i : Int) - (j : Int) < 9223372036854775808)) ∧
     ((v5.begin.operator_plus (to_ptrdiff_t k)).operator_diff v5.begin = Except.ok (k : Int) ↔ k < 9223372036854775808)) ∧
    (((v6.begin.operator_plus (to_ptrdiff_t i)).operator_diff (v6.begin.operator_plus (to_ptrdiff_t j)) = Except.ok ((i : Int) - (j : Int)) ↔
        (-9223372036854775808 ≤ (i : Int) - (j : Int) ∧
          (i : Int) - (j : Int) < 9223372036854775808)) ∧
     ((v6.begin.operator_plus (to_ptrdiff_t k)).operator_diff v6.begin = Except.ok (k : Int) ↔ k < 9223372036854775808)) ∧
    (((v6.cbegin.operator_plus (to_ptrdiff_t i)).operator_diff (v6.cbegin.operator_plus (to_ptrdiff_t j)) = Except.ok ((i : Int) - (j : Int)) ↔
        (-9223372036854775808 ≤ (i : Int) - (j : Int) ∧
          (i : Int) - (j : Int) < 9223372036854775808)) ∧
     ((v6.cbegin.operator_plus (to_ptrdiff_t k)).operator_diff v6.cbegin = Except.ok (k : Int) ↔ k < 9223372036854775808)) := by
  have hi2 := cxx.to_size_t_to_ptrdiff_t i (by omega)
  have hj2 := cxx.to_size_t_to_ptrdiff_t j (by omega)
  have hk2 := cxx.to_size_t_to_ptrdiff_t k (by omega)
  have hk3 := cxx.to_size_t_of_lt k (by omega)
  have hk4 := cxx.to_ptrdiff_t_eq_iff k (by omega)
  refine ⟨?_, ?_, ?_, ?_, ?_, ?_, ?_, ?_, ?_⟩ <;>
  simp only [repeat_n_view.repeat_n_owned_view._iterator_templ.operator_diff,
    repeat_n_view.repeat_n_owned_view._iterator_templ.operator_plus,
    repeat_n_view.repeat_n_owned_view._iterator_templ.operator_add_assign,
    repeat_n_view.repeat_n_owned_view.begin,
    repeat_n_view.repeat_n_owned_view.cbegin,
    notstd.single_view._iterator_templ.operator_diff,
    notstd.single_view._iterator_templ.operator_plus,
    notstd.single_view._iterator_templ.operator_add_assign,
    notstd.single_view.begin,
    notstd.single_view.cbegin,
    repeat_n_view.repeat_n_foreign_view.const_iterator.operator_diff,
    repeat_n_view.repeat_n_foreign_view.const_iterator.operator_plus,
    repeat_n_view.repeat_n_foreign_view.const_iterator.operator_add_assign,
    repeat_n_view.repeat_n_foreign_view.begin,
    notstd.dereferencing_single_view.iterator.operator_diff,
    notstd.dereferencing_single_view.iterator.operator_plus,
    notstd.dereferencing_single_view.iterator.operator_add_assign,
    notstd.dereferencing_single_view.begin,
    repeat_n.foreign_view.const_iterator.operator_diff,
    repeat_n.foreign_view.const_iterator.operator_plus,
    repeat_n.foreign_view.const_iterator.operator_add_assign,
    repeat_n.foreign_view.begin,
    repeat_n.owned_view._iterator_templ.operator_diff,
    repeat_n.owned_view._iterator_templ.operator_plus,
    repeat_n.owned_view._iterator_templ.operator_add_assign,
    repeat_n.owned_view.begin,
    repeat_n.owned_view.cbegin,
    ne_eq, not_true_eq_false, if_false, if_true, Except.ok.injEq, Nat.cast_zero, zero_add, sub_zero,
    hi2, hj2, hk2, hk3, hk4, cxx.to_ptrdiff_t_sub_iff, and_self]

/-- C2 (witness): the amended claim at `N = 3`, `i = 1`, `j = 3`, `k = 2`: the difference
is `-2`. -/
theorem C2_difference_of_positions_witness :
    ((1 : Nat) ≤ 3 ∧ (3 : Nat) ≤ 3 ∧ (2 : Nat) ≤ 3 ∧ (3 : Nat) < 18446744073709551616) ∧
    ((⟨4096⟩ : repeat_n_view.repeat_n_owned_view 3).begin.operator_plus (to_ptrdiff_t 1)).operator_diff
      ((⟨4096⟩ : repeat_n_view.repeat_n_owned_view 3).begin.operator_plus (to_ptrdiff_t 3)) = Except.ok (-2) :=
  ⟨by decide,
   ((C2_difference_of_positions 3 1 3 2 ⟨4096⟩ ⟨4096⟩ ⟨4096⟩ ⟨4096⟩ ⟨4096⟩ ⟨4096⟩
      (by decide) (by decide) (by decide) (by decide)).1.1).mpr (by decide)⟩

/-- C2 (counterexample): in a `repeat_n_owned_view` of length `N = 2^63` stored at address
4096, for `i = 2^63` and `j = 0` the difference `(begin()+i) - (begin()+j)` is `-2^63`, not
`i - j = 2^63`. -/
theorem C2_difference_wraps_counterexample :
    ((⟨4096⟩ : repeat_n_view.repeat_n_owned_view 9223372036854775808).begin.operator_plus (to_ptrdiff_t 9223372036854775808)).operator_diff
      ((⟨4096⟩ : repeat_n_view.repeat_n_owned_view 9223372036854775808).begin.operator_plus (to_ptrdiff_t 0))
        = Except.ok (-9223372036854775808) ∧
    ((⟨4096⟩ : repeat_n_view.repeat_n_owned_view 9223372036854775808).begin.operator_plus (to_ptrdiff_t 9223372036854775808)).operator_diff
      ((⟨4096⟩ : repeat_n_view.repeat_n_owned_view 9223372036854775808).begin.operator_plus (to_ptrdiff_t 0))
        ≠ Except.ok (((9223372036854775808 : Nat) : Int) - ((0 : Nat) : Int)) := by
  constructor
  · rfl
  · intro h
    have h2 : (Except.ok (-9223372036854775808) : Except exception Int)
        = Except.ok (((9223372036854775808 : Nat) : Int) - ((0 : Nat) : Int)) := h
    simp at h2

/-- C3 (as amended): on a 64-bit target, for every view with compile-time length `N`,
`begin() + N` compares equal to `end()`, and `end() - begin()` equals `N` exactly when
`N < 2^63`. -/
theorem C3_begin_plus_N_is_end (N : Nat)
    (v1 : repeat_n_view.repeat_n_owned_view N)
    (v2 : notstd.single_view N)
    (v3 : repeat_n_view.repeat_n_foreign_view N)
    (v4 : notstd.dereferencing_single_view N)
    (v5 : repeat_n.foreign_view N)
    (v6 : repeat_n.owned_view N)
    (hN : N < 18446744073709551616) :
    ((v1.begin.operator_plus (to_ptrdiff_t N)).operator_eq v1.end_ = Except.ok true ∧
     (v1.end_.operator_diff v1.begin = Except.ok (N : Int) ↔ N < 9223372036854775808)) ∧
    ((v1.cbegin.operator_plus (to_ptrdiff_t N)).operator_eq v1.cend = Except.ok true ∧
     (v1.cend.operator_diff v1.cbegin = Except.ok (N : Int) ↔ N < 9223372036854775808)) ∧
    ((v2.begin.operator_plus (to_ptrdiff_t N)).operator_eq v2.end_ = Except.ok true ∧
     (v2.end_.operator_diff v2.begin = Except.ok (N : Int) ↔ N < 9223372036854775808)) ∧
    ((v2.cbegin.operator_plus (to_ptrdiff_t N)).operator_eq v2.cend = Except.ok true ∧
     (v2.cend.operator_diff v2.cbegin = Except.ok (N : Int) ↔ N < 9223372036854775808)) ∧
    ((v3.begin.operator_plus (to_ptrdiff_t N)).operator_eq v3.end_ = Except.ok true ∧
     (v3.end_.operator_diff v3.begin = Except.ok (N : Int) ↔ N < 9223372036854775808)) ∧
    ((v4.begin.operator_plus (to_ptrdiff_t N)).operator_eq v4.end_ = Except.ok true ∧
     (v4.end_.operator_diff v4.begin = Except.ok (N : Int) ↔ N < 9223372036854775808)) ∧
    ((v5.begin.operator_plus (to_ptrdiff_t N)).operator_eq v5.end_ = Except.ok true ∧
     (v5.end_.operator_diff v5.begin = Except.ok (N : Int) ↔ N < 9223372036854775808)) ∧
    ((v6.begin.operator_plus (to_ptrdiff_t N)).operator_eq v6.end_ = Except.ok true ∧
     (v6.end_.operator_diff v6.begin = Except.ok (N : Int) ↔ N < 9223372036854775808)) ∧
    ((v6.cbegin.operator_plus (to_ptrdiff_t N)).operator_eq v6.cend = Except.ok true ∧
     (v6.cend.operator_diff v6.cbegin = Except.ok (N : Int) ↔ N < 9223372036854775808)) := by
  have h2 := cxx.to_size_t_to_ptrdiff_t N hN
  have h3 := cxx.to_size_t_of_lt N hN
  have h4 := cxx.to_ptrdiff_t_eq_iff N hN
  refine ⟨?_, ?_, ?_, ?_, ?_, ?_, ?_, ?_, ?_⟩ <;>
  simp only [repeat_n_view.repeat_n_owned_view._iterator_templ.operator_eq,
    repeat_n_view.repeat_n_owned_view._iterator_templ.operator_diff,
    repeat_n_view.repeat_n_owned_view._iterator_templ.operator_plus,
    repeat_n_view.repeat_n_owned_view._iterator_templ.operator_add_assign,
    repeat_n_view.repeat_n_owned_view.begin,
    repeat_n_view.repeat_n_owned_view.end_,
    repeat_n_view.repeat_n_owned_view.cbegin,
    repeat_n_view.repeat_n_owned_view.cend,
    notstd.single_view._iterator_templ.operator_eq,
    notstd.single_view._iterator_templ.operator_diff,
    notstd.single_view._iterator_templ.operator_plus,
    notstd.single_view._iterator_templ.operator_add_assign,
    notstd.single_view.begin,
    notstd.single_view.end_,
    notstd.single_view.cbegin,
    notstd.single_view.cend,
    repeat_n_view.repeat_n_foreign_view.const_iterator.operator_eq,
    repeat_n_view.repeat_n_foreign_view.const_iterator.operator_diff,
    repeat_n_view.repeat_n_foreign_view.const_iterator.operator_plus,
    repeat_n_view.repeat_n_foreign_view.const_iterator.operator_add_assign,
    repeat_n_view.repeat_n_foreign_view.begin,
    repeat_n_view.repeat_n_foreign_view.end_,
    notstd.dereferencing_single_view.iterator.operator_eq,
    notstd.dereferencing_single_view.iterator.operator_diff,
    notstd.dereferencing_single_view.iterator.operator_plus,
    notstd.dereferencing_single_view.iterator.operator_add_assign,
    notstd.dereferencing_single_view.begin,
    notstd.dereferencing_single_view.end_,
    repeat_n.foreign_view.const_iterator.operator_eq,
    repeat_n.foreign_view.const_iterator.operator_diff,
    repeat_n.foreign_view.const_iterator.operator_plus,
    repeat_n.foreign_view.const_iterator.operator_add_assign,
    repeat_n.foreign_view.begin,
    repeat_n.foreign_view.end_,
    repeat_n.owned_view._iterator_templ.operator_eq,
    repeat_n.owned_view._iterator_templ.operator_diff,
    repeat_n.owned_view._iterator_templ.operator_plus,
    repeat_n.owned_view._iterator_templ.operator_add_assign,
    repeat_n.owned_view.begin,
    repeat_n.owned_view.end_,
    repeat_n.owned_view.cbegin,
    repeat_n.owned_view.cend,
    ne_eq, not_true_eq_false, if_false, if_true, Except.ok.injEq, Nat.cast_zero, zero_add, sub_zero,
    h2, h3, h4, decide_True, Bool.and_self, and_self]

/-- C3 (witness): the amended claim at `N = 3`: `begin() + 3 == end()` and
`end() - begin() == 3`. -/
theorem C3_begin_plus_N_is_end_witness :
    (3 : Nat) < 18446744073709551616 ∧
    ((⟨4096⟩ : repeat_n_view.repeat_n_owned_view 3).begin.operator_plus (to_ptrdiff_t 3)).operator_eq
      (⟨4096⟩ : repeat_n_view.repeat_n_owned_view 3).end_ = Except.ok true ∧
    (⟨4096⟩ : repeat_n_view.repeat_n_owned_view 3).end_.operator_diff (⟨4096⟩ : repeat_n_view.repeat_n_owned_view 3).begin = Except.ok 3 :=
  ⟨by decide,
   (C3_begin_plus_N_is_end 3 ⟨4096⟩ ⟨4096⟩ ⟨4096⟩ ⟨4096⟩ ⟨4096⟩ ⟨4096⟩ (by decide)).1.1,
   ((C3_begin_plus_N_is_end 3 ⟨4096⟩ ⟨4096⟩ ⟨4096⟩ ⟨4096⟩ ⟨4096⟩ ⟨4096⟩ (by decide)).1.2).mpr
     (by decide)⟩

/-- C3 (counterexample): in a `repeat_n_owned_view` of length `N = 2^63` stored at address
4096, `end() - begin()` is `-2^63`, not `N`. -/
theorem C3_end_minus_begin_counterexample :
    (⟨4096⟩ : repeat_n_view.repeat_n_owned_view 9223372036854775808).end_.operator_diff (⟨4096⟩ : repeat_n_view.repeat_n_owned_view 9223372036854775808).begin
        = Except.ok (-9223372036854775808) ∧
    (⟨4096⟩ : repeat_n_view.repeat_n_owned_view 9223372036854775808).end_.operator_diff (⟨4096⟩ : repeat_n_view.repeat_n_owned_view 9223372036854775808).begin
        ≠ Except.ok ((9223372036854775808 : Nat) : Int) := by
  constructor
  · rfl
  · intro h
    have h2 : (Except.ok (-9223372036854775808) : Except exception Int)
        = Except.ok ((9223372036854775808 : Nat) : Int) := h
    simp at h2

/-! ## The unchecked class `repeat_n::owned_view` on different storage -/

/-- C4: in the unchecked `repeat_n::owned_view`, the difference `a - b` of two iterators
whose storage addresses differ returns 0, with no error, whatever their positions. -/
theorem C4_unchecked_difference_is_zero (m : Bool) (a b : repeat_n.owned_view._iterator_templ m)
    (h : a.location ≠ b.location) :
    a.operator_diff b = Except.ok 0 := by
  simp [repeat_n.owned_view._iterator_templ.operator_diff, h, to_ptrdiff_t]

/-- C4 (witness): iterators at positions 2 and 1 of views stored at 4096 and 8192. -/
theorem C4_unchecked_difference_is_zero_witness :
    (⟨4096, 2⟩ : repeat_n.owned_view._iterator_templ true).operator_diff (⟨8192, 1⟩ : repeat_n.owned_view._iterator_templ true) = Except.ok 0 :=
  C4_unchecked_difference_is_zero true ⟨4096, 2⟩ ⟨8192, 1⟩ (by decide)

/-- In the unchecked `repeat_n::owned_view`, for two iterators bound to different storage
addresses, the guarded `==`, `<` and `<=` return false, while `>` and `>=`, written as the
negations `!(a <= b)` and `!(a < b)` with no guard of their own, return true. -/
theorem noexcept_owned_view_compare_on_different_storage (m : Bool)
    (a b : repeat_n.owned_view._iterator_templ m) (h : a.location ≠ b.location) :
    a.operator_eq b = Except.ok false ∧
    a.operator_lt b = Except.ok false ∧
    a.operator_le b = Except.ok false ∧
    a.operator_gt b = Except.ok true ∧
    a.operator_ge b = Except.ok true := by
  simp [repeat_n.owned_view._iterator_templ.operator_eq, repeat_n.owned_view._iterator_templ.operator_lt, repeat_n.owned_view._iterator_templ.operator_le,
    repeat_n.owned_view._iterator_templ.operator_gt, repeat_n.owned_view._iterator_templ.operator_ge, h]

/-- C5 (evaluation at the failing input): for `a`, `b` the `begin()` iterators of two
`repeat_n::owned_view` views of length 3 stored at 4096 and 8192, `a == b`, `a < b` and
`a <= b` return false as the claim says, but `a > b` and `a >= b` return true, not false:
`a > b` and `b > a` are both true while `b < a` is false. -/
theorem C5_unchecked_greater_on_different_storage :
    (⟨4096⟩ : repeat_n.owned_view 3).begin.operator_eq (⟨8192⟩ : repeat_n.owned_view 3).begin = Except.ok false ∧
    (⟨4096⟩ : repeat_n.owned_view 3).begin.operator_lt (⟨8192⟩ : repeat_n.owned_view 3).begin = Except.ok false ∧
    (⟨4096⟩ : repeat_n.owned_view 3).begin.operator_le (⟨8192⟩ : repeat_n.owned_view 3).begin = Except.ok false ∧
    (⟨4096⟩ : repeat_n.owned_view 3).begin.operator_gt (⟨8192⟩ : repeat_n.owned_view 3).begin = Except.ok true ∧
    (⟨4096⟩ : repeat_n.owned_view 3).begin.operator_ge (⟨8192⟩ : repeat_n.owned_view 3).begin = Except.ok true ∧
    (⟨8192⟩ : repeat_n.owned_view 3).begin.operator_gt (⟨4096⟩ : repeat_n.owned_view 3).begin = Except.ok true ∧
    (⟨8192⟩ : repeat_n.owned_view 3).begin.operator_lt (⟨4096⟩ : repeat_n.owned_view 3).begin = Except.ok false ∧
    (⟨4096⟩ : repeat_n.owned_view 3).begin.operator_gt (⟨8192⟩ : repeat_n.owned_view 3).begin ≠ Except.ok false ∧
    (⟨4096⟩ : repeat_n.owned_view 3).begin.operator_ge (⟨8192⟩ : repeat_n.owned_view 3).begin ≠ Except.ok false := by
  refine ⟨rfl, rfl, rfl, rfl, rfl, rfl, rfl, ?_, ?_⟩ <;>
  · intro h
    have h2 : (Except.ok true : Except exception Bool) = Except.ok false := h
    simp at h2

/-! ## Ordering of the iterators of one view -/

/-- C6: for every view of length `N` (a `std::size_t`) and positions `i`, `j`, `k` in
`[0, N]`, `begin()+i < begin()+j` holds exactly when `i < j`, `<=` exactly when `i <= j`,
and `<=` is a total order on the iterators of the view: reflexive, antisymmetric with
respect to `==`, transitive and total. -/
theorem C6_ordering_agrees_with_position (N i j k : Nat)
    (v1 : repeat_n_view.repeat_n_owned_view N)
    (v2 : notstd.single_view N)
    (v3 : repeat_n_view.repeat_n_foreign_view N)
    (v4 : notstd.dereferencing_single_view N)
    (v5 : repeat_n.foreign_view N)
    (v6 : repeat_n.owned_view N)
    (hi : i ≤ N) (hj : j ≤ N) (hk : k ≤ N) (hN : N < 18446744073709551616) :
    ((v1.begin.operator_plus (to_ptrdiff_t i)).operator_lt (v1.begin.operator_plus (to_ptrdiff_t j)) = Except.ok (decide (i < j)) ∧
     (v1.begin.operator_plus (to_ptrdiff_t i)).operator_le (v1.begin.operator_plus (to_ptrdiff_t j)) = Except.ok (decide (i ≤ j)) ∧
     (v1.begin.operator_plus (to_ptrdiff_t i)).operator_le (v1.begin.operator_plus (to_ptrdiff_t i)) = Except.ok true ∧
     ((v1.begin.operator_plus (to_ptrdiff_t i)).operator_le (v1.begin.operator_plus (to_ptrdiff_t j)) = Except.ok true →
      (v1.begin.operator_plus (to_ptrdiff_t j)).operator_le (v1.begin.operator_plus (to_ptrdiff_t i)) = Except.ok true →
      (v1.begin.operator_plus (to_ptrdiff_t i)).operator_eq (v1.begin.operator_plus (to_ptrdiff_t j)) = Except.ok true) ∧
     ((v1.begin.operator_plus (to_ptrdiff_t i)).operator_le (v1.begin.operator_plus (to_ptrdiff_t j)) = Except.ok true →
      (v1.begin.operator_plus (to_ptrdiff_t j)).operator_le (v1.begin.operator_plus (to_ptrdiff_t k)) = Except.ok true →
      (v1.begin.operator_plus (to_ptrdiff_t i)).operator_le (v1.begin.operator_plus (to_ptrdiff_t k)) = Except.ok true) ∧
     ((v1.begin.operator_plus (to_ptrdiff_t i)).operator_le (v1.begin.operator_plus (to_ptrdiff_t j)) = Except.ok true ∨
      (v1.begin.operator_plus (to_ptrdiff_t j)).operator_le (v1.begin.operator_plus (to_ptrdiff_t i)) = Except.ok true)) ∧
    ((v1.cbegin.operator_plus (to_ptrdiff_t i)).operator_lt (v1.cbegin.operator_plus (to_ptrdiff_t j)) = Except.ok (decide (i < j)) ∧
     (v1.cbegin.operator_plus (to_ptrdiff_t i)).operator_le (v1.cbegin.operator_plus (to_ptrdiff_t j)) = Except.ok (decide (i ≤ j)) ∧
     (v1.cbegin.operator_plus (to_ptrdiff_t i)).operator_le (v1.cbegin.operator_plus (to_ptrdiff_t i)) = Except.ok true ∧
     ((v1.cbegin.operator_plus (to_ptrdiff_t i)).operator_le (v1.cbegin.operator_plus (to_ptrdiff_t j)) = Except.ok true →
      (v1.cbegin.operator_plus (to_ptrdiff_t j)).operator_le (v1.cbegin.operator_plus (to_ptrdiff_t i)) = Except.ok true →
      (v1.cbegin.operator_plus (to_ptrdiff_t i)).operator_eq (v1.cbegin.operator_plus (to_ptrdiff_t j)) = Except.ok true) ∧
     ((v1.cbegin.operator_plus (to_ptrdiff_t i)).operator_le (v1.cbegin.operator_plus (to_ptrdiff_t j)) = Except.ok true →
      (v1.cbegin.operator_plus (to_ptrdiff_t j)).operator_le (v1.cbegin.operator_plus (to_ptrdiff_t k)) = Except.ok true →
      (v1.cbegin.operator_plus (to_ptrdiff_t i)).operator_le (v1.cbegin.operator_plus (to_ptrdiff_t k)) = Except.ok true) ∧
     ((v1.cbegin.operator_plus (to_ptrdiff_t i)).operator_le (v1.cbegin.operator_plus (to_ptrdiff_t j)) = Except.ok true ∨
      (v1.cbegin.operator_plus (to_ptrdiff_t j)).operator_le (v1.cbegin.operator_plus (to_ptrdiff_t i)) = Except.ok true)) ∧
    ((v2.begin.operator_plus (to_ptrdiff_t i)).operator_lt (v2.begin.operator_plus (to_ptrdiff_t j)) = Except.ok (decide (i < j)) ∧
     (v2.begin.operator_plus (to_ptrdiff_t i)).operator_le (v2.begin.operator_plus (to_ptrdiff_t j)) = Except.ok (decide (i ≤ j)) ∧
     (v2.begin.operator_plus (to_ptrdiff_t i)).operator_le (v2.begin.operator_plus (to_ptrdiff_t i)) = Except.ok true ∧
     ((v2.begin.operator_plus (to_ptrdiff_t i)).operator_le (v2.begin.operator_plus (to_ptrdiff_t j)) = Except.ok true →
      (v2.begin.operator_plus (to_ptrdiff_t j)).operator_le (v2.begin.operator_plus (to_ptrdiff_t i)) = Except.ok true →
      (v2.begin.operator_plus (to_ptrdiff_t i)).operator_eq (v2.begin.operator_plus (to_ptrdiff_t j)) = Except.ok true) ∧
     ((v2.begin.operator_plus (to_ptrdiff_t i)).operator_le (v2.begin.operator_plus (to_ptrdiff_t j)) = Except.ok true →
      (v2.begin.operator_plus (to_ptrdiff_t j)).operator_le (v2.begin.operator_plus (to_ptrdiff_t k)) = Except.ok true →
      (v2.begin.operator_plus (to_ptrdiff_t i)).operator_le (v2.begin.operator_plus (to_ptrdiff_t k)) = Except.ok true) ∧
     ((v2.begin.operator_plus (to_ptrdiff_t i)).operator_le (v2.begin.operator_plus (to_ptrdiff_t j)) = Except.ok true ∨
      (v2.begin.operator_plus (to_ptrdiff_t j)).operator_le (v2.begin.operator_plus (to_ptrdiff_t i)) = Except.ok true)) ∧
    ((v2.cbegin.operator_plus (to_ptrdiff_t i)).operator_lt (v2.cbegin.operator_plus (to_ptrdiff_t j)) = Except.ok (decide (i < j)) ∧
     (v2.cbegin.operator_plus (to_ptrdiff_t i)).operator_le (v2.cbegin.operator_plus (to_ptrdiff_t j)) = Except.ok (decide (i ≤ j)) ∧
     (v2.cbegin.operator_plus (to_ptrdiff_t i)).operator_le (v2.cbegin.operator_plus (to_ptrdiff_t i)) = Except.ok true ∧
     ((v2.cbegin.operator_plus (to_ptrdiff_t i)).operator_le (v2.cbegin.operator_plus (to_ptrdiff_t j)) = Except.ok true →
      (v2.cbegin.operator_plus (to_ptrdiff_t j)).operator_le (v2.cbegin.operator_plus (to_ptrdiff_t i)) = Except.ok true →
      (v2.cbegin.operator_plus (to_ptrdiff_t i)).operator_eq (v2.cbegin.operator_plus (to_ptrdiff_t j)) = Except.ok true) ∧
     ((v2.cbegin.operator_plus (to_ptrdiff_t i)).operator_le (v2.cbegin.operator_plus (to_ptrdiff_t j)) = Except.ok true →
      (v2.cbegin.operator_plus (to_ptrdiff_t j)).operator_le (v2.cbegin.operator_plus (to_ptrdiff_t k)) = Except.ok true →
      (v2.cbegin.operator_plus (to_ptrdiff_t i)).operator_le (v2.cbegin.operator_plus (to_ptrdiff_t k)) = Except.ok true) ∧
     ((v2.cbegin.operator_plus (to_ptrdiff_t i)).operator_le (v2.cbegin.operator_plus (to_ptrdiff_t j)) = Except.ok true ∨
      (v2.cbegin.operator_plus (to_ptrdiff_t j)).operator_le (v2.cbegin.operator_plus (to_ptrdiff_t i)) = Except.ok true)) ∧
    ((v3.begin.operator_plus (to_ptrdiff_t i)).operator_lt (v3.begin.operator_plus (to_ptrdiff_t j)) = Except.ok (decide (i < j)) ∧
     (v3.begin.operator_plus (to_ptrdiff_t i)).operator_le (v3.begin.operator_plus (to_ptrdiff_t j)) = Except.ok (decide (i ≤ j)) ∧
     (v3.begin.operator_plus (to_ptrdiff_t i)).operator_le (v3.begin.operator_plus (to_ptrdiff_t i)) = Except.ok true ∧
     ((v3.begin.operator_plus (to_ptrdiff_t i)).operator_le (v3.begin.operator_plus (to_ptrdiff_t j)) = Except.ok true →
      (v3.begin.operator_plus (to_ptrdiff_t j)).operator_le (v3.begin.operator_plus (to_ptrdiff_t i)) = Except.ok true →
      (v3.begin.operator_plus (to_ptrdiff_t i)).operator_eq (v3.begin.operator_plus (to_ptrdiff_t j)) = Except.ok true) ∧
     ((v3.begin.operator_plus (to_ptrdiff_t i)).operator_le (v3.begin.operator_plus (to_ptrdiff_t j)) = Except.ok true →
      (v3.begin.operator_plus (to_ptrdiff_t j)).operator_le (v3.begin.operator_plus (to_ptrdiff_t k)) = Except.ok true →
      (v3.begin.operator_plus (to_ptrdiff_t i)).operator_le (v3.begin.operator_plus (to_ptrdiff_t k)) = Except.ok true) ∧
     ((v3.begin.operator_plus (to_ptrdiff_t i)).operator_le (v3.begin.operator_plus (to_ptrdiff_t j)) = Except.ok true ∨
      (v3.begin.operator_plus (to_ptrdiff_t j)).operator_le (v3.begin.operator_plus (to_ptrdiff_t i)) = Except.ok true)) ∧
    ((v4.begin.operator_plus (to_ptrdiff_t i)).operator_lt (v4.begin.operator_plus (to_ptrdiff_t j)) = Except.ok (decide (i < j)) ∧
     (v4.begin.operator_plus (to_ptrdiff_t i)).operator_le (v4.begin.operator_plus (to_ptrdiff_t j)) = Except.ok (decide (i ≤ j)) ∧
     (v4.begin.operator_plus (to_ptrdiff_t i)).operator_le (v4.begin.operator_plus (to_ptrdiff_t i)) = Except.ok true ∧
     ((v4.begin.operator_plus (to_ptrdiff_t i)).operator_le (v4.begin.operator_plus (to_ptrdiff_t j)) = Except.ok true →
      (v4.begin.operator_plus (to_ptrdiff_t j)).operator_le (v4.begin.operator_plus (to_ptrdiff_t i)) = Except.ok true →
      (v4.begin.operator_plus (to_ptrdiff_t i)).operator_eq (v4.begin.operator_plus (to_ptrdiff_t j)) = Except.ok true) ∧
     ((v4.begin.operator_plus (to_ptrdiff_t i)).operator_le (v4.begin.operator_plus (to_ptrdiff_t j)) = Except.ok true →
      (v4.begin.operator_plus (to_ptrdiff_t j)).operator_le (v4.begin.operator_plus (to_ptrdiff_t k)) = Except.ok true →
      (v4.begin.operator_plus (to_ptrdiff_t i)).operator_le (v4.begin.operator_plus (to_ptrdiff_t k)) = Except.ok true) ∧
     ((v4.begin.operator_plus (to_ptrdiff_t i)).operator_le (v4.begin.operator_plus (to_ptrdiff_t j)) = Except.ok true ∨
      (v4.begin.operator_plus (to_ptrdiff_t j)).operator_le (v4.begin.operator_plus (to_ptrdiff_t i)) = Except.ok true)) ∧
    ((v5.begin.operator_plus (to_ptrdiff_t i)).operator_lt (v5.begin.operator_plus (to_ptrdiff_t j)) = Except.ok (decide (i < j)) ∧
     (v5.begin.operator_plus (to_ptrdiff_t i)).operator_le (v5.begin.operator_plus (to_ptrdiff_t j)) = Except.ok (decide (i ≤ j)) ∧
     (v5.begin.operator_plus (to_ptrdiff_t i)).operator_le (v5.begin.operator_plus (to_ptrdiff_t i)) = Except.ok true ∧
     ((v5.begin.operator_plus (to_ptrdiff_t i)).operator_le (v5.begin.operator_plus (to_ptrdiff_t j)) = Except.ok true →
      (v5.begin.operator_plus (to_ptrdiff_t j)).operator_le (v5.begin.operator_plus (to_ptrdiff_t i)) = Except.ok true →
      (v5.begin.operator_plus (to_ptrdiff_t i)).operator_eq (v5.begin.operator_plus (to_ptrdiff_t j)) = Except.ok true) ∧
     ((v5.begin.operator_plus (to_ptrdiff_t i)).operator_le (v5.begin.operator_plus (to_ptrdiff_t j)) = Except.ok true →
      (v5.begin.operator_plus (to_ptrdiff_t j)).operator_le (v5.begin.operator_plus (to_ptrdiff_t k)) = Except.ok true →
      (v5.begin.operator_plus (to_ptrdiff_t i)).operator_le (v5.begin.operator_plus (to_ptrdiff_t k)) = Except.ok true) ∧
     ((v5.begin.operator_plus (to_ptrdiff_t i)).operator_le (v5.begin.operator_plus (to_ptrdiff_t j)) = Except.ok true ∨
      (v5.begin.operator_plus (to_ptrdiff_t j)).operator_le (v5.begin.operator_plus (to_ptrdiff_t i)) = Except.ok true)) ∧
    ((v6.begin.operator_plus (to_ptrdiff_t i)).operator_lt (v6.begin.operator_plus (to_ptrdiff_t j)) = Except.ok (decide (i < j)) ∧
     (v6.begin.operator_plus (to_ptrdiff_t i)).operator_le (v6.begin.operator_plus (to_ptrdiff_t j)) = Except.ok (decide (i ≤ j)) ∧
     (v6.begin.operator_plus (to_ptrdiff_t i)).operator_le (v6.begin.operator_plus (to_ptrdiff_t i)) = Except.ok true ∧
     ((v6.begin.operator_plus (to_ptrdiff_t i)).operator_le (v6.begin.operator_plus (to_ptrdiff_t j)) = Except.ok true →
      (v6.begin.operator_plus (to_ptrdiff_t j)).operator_le (v6.begin.operator_plus (to_ptrdiff_t i)) = Except.ok true →
      (v6.begin.operator_plus (to_ptrdiff_t i)).operator_eq (v6.begin.operator_plus (to_ptrdiff_t j)) = Except.ok true) ∧
     ((v6.begin.operator_plus (to_ptrdiff_t i)).operator_le (v6.begin.operator_plus (to_ptrdiff_t j)) = Except.ok true →
      (v6.begin.operator_plus (to_ptrdiff_t j)).operator_le (v6.begin.operator_plus (to_ptrdiff_t k)) = Except.ok true →
      (v6.begin.operator_plus (to_ptrdiff_t i)).operator_le (v6.begin.operator_plus (to_ptrdiff_t k)) = Except.ok true) ∧
     ((v6.begin.operator_plus (to_ptrdiff_t i)).operator_le (v6.begin.operator_plus (to_ptrdiff_t j)) = Except.ok true ∨
      (v6.begin.operator_plus (to_ptrdiff_t j)).operator_le (v6.begin.operator_plus (to_ptrdiff_t i)) = Except.ok true)) ∧
    ((v6.cbegin.operator_plus (to_ptrdiff_t i)).operator_lt (v6.cbegin.operator_plus (to_ptrdiff_t j)) = Except.ok (decide (i < j)) ∧
     (v6.cbegin.operator_plus (to_ptrdiff_t i)).operator_le (v6.cbegin.operator_plus (to_ptrdiff_t j)) = Except.ok (decide (i ≤ j)) ∧
     (v6.cbegin.operator_plus (to_ptrdiff_t i)).operator_le (v6.cbegin.operator_plus (to_ptrdiff_t i)) = Except.ok true ∧
     ((v6.cbegin.operator_plus (to_ptrdiff_t i)).operator_le (v6.cbegin.operator_plus (to_ptrdiff_t j)) = Except.ok true →
      (v6.cbegin.operator_plus (to_ptrdiff_t j)).operator_le (v6.cbegin.operator_plus (to_ptrdiff_t i)) = Except.ok true →
      (v6.cbegin.operator_plus (to_ptrdiff_t i)).operator_eq (v6.cbegin.operator_plus (to_ptrdiff_t j)) = Except.ok true) ∧
     ((v6.cbegin.operator_plus (to_ptrdiff_t i)).operator_le (v6.cbegin.operator_plus (to_ptrdiff_t j)) = Except.ok true →
      (v6.cbegin.operator_plus (to_ptrdiff_t j)).operator_le (v6.cbegin.operator_plus (to_ptrdiff_t k)) = Except.ok true →
      (v6.cbegin.operator_plus (to_ptrdiff_t i)).operator_le (v6.cbegin.operator_plus (to_ptrdiff_t k)) = Except.ok true) ∧
     ((v6.cbegin.operator_plus (to_ptrdiff_t i)).operator_le (v6.cbegin.operator_plus (to_ptrdiff_t j)) = Except.ok true ∨
      (v6.cbegin.operator_plus (to_ptrdiff_t j)).operator_le (v6.cbegin.operator_plus (to_ptrdiff_t i)) = Except.ok true)) := by
  have hi2 := cxx.to_size_t_to_ptrdiff_t i (by omega)
  have hj2 := cxx.to_size_t_to_ptrdiff_t j (by omega)
  have hk2 := cxx.to_size_t_to_ptrdiff_t k (by omega)
  refine ⟨?_, ?_, ?_, ?_, ?_, ?_, ?_, ?_, ?_⟩ <;>
  simp only [repeat_n_view.repeat_n_owned_view._iterator_templ.operator_eq,
    repeat_n_view.repeat_n_owned_view._iterator_templ.operator_lt,
    repeat_n_view.repeat_n_owned_view._iterator_templ.operator_le,
    repeat_n_view.repeat_n_owned_view._iterator_templ.operator_plus,
    repeat_n_view.repeat_n_owned_view._iterator_templ.operator_add_assign,
    repeat_n_view.repeat_n_owned_view.begin,
    repeat_n_view.repeat_n_owned_view.cbegin,
    notstd.single_view._iterator_templ.operator_eq,
    notstd.single_view._iterator_templ.operator_lt,
    notstd.single_view._iterator_templ.operator_le,
    notstd.single_view._iterator_templ.operator_plus,
    notstd.single_view._iterator_templ.operator_add_assign,
    notstd.single_view.begin,
    notstd.single_view.cbegin,
    repeat_n_view.repeat_n_foreign_view.const_iterator.operator_eq,
    repeat_n_view.repeat_n_foreign_view.const_iterator.operator_lt,
    repeat_n_view.repeat_n_foreign_view.const_iterator.operator_le,
    repeat_n_view.repeat_n_foreign_view.const_iterator.operator_plus,
    repeat_n_view.repeat_n_foreign_view.const_iterator.operator_add_assign,
    repeat_n_view.repeat_n_foreign_view.begin,
    notstd.dereferencing_single_view.iterator.operator_eq,
    notstd.dereferencing_single_view.iterator.operator_lt,
    notstd.dereferencing_single_view.iterator.operator_le,
    notstd.dereferencing_single_view.iterator.operator_plus,
    notstd.dereferencing_single_view.iterator.operator_add_assign,
    notstd.dereferencing_single_view.begin,
    repeat_n.foreign_view.const_iterator.operator_eq,
    repeat_n.foreign_view.const_iterator.operator_lt,
    repeat_n.foreign_view.const_iterator.operator_le,
    repeat_n.foreign_view.const_iterator.operator_plus,
    repeat_n.foreign_view.const_iterator.operator_add_assign,
    repeat_n.foreign_view.begin,
    repeat_n.owned_view._iterator_templ.operator_eq,
    repeat_n.owned_view._iterator_templ.operator_lt,
    repeat_n.owned_view._iterator_templ.operator_le,
    repeat_n.owned_view._iterator_templ.operator_plus,
    repeat_n.owned_view._iterator_templ.operator_add_assign,
    repeat_n.owned_view.begin,
    repeat_n.owned_view.cbegin,
    ne_eq, not_true_eq_false, if_false, if_true, Except.ok.injEq, Nat.cast_zero, zero_add,
    hi2, hj2, hk2, decide_True, Bool.true_and, decide_eq_true_eq, le_refl, true_and] <;>
  omega

/-- C6 (witness): the claim at `N = 3`, `i = 1`, `j = 2`, `k = 3`:
`begin()+1 < begin()+2` returns true. -/
theorem C6_ordering_agrees_with_position_witness :
    ((1 : Nat) ≤ 3 ∧ (2 : Nat) ≤ 3 ∧ (3 : Nat) ≤ 3 ∧ (3 : Nat) < 18446744073709551616) ∧
    ((⟨4096⟩ : repeat_n_view.repeat_n_owned_view 3).begin.operator_plus (to_ptrdiff_t 1)).operator_lt
      ((⟨4096⟩ : repeat_n_view.repeat_n_owned_view 3).begin.operator_plus (to_ptrdiff_t 2)) = Except.ok true :=
  ⟨by decide,
   (C6_ordering_agrees_with_position 3 1 2 3 ⟨4096⟩ ⟨4096⟩ ⟨4096⟩ ⟨4096⟩ ⟨4096⟩ ⟨4096⟩
      (by decide) (by decide) (by decide) (by decide)).1.1⟩

/-! ## Walking a view -/

/-- C7: for every view of length `N` (a `std::size_t`), applying pre-increment `N` times
to `begin()` yields an iterator equal to `end()`, and applying pre-decrement `N` times to
`end()` yields an iterator equal to `begin()`. -/
theorem C7_increment_round_trip (N : Nat)
    (v1 : repeat_n_view.repeat_n_owned_view N)
    (v2 : notstd.single_view N)
    (v3 : repeat_n_view.repeat_n_foreign_view N)
    (v4 : notstd.dereferencing_single_view N)
    (v5 : repeat_n.foreign_view N)
    (v6 : repeat_n.owned_view N)
    (hN : N < 18446744073709551616) :
    ((Nat.iterate repeat_n_view.repeat_n_owned_view._iterator_templ.operator_preinc N v1.begin).operator_eq v1.end_ = Except.ok true ∧
     (Nat.iterate repeat_n_view.repeat_n_owned_view._iterator_templ.operator_predec N v1.end_).operator_eq v1.begin = Except.ok true) ∧
    ((Nat.iterate repeat_n_view.repeat_n_owned_view._iterator_templ.operator_preinc N v1.cbegin).operator_eq v1.cend = Except.ok true ∧
     (Nat.iterate repeat_n_view.repeat_n_owned_view._iterator_templ.operator_predec N v1.cend).operator_eq v1.cbegin = Except.ok true) ∧
    ((Nat.iterate notstd.single_view._iterator_templ.operator_preinc N v2.begin).operator_eq v2.end_ = Except.ok true ∧
     (Nat.iterate notstd.single_view._iterator_templ.operator_predec N v2.end_).operator_eq v2.begin = Except.ok true) ∧
    ((Nat.iterate notstd.single_view._iterator_templ.operator_preinc N v2.cbegin).operator_eq v2.cend = Except.ok true ∧
     (Nat.iterate notstd.single_view._iterator_templ.operator_predec N v2.cend).operator_eq v2.cbegin = Except.ok true) ∧
    ((Nat.iterate repeat_n_view.repeat_n_foreign_view.const_iterator.operator_preinc N v3.begin).operator_eq v3.end_ = Except.ok true ∧
     (Nat.iterate repeat_n_view.repeat_n_foreign_view.const_iterator.operator_predec N v3.end_).operator_eq v3.begin = Except.ok true) ∧
    ((Nat.iterate notstd.dereferencing_single_view.iterator.operator_preinc N v4.begin).operator_eq v4.end_ = Except.ok true ∧
     (Nat.iterate notstd.dereferencing_single_view.iterator.operator_predec N v4.end_).operator_eq v4.begin = Except.ok true) ∧
    ((Nat.iterate repeat_n.foreign_view.const_iterator.operator_preinc N v5.begin).operator_eq v5.end_ = Except.ok true ∧
     (Nat.iterate repeat_n.foreign_view.const_iterator.operator_predec N v5.end_).operator_eq v5.begin = Except.ok true) ∧
    ((Nat.iterate repeat_n.owned_view._iterator_templ.operator_preinc N v6.begin).operator_eq v6.end_ = Except.ok true ∧
     (Nat.iterate repeat_n.owned_view._iterator_templ.operator_predec N v6.end_).operator_eq v6.begin = Except.ok true) ∧
    ((Nat.iterate repeat_n.owned_view._iterator_templ.operator_preinc N v6.cbegin).operator_eq v6.cend = Except.ok true ∧
     (Nat.iterate repeat_n.owned_view._iterator_templ.operator_predec N v6.cend).operator_eq v6.cbegin = Except.ok true) := by
  have h3 := cxx.to_size_t_of_lt N hN
  have h0 : to_size_t 0 = 0 := rfl
  refine ⟨?_, ?_, ?_, ?_, ?_, ?_, ?_, ?_, ?_⟩
  · rw [repeat_n_owned_view_iterate_preinc N v1.begin
        (by simp [repeat_n_view.repeat_n_owned_view.begin]),
      repeat_n_owned_view_iterate_predec N v1.end_ hN]
    simp [repeat_n_view.repeat_n_owned_view._iterator_templ.operator_eq, repeat_n_view.repeat_n_owned_view.begin, repeat_n_view.repeat_n_owned_view.end_,
      h3, h0]
  · rw [repeat_n_owned_view_iterate_preinc N v1.cbegin
        (by simp [repeat_n_view.repeat_n_owned_view.cbegin]),
      repeat_n_owned_view_iterate_predec N v1.cend hN]
    simp [repeat_n_view.repeat_n_owned_view._iterator_templ.operator_eq, repeat_n_view.repeat_n_owned_view.cbegin, repeat_n_view.repeat_n_owned_view.cend,
      h3, h0]
  · rw [single_view_iterate_preinc N v2.begin
        (by simp [notstd.single_view.begin]),
      single_view_iterate_predec N v2.end_ hN]
    simp [notstd.single_view._iterator_templ.operator_eq, notstd.single_view.begin, notstd.single_view.end_,
      h3, h0]
  · rw [single_view_iterate_preinc N v2.cbegin
        (by simp [notstd.single_view.cbegin]),
      single_view_iterate_predec N v2.cend hN]
    simp [notstd.single_view._iterator_templ.operator_eq, notstd.single_view.cbegin, notstd.single_view.cend,
      h3, h0]
  · rw [repeat_n_foreign_view_iterate_preinc N v3.begin
        (by simp [repeat_n_view.repeat_n_foreign_view.begin]),
      repeat_n_foreign_view_iterate_predec N v3.end_ hN]
    simp [repeat_n_view.repeat_n_foreign_view.const_iterator.operator_eq, repeat_n_view.repeat_n_foreign_view.begin, repeat_n_view.repeat_n_foreign_view.end_,
      h3, h0]
  · rw [dereferencing_single_view_iterate_preinc N v4.begin
        (by simp [notstd.dereferencing_single_view.begin]),
      dereferencing_single_view_iterate_predec N v4.end_ hN]
    simp [notstd.dereferencing_single_view.iterator.operator_eq, notstd.dereferencing_single_view.begin, notstd.dereferencing_single_view.end_,
      h3, h0]
  · rw [noexcept_foreign_view_iterate_preinc N v5.begin
        (by simp [repeat_n.foreign_view.begin]),
      noexcept_foreign_view_iterate_predec N v5.end_ hN]
    simp [repeat_n.foreign_view.const_iterator.operator_eq, repeat_n.foreign_view.begin, repeat_n.foreign_view.end_,
      h3, h0]
  · rw [noexcept_owned_view_iterate_preinc N v6.begin
        (by simp [repeat_n.owned_view.begin]),
      noexcept_owned_view_iterate_predec N v6.end_ hN]
    simp [repeat_n.owned_view._iterator_templ.operator_eq, repeat_n.owned_view.begin, repeat_n.owned_view.end_,
      h3, h0]
  · rw [noexcept_owned_view_iterate_preinc N v6.cbegin
        (by simp [repeat_n.owned_view.cbegin]),
      noexcept_owned_view_iterate_predec N v6.cend hN]
    simp [repeat_n.owned_view._iterator_templ.operator_eq, repeat_n.owned_view.cbegin, repeat_n.owned_view.cend,
      h3, h0]

/-- C7 (witness): the claim at `N = 3` for a `repeat_n_owned_view` stored at 4096. -/
theorem C7_increment_round_trip_witness :
    (3 : Nat) < 18446744073709551616 ∧
    (Nat.iterate repeat_n_view.repeat_n_owned_view._iterator_templ.operator_preinc 3 (⟨4096⟩ : repeat_n_view.repeat_n_owned_view 3).begin).operator_eq
      (⟨4096⟩ : repeat_n_view.repeat_n_owned_view 3).end_ = Except.ok true ∧
    (Nat.iterate repeat_n_view.repeat_n_owned_view._iterator_templ.operator_predec 3 (⟨4096⟩ : repeat_n_view.repeat_n_owned_view 3).end_).operator_eq
      (⟨4096⟩ : repeat_n_view.repeat_n_owned_view 3).begin = Except.ok true :=
  ⟨by decide,
   (C7_increment_round_trip 3 ⟨4096⟩ ⟨4096⟩ ⟨4096⟩ ⟨4096⟩ ⟨4096⟩ ⟨4096⟩ (by decide)).1⟩

/-! ## Dereferencing -/

/-- C8: for every view and all positions `i`, `j` in `[0, N)`, dereferencing `begin()+i`
and `begin()+j` yields the same object: both results are the lvalue at the single storage
address of the view, independent of the position. -/
theorem C8_dereference_is_position_independent (N i j : Nat)
    (v1 : repeat_n_view.repeat_n_owned_view N)
    (v2 : notstd.single_view N)
    (v3 : repeat_n_view.repeat_n_foreign_view N)
    (v4 : notstd.dereferencing_single_view N)
    (v5 : repeat_n.foreign_view N)
    (v6 : repeat_n.owned_view N)
    (_hi : i < N) (_hj : j < N) :
    ((v1.begin.operator_plus (to_ptrdiff_t i)).operator_star = (v1.begin.operator_plus (to_ptrdiff_t j)).operator_star ∧
     (v1.begin.operator_plus (to_ptrdiff_t i)).operator_star.addr = v1.addressof___contents ∧
     (v1.begin.operator_plus (to_ptrdiff_t j)).operator_star.addr = v1.addressof___contents) ∧
    ((v1.cbegin.operator_plus (to_ptrdiff_t i)).operator_star = (v1.cbegin.operator_plus (to_ptrdiff_t j)).operator_star ∧
     (v1.cbegin.operator_plus (to_ptrdiff_t i)).operator_star.addr = v1.addressof___contents ∧
     (v1.cbegin.operator_plus (to_ptrdiff_t j)).operator_star.addr = v1.addressof___contents) ∧
    ((v2.begin.operator_plus (to_ptrdiff_t i)).operator_star = (v2.begin.operator_plus (to_ptrdiff_t j)).operator_star ∧
     (v2.begin.operator_plus (to_ptrdiff_t i)).operator_star.addr = v2.addressof_contents ∧
     (v2.begin.operator_plus (to_ptrdiff_t j)).operator_star.addr = v2.addressof_contents) ∧
    ((v2.cbegin.operator_plus (to_ptrdiff_t i)).operator_star = (v2.cbegin.operator_plus (to_ptrdiff_t j)).operator_star ∧
     (v2.cbegin.operator_plus (to_ptrdiff_t i)).operator_star.addr = v2.addressof_contents ∧
     (v2.cbegin.operator_plus (to_ptrdiff_t j)).operator_star.addr = v2.addressof_contents) ∧
    ((v3.begin.operator_plus (to_ptrdiff_t i)).operator_star = (v3.begin.operator_plus (to_ptrdiff_t j)).operator_star ∧
     (v3.begin.operator_plus (to_ptrdiff_t i)).operator_star.addr = v3.__contents ∧
     (v3.begin.operator_plus (to_ptrdiff_t j)).operator_star.addr = v3.__contents) ∧
    ((v4.begin.operator_plus (to_ptrdiff_t i)).operator_star = (v4.begin.operator_plus (to_ptrdiff_t j)).operator_star ∧
     (v4.begin.operator_plus (to_ptrdiff_t i)).operator_star.addr = v4.contents ∧
     (v4.begin.operator_plus (to_ptrdiff_t j)).operator_star.addr = v4.contents) ∧
    ((v5.begin.operator_plus (to_ptrdiff_t i)).operator_star = (v5.begin.operator_plus (to_ptrdiff_t j)).operator_star ∧
     (v5.begin.operator_plus (to_ptrdiff_t i)).operator_star.addr = v5.M_contents ∧
     (v5.begin.operator_plus (to_ptrdiff_t j)).operator_star.addr = v5.M_contents) ∧
    ((v6.begin.operator_plus (to_ptrdiff_t i)).operator_star = (v6.begin.operator_plus (to_ptrdiff_t j)).operator_star ∧
     (v6.begin.operator_plus (to_ptrdiff_t i)).operator_star.addr = v6.addressof_M_contents ∧
     (v6.begin.operator_plus (to_ptrdiff_t j)).operator_star.addr = v6.addressof_M_contents) ∧
    ((v6.cbegin.operator_plus (to_ptrdiff_t i)).operator_star = (v6.cbegin.operator_plus (to_ptrdiff_t j)).operator_star ∧
     (v6.cbegin.operator_plus (to_ptrdiff_t i)).operator_star.addr = v6.addressof_M_contents ∧
     (v6.cbegin.operator_plus (to_ptrdiff_t j)).operator_star.addr = v6.addressof_M_contents) := by
  refine ⟨?_, ?_, ?_, ?_, ?_, ?_, ?_, ?_, ?_⟩ <;>
  simp only [repeat_n_view.repeat_n_owned_view._iterator_templ.operator_star,
    repeat_n_view.repeat_n_owned_view._iterator_templ.operator_plus,
    repeat_n_view.repeat_n_owned_view._iterator_templ.operator_add_assign,
    repeat_n_view.repeat_n_owned_view.begin,
    repeat_n_view.repeat_n_owned_view.cbegin,
    notstd.single_view._iterator_templ.operator_star,
    notstd.single_view._iterator_templ.operator_plus,
    notstd.single_view._iterator_templ.operator_add_assign,
    notstd.single_view.begin,
    notstd.single_view.cbegin,
    repeat_n_view.repeat_n_foreign_view.const_iterator.operator_star,
    repeat_n_view.repeat_n_foreign_view.const_iterator.operator_plus,
    repeat_n_view.repeat_n_foreign_view.const_iterator.operator_add_assign,
    repeat_n_view.repeat_n_foreign_view.begin,
    notstd.dereferencing_single_view.iterator.operator_star,
    notstd.dereferencing_single_view.iterator.operator_plus,
    notstd.dereferencing_single_view.iterator.operator_add_assign,
    notstd.dereferencing_single_view.begin,
    repeat_n.foreign_view.const_iterator.operator_star,
    repeat_n.foreign_view.const_iterator.operator_plus,
    repeat_n.foreign_view.const_iterator.operator_add_assign,
    repeat_n.foreign_view.begin,
    repeat_n.owned_view._iterator_templ.operator_star,
    repeat_n.owned_view._iterator_templ.operator_plus,
    repeat_n.owned_view._iterator_templ.operator_add_assign,
    repeat_n.owned_view.begin,
    repeat_n.owned_view.cbegin,
    and_self]

/-- C8 (witness): positions 0 and 2 of views of length 3; in the `repeat_n_owned_view`
stored at 4096 both dereference to the lvalue at 4096. -/
theorem C8_dereference_is_position_independent_witness :
    ((0 : Nat) < 3 ∧ (2 : Nat) < 3) ∧
    ((⟨4096⟩ : repeat_n_view.repeat_n_owned_view 3).begin.operator_plus (to_ptrdiff_t 0)).operator_star =
    ((⟨4096⟩ : repeat_n_view.repeat_n_owned_view 3).begin.operator_plus (to_ptrdiff_t 2)).operator_star :=
  ⟨by decide,
   (C8_dereference_is_position_independent 3 0 2 ⟨4096⟩ ⟨4096⟩ ⟨4096⟩ ⟨4096⟩ ⟨4096⟩ ⟨4096⟩
      (by decide) (by decide)).1.1⟩

/-- C9: in `repeat_n_owned_view`, `single_view`, `repeat_n_foreign_view` and
`dereferencing_single_view`, for every iterator `it` and every signed offset `n`, `it[n]`
is the lvalue at the storage address of the iterator, the same object as `*it`, whatever
`n` and the position. -/
theorem C9_subscript_is_dereference (n : Int)
    (m1 : Bool) (it1 : repeat_n_view.repeat_n_owned_view._iterator_templ m1)
    (m2 : Bool) (it2 : notstd.single_view._iterator_templ m2)
    (it3 : repeat_n_view.repeat_n_foreign_view.const_iterator)
    (it4 : notstd.dereferencing_single_view.iterator) :
    (it1.operator_index n = it1.operator_star ∧
     (it1.operator_index n).addr = it1.location) ∧
    (it2.operator_index n = it2.operator_star ∧
     (it2.operator_index n).addr = it2.location) ∧
    (it3.operator_index n = it3.operator_star ∧
     (it3.operator_index n).addr = it3.location) ∧
    (it4.operator_index n = it4.operator_star ∧
     (it4.operator_index n).addr = it4.location) :=
  ⟨⟨rfl, rfl⟩, ⟨rfl, rfl⟩, ⟨rfl, rfl⟩, ⟨rfl, rfl⟩⟩

/-- C10 (evaluation at the failing input): in `repeat_n::owned_view` and
`repeat_n::foreign_view` with a 4-byte element type and storage address 4096, `it[1]` for
`it = begin()` is the lvalue at address 4100, while `*it` is the lvalue at 4096: `it[n]`
reads `*(location + n)` and is not the same object as `*it`. -/
theorem C10_subscript_reads_offset_address :
    (repeat_n.owned_view._iterator_templ.operator_index 4 (⟨4096⟩ : repeat_n.owned_view 3).begin 1 = ⟨4100⟩ ∧
     repeat_n.owned_view._iterator_templ.operator_star (⟨4096⟩ : repeat_n.owned_view 3).begin = ⟨4096⟩ ∧
     repeat_n.owned_view._iterator_templ.operator_index 4 (⟨4096⟩ : repeat_n.owned_view 3).begin 1 ≠
       repeat_n.owned_view._iterator_templ.operator_star (⟨4096⟩ : repeat_n.owned_view 3).begin) ∧
    (repeat_n.foreign_view.const_iterator.operator_index 4 (⟨4096⟩ : repeat_n.foreign_view 3).begin 1 = ⟨4100⟩ ∧
     repeat_n.foreign_view.const_iterator.operator_star (⟨4096⟩ : repeat_n.foreign_view 3).begin = ⟨4096⟩ ∧
     repeat_n.foreign_view.const_iterator.operator_index 4 (⟨4096⟩ : repeat_n.foreign_view 3).begin 1 ≠
       repeat_n.foreign_view.const_iterator.operator_star (⟨4096⟩ : repeat_n.foreign_view 3).begin) := by
  decide

/-! ## Iteration -/

/-- A walk over positions `c, c+1, .., N-1` of iterators that all dereference to the lvalue
at `a` reads the value stored at `a` once per position, provided `operator!=` compares
positions and `++` advances by one. -/
theorem cxx.walk_replicate {Iterator T : Type}
    (operator_ne : Iterator → Iterator → Except exception Bool)
    (operator_preinc : Iterator → Iterator) (operator_star : Iterator → reference)
    (m : memory T) (at_position : Nat → Iterator) (N : Nat) (a : pointer)
    (hne : ∀ c, c ≤ N → operator_ne (at_position c) (at_position N) = Except.ok (!decide (c = N)))
    (hinc : ∀ c, c < N → operator_preinc (at_position c) = at_position (c + 1))
    (hstar : ∀ c, operator_star (at_position c) = ⟨a⟩) :
    ∀ (fuel c : Nat), c ≤ N → N - c < fuel →
      walk operator_ne operator_preinc operator_star m (at_position N) fuel (at_position c) =
        some (Except.ok (List.replicate (N - c) (m a))) := by
  intro fuel
  induction fuel with
  | zero => intro c _ h; omega
  | succ fuel ih =>
    intro c hc hfuel
    unfold walk
    rw [hne c hc]
    by_cases hcN : c = N
    · subst hcN
      simp
    · have hlt : c < N := by omega
      simp only [hcN, decide_False, Bool.not_false]
      rw [hinc c hlt, ih (c + 1) (by omega) (by omega), hstar c]
      have hrep : N - c = (N - (c + 1)) + 1 := by omega
      simp only [load]
      rw [hrep, List.replicate_succ]

/-- Walking a `repeat_n_view::repeat_n_owned_view` from position 0 to position `N` reads the value
stored at the address of the iterators `N` times. -/
theorem repeat_n_owned_view_walk {T : Type} {mb : Bool} (m : memory T) (N fuel : Nat)
    (a : pointer) (hN : N < 18446744073709551616) (hfuel : N < fuel) :
    walk repeat_n_view.repeat_n_owned_view._iterator_templ.operator_ne repeat_n_view.repeat_n_owned_view._iterator_templ.operator_preinc repeat_n_view.repeat_n_owned_view._iterator_templ.operator_star m
      (⟨a, N⟩ : repeat_n_view.repeat_n_owned_view._iterator_templ mb) fuel ⟨a, 0⟩ =
      some (Except.ok (List.replicate N (m a))) := by
  have h := cxx.walk_replicate repeat_n_view.repeat_n_owned_view._iterator_templ.operator_ne repeat_n_view.repeat_n_owned_view._iterator_templ.operator_preinc repeat_n_view.repeat_n_owned_view._iterator_templ.operator_star m
    (fun c => (⟨a, c⟩ : repeat_n_view.repeat_n_owned_view._iterator_templ mb)) N a
    (by
      intro c _
      simp [repeat_n_view.repeat_n_owned_view._iterator_templ.operator_ne, repeat_n_view.repeat_n_owned_view._iterator_templ.operator_eq])
    (by
      intro c hc
      have h1 : to_size_t ((c : Int) + 1) = c + 1 := by
        have := cxx.to_size_t_of_lt (c + 1) (by omega)
        simpa using this
      simp [repeat_n_view.repeat_n_owned_view._iterator_templ.operator_preinc, h1])
    (by intro c; rfl)
    fuel 0 (Nat.zero_le N) (by omega)
  simpa using h

/-- Walking a `notstd::single_view` from position 0 to position `N` reads the value
stored at the address of the iterators `N` times. -/
theorem single_view_walk {T : Type} {mb : Bool} (m : memory T) (N fuel : Nat)
    (a : pointer) (hN : N < 18446744073709551616) (hfuel : N < fuel) :
    walk notstd.single_view._iterator_templ.operator_ne notstd.single_view._iterator_templ.operator_preinc notstd.single_view._iterator_templ.operator_star m
      (⟨a, N⟩ : notstd.single_view._iterator_templ mb) fuel ⟨a, 0⟩ =
      some (Except.ok (List.replicate N (m a))) := by
  have h := cxx.walk_replicate notstd.single_view._iterator_templ.operator_ne notstd.single_view._iterator_templ.operator_preinc notstd.single_view._iterator_templ.operator_star m
    (fun c => (⟨a, c⟩ : notstd.single_view._iterator_templ mb)) N a
    (by
      intro c _
      simp [notstd.single_view._iterator_templ.operator_ne, notstd.single_view._iterator_templ.operator_eq])
    (by
      intro c hc
      have h1 : to_size_t ((c : Int) + 1) = c + 1 := by
        have := cxx.to_size_t_of_lt (c + 1) (by omega)
        simpa using this
      simp [notstd.single_view._iterator_templ.operator_preinc, h1])
    (by intro c; rfl)
    fuel 0 (Nat.zero_le N) (by omega)
  simpa using h

/-- Walking a `repeat_n::owned_view` from position 0 to position `N` reads the value
stored at the address of the iterators `N` times. -/
theorem noexcept_owned_view_walk {T : Type} {mb : Bool} (m : memory T) (N fuel : Nat)
    (a : pointer) (hN : N < 18446744073709551616) (hfuel : N < fuel) :
    walk repeat_n.owned_view._iterator_templ.operator_ne repeat_n.owned_view._iterator_templ.operator_preinc repeat_n.owned_view._iterator_templ.operator_star m
      (⟨a, N⟩ : repeat_n.owned_view._iterator_templ mb) fuel ⟨a, 0⟩ =
      some (Except.ok (List.replicate N (m a))) := by
  have h := cxx.walk_replicate repeat_n.owned_view._iterator_templ.operator_ne repeat_n.owned_view._iterator_templ.operator_preinc repeat_n.owned_view._iterator_templ.operator_star m
    (fun c => (⟨a, c⟩ : repeat_n.owned_view._iterator_templ mb)) N a
    (by
      intro c _
      simp [repeat_n.owned_view._iterator_templ.operator_ne, repeat_n.owned_view._iterator_templ.operator_eq])
    (by
      intro c hc
      have h1 : to_size_t ((c : Int) + 1) = c + 1 := by
        have := cxx.to_size_t_of_lt (c + 1) (by omega)
        simpa using this
      simp [repeat_n.owned_view._iterator_templ.operator_preinc, h1])
    (by intro c; rfl)
    fuel 0 (Nat.zero_le N) (by omega)
  simpa using h

/-- C11: for every owned view of length `N` (a `std::size_t`) holding the value `val`, the
walk from `begin()` with `++` until the iterator equals `end()` ends, visits exactly `N`
positions and reads `val` at each of them (the list of the values read is `N` times
`val`); `size()` is `N` and `*begin()` is `val`. -/
theorem C11_forward_walk_reads_value {T : Type} (N fuel : Nat) (m : memory T) (val : T)
    (v1 : repeat_n_view.repeat_n_owned_view N)
    (v2 : notstd.single_view N)
    (v6 : repeat_n.owned_view N)
    (hN : N < 18446744073709551616) (hfuel : N < fuel)
    (h1 : load m v1.data = val) (h2 : load m v2.data = val) (h6 : load m v6.data = val) :
    (walk repeat_n_view.repeat_n_owned_view._iterator_templ.operator_ne repeat_n_view.repeat_n_owned_view._iterator_templ.operator_preinc repeat_n_view.repeat_n_owned_view._iterator_templ.operator_star m
        v1.end_ fuel v1.begin = some (Except.ok (List.replicate N val)) ∧
     walk repeat_n_view.repeat_n_owned_view._iterator_templ.operator_ne repeat_n_view.repeat_n_owned_view._iterator_templ.operator_preinc repeat_n_view.repeat_n_owned_view._iterator_templ.operator_star m
        v1.cend fuel v1.cbegin = some (Except.ok (List.replicate N val)) ∧
     v1.size = N ∧
     load m v1.begin.operator_star = val) ∧
    (walk notstd.single_view._iterator_templ.operator_ne notstd.single_view._iterator_templ.operator_preinc notstd.single_view._iterator_templ.operator_star m
        v2.end_ fuel v2.begin = some (Except.ok (List.replicate N val)) ∧
     walk notstd.single_view._iterator_templ.operator_ne notstd.single_view._iterator_templ.operator_preinc notstd.single_view._iterator_templ.operator_star m
        v2.cend fuel v2.cbegin = some (Except.ok (List.replicate N val)) ∧
     v2.size = N ∧
     load m v2.begin.operator_star = val) ∧
    (walk repeat_n.owned_view._iterator_templ.operator_ne repeat_n.owned_view._iterator_templ.operator_preinc repeat_n.owned_view._iterator_templ.operator_star m
        v6.end_ fuel v6.begin = some (Except.ok (List.replicate N val)) ∧
     walk repeat_n.owned_view._iterator_templ.operator_ne repeat_n.owned_view._iterator_templ.operator_preinc repeat_n.owned_view._iterator_templ.operator_star m
        v6.cend fuel v6.cbegin = some (Except.ok (List.replicate N val)) ∧
     v6.size = N ∧
     load m v6.begin.operator_star = val) := by
  refine ⟨?_, ?_, ?_⟩
  · have hw := fun mb => @repeat_n_owned_view_walk T mb m N fuel v1.addressof___contents hN hfuel
    have hm : m v1.addressof___contents = val := h1
    rw [hm] at hw
    exact ⟨hw true, hw false, rfl, h1⟩
  · have hw := fun mb => @single_view_walk T mb m N fuel v2.addressof_contents hN hfuel
    have hm : m v2.addressof_contents = val := h2
    rw [hm] at hw
    exact ⟨hw true, hw false, rfl, h2⟩
  · have hw := fun mb => @noexcept_owned_view_walk T mb m N fuel v6.addressof_M_contents hN hfuel
    have hm : m v6.addressof_M_contents = val := h6
    rw [hm] at hw
    exact ⟨hw true, hw false, rfl, h6⟩

/-- C11 (witness): the scenario `N = 3`, value 42: an owned view constructed at address 4096
with the value 42 is walked in 4 evaluations of the loop condition and yields 42, 42, 42;
`size() == 3` and `*begin() == 42`. -/
theorem C11_forward_walk_reads_value_witness :
    ((3 : Nat) < 18446744073709551616 ∧ (3 : Nat) < 4) ∧
    walk repeat_n_view.repeat_n_owned_view._iterator_templ.operator_ne repeat_n_view.repeat_n_owned_view._iterator_templ.operator_preinc repeat_n_view.repeat_n_owned_view._iterator_templ.operator_star
        (repeat_n_view.repeat_n_owned_view.construct 3 (fun _ => (0 : Int)) 4096 42).2
        (repeat_n_view.repeat_n_owned_view.construct 3 (fun _ => (0 : Int)) 4096 42).1.end_ 4
        (repeat_n_view.repeat_n_owned_view.construct 3 (fun _ => (0 : Int)) 4096 42).1.begin
      = some (Except.ok [42, 42, 42]) ∧
    (repeat_n_view.repeat_n_owned_view.construct 3 (fun _ => (0 : Int)) 4096 42).1.size = 3 ∧
    load (repeat_n_view.repeat_n_owned_view.construct 3 (fun _ => (0 : Int)) 4096 42).2
      (repeat_n_view.repeat_n_owned_view.construct 3 (fun _ => (0 : Int)) 4096 42).1.begin.operator_star = 42 :=
  ⟨by decide,
   (C11_forward_walk_reads_value 3 4 (repeat_n_view.repeat_n_owned_view.construct 3 (fun _ => (0 : Int)) 4096 42).2 42
      (repeat_n_view.repeat_n_owned_view.construct 3 (fun _ => (0 : Int)) 4096 42).1 ⟨4096⟩ ⟨4096⟩
      (by decide) (by decide) rfl rfl rfl).1.1,
   (C11_forward_walk_reads_value 3 4 (repeat_n_view.repeat_n_owned_view.construct 3 (fun _ => (0 : Int)) 4096 42).2 42
      (repeat_n_view.repeat_n_owned_view.construct 3 (fun _ => (0 : Int)) 4096 42).1 ⟨4096⟩ ⟨4096⟩
      (by decide) (by decide) rfl rfl rfl).1.2.2⟩

/-! ## Writes and their visibility -/

/-- C12: for every owned view of length `N` (a `std::size_t`), a write of `w` through `*it`
of a mutable iterator at a position `i` in `[0, N)` is the same write as `data() = w`, and
after it dereferencing a mutable or a constant iterator at any position `j` in `[0, N)`,
`data()` and `data() const` all read `w`, and a walk from `begin()` to `end()` reads `w`
exactly `N` times. Iterators are values, so one created before the write is the one created
after it. -/
theorem C12_write_is_visible_everywhere {T : Type} (N i j fuel : Nat) (m : memory T) (w : T)
    (v1 : repeat_n_view.repeat_n_owned_view N)
    (v2 : notstd.single_view N)
    (v6 : repeat_n.owned_view N)
    (_hi : i < N) (_hj : j < N) (hN : N < 18446744073709551616) (hfuel : N < fuel) :
    (store m (v1.begin.operator_plus (to_ptrdiff_t i)).operator_star w = store m v1.data w ∧
     load (store m v1.data w) (v1.begin.operator_plus (to_ptrdiff_t j)).operator_star = w ∧
     load (store m v1.data w) (v1.cbegin.operator_plus (to_ptrdiff_t j)).operator_star = w ∧
     load (store m v1.data w) v1.data = w ∧
     load (store m v1.data w) v1.data_const = w ∧
     walk repeat_n_view.repeat_n_owned_view._iterator_templ.operator_ne repeat_n_view.repeat_n_owned_view._iterator_templ.operator_preinc repeat_n_view.repeat_n_owned_view._iterator_templ.operator_star (store m v1.data w)
        v1.end_ fuel v1.begin = some (Except.ok (List.replicate N w)) ∧
     walk repeat_n_view.repeat_n_owned_view._iterator_templ.operator_ne repeat_n_view.repeat_n_owned_view._iterator_templ.operator_preinc repeat_n_view.repeat_n_owned_view._iterator_templ.operator_star (store m v1.data w)
        v1.cend fuel v1.cbegin = some (Except.ok (List.replicate N w))) ∧
    (store m (v2.begin.operator_plus (to_ptrdiff_t i)).operator_star w = store m v2.data w ∧
     load (store m v2.data w) (v2.begin.operator_plus (to_ptrdiff_t j)).operator_star = w ∧
     load (store m v2.data w) (v2.cbegin.operator_plus (to_ptrdiff_t j)).operator_star = w ∧
     load (store m v2.data w) v2.data = w ∧
     load (store m v2.data w) v2.data_const = w ∧
     walk notstd.single_view._iterator_templ.operator_ne notstd.single_view._iterator_templ.operator_preinc notstd.single_view._iterator_templ.operator_star (store m v2.data w)
        v2.end_ fuel v2.begin = some (Except.ok (List.replicate N w)) ∧
     walk notstd.single_view._iterator_templ.operator_ne notstd.single_view._iterator_templ.operator_preinc notstd.single_view._iterator_templ.operator_star (store m v2.data w)
        v2.cend fuel v2.cbegin = some (Except.ok (List.replicate N w))) ∧
    (store m (v6.begin.operator_plus (to_ptrdiff_t i)).operator_star w = store m v6.data w ∧
     load (store m v6.data w) (v6.begin.operator_plus (to_ptrdiff_t j)).operator_star = w ∧
     load (store m v6.data w) (v6.cbegin.operator_plus (to_ptrdiff_t j)).operator_star = w ∧
     load (store m v6.data w) v6.data = w ∧
     load (store m v6.data w) v6.data_const = w ∧
     walk repeat_n.owned_view._iterator_templ.operator_ne repeat_n.owned_view._iterator_templ.operator_preinc repeat_n.owned_view._iterator_templ.operator_star (store m v6.data w)
        v6.end_ fuel v6.begin = some (Except.ok (List.replicate N w)) ∧
     walk repeat_n.owned_view._iterator_templ.operator_ne repeat_n.owned_view._iterator_templ.operator_preinc repeat_n.owned_view._iterator_templ.operator_star (store m v6.data w)
        v6.cend fuel v6.cbegin = some (Except.ok (List.replicate N w))) := by
  refine ⟨?_, ?_, ?_⟩
  · have hw := fun mb => @repeat_n_owned_view_walk T mb (store m v1.data w) N fuel v1.addressof___contents hN hfuel
    have hm : store m v1.data w v1.addressof___contents = w := by
      simp [store, repeat_n_view.repeat_n_owned_view.data]
    rw [hm] at hw
    refine ⟨?_, ?_, ?_, ?_, ?_, hw true, hw false⟩ <;>
    simp [load, store, repeat_n_view.repeat_n_owned_view.data, repeat_n_view.repeat_n_owned_view.data_const, repeat_n_view.repeat_n_owned_view.begin, repeat_n_view.repeat_n_owned_view.cbegin,
      repeat_n_view.repeat_n_owned_view._iterator_templ.operator_star, repeat_n_view.repeat_n_owned_view._iterator_templ.operator_plus, repeat_n_view.repeat_n_owned_view._iterator_templ.operator_add_assign]
  · have hw := fun mb => @single_view_walk T mb (store m v2.data w) N fuel v2.addressof_contents hN hfuel
    have hm : store m v2.data w v2.addressof_contents = w := by
      simp [store, notstd.single_view.data]
    rw [hm] at hw
    refine ⟨?_, ?_, ?_, ?_, ?_, hw true, hw false⟩ <;>
    simp [load, store, notstd.single_view.data, notstd.single_view.data_const, notstd.single_view.begin, notstd.single_view.cbegin,
      notstd.single_view._iterator_templ.operator_star, notstd.single_view._iterator_templ.operator_plus, notstd.single_view._iterator_templ.operator_add_assign]
  · have hw := fun mb => @noexcept_owned_view_walk T mb (store m v6.data w) N fuel v6.addressof_M_contents hN hfuel
    have hm : store m v6.data w v6.addressof_M_contents = w := by
      simp [store, repeat_n.owned_view.data]
    rw [hm] at hw
    refine ⟨?_, ?_, ?_, ?_, ?_, hw true, hw false⟩ <;>
    simp [load, store, repeat_n.owned_view.data, repeat_n.owned_view.data_const, repeat_n.owned_view.begin, repeat_n.owned_view.cbegin,
      repeat_n.owned_view._iterator_templ.operator_star, repeat_n.owned_view._iterator_templ.operator_plus, repeat_n.owned_view._iterator_templ.operator_add_assign]

/-- C12 (witness): an owned view of length 3 constructed at address 4096 with the value 42;
after `data() = 7` a walk yields 7, 7, 7. -/
theorem C12_write_is_visible_everywhere_witness :
    ((0 : Nat) < 3 ∧ (2 : Nat) < 3 ∧ (3 : Nat) < 18446744073709551616 ∧ (3 : Nat) < 4) ∧
    walk repeat_n_view.repeat_n_owned_view._iterator_templ.operator_ne repeat_n_view.repeat_n_owned_view._iterator_templ.operator_preinc repeat_n_view.repeat_n_owned_view._iterator_templ.operator_star
        (store (repeat_n_view.repeat_n_owned_view.construct 3 (fun _ => (0 : Int)) 4096 42).2
          (repeat_n_view.repeat_n_owned_view.construct 3 (fun _ => (0 : Int)) 4096 42).1.data 7)
        (repeat_n_view.repeat_n_owned_view.construct 3 (fun _ => (0 : Int)) 4096 42).1.end_ 4
        (repeat_n_view.repeat_n_owned_view.construct 3 (fun _ => (0 : Int)) 4096 42).1.begin
      = some (Except.ok [7, 7, 7]) :=
  ⟨by decide,
   (C12_write_is_visible_everywhere 3 0 2 4 (repeat_n_view.repeat_n_owned_view.construct 3 (fun _ => (0 : Int)) 4096 42).2 7
      (repeat_n_view.repeat_n_owned_view.construct 3 (fun _ => (0 : Int)) 4096 42).1 ⟨8192⟩ ⟨12288⟩
      (by decide) (by decide) (by decide) (by decide)).1.2.2.2.2.2.1⟩

/-- C13: a foreign view constructed from the address `p` of an external value stores `p`
and no copy of the value: after the owner changes the value at `p` to `w`, dereferencing an
iterator of the view at any position `i` in `[0, N)` reads `w`. -/
theorem C13_foreign_view_observes_owner_write {T : Type} (N i : Nat) (m : memory T)
    (p : pointer) (w : T) (_hi : i < N) :
    ((repeat_n_view.repeat_n_foreign_view.construct N p).__contents = p ∧
     load (store m ⟨p⟩ w) ((repeat_n_view.repeat_n_foreign_view.construct N p).begin.operator_plus (to_ptrdiff_t i)).operator_star = w ∧
     load (store m ⟨p⟩ w) ((repeat_n_view.repeat_n_foreign_view.construct N p).cbegin.operator_plus (to_ptrdiff_t i)).operator_star = w) ∧
    ((notstd.dereferencing_single_view.construct N p).contents = p ∧
     load (store m ⟨p⟩ w) ((notstd.dereferencing_single_view.construct N p).begin.operator_plus (to_ptrdiff_t i)).operator_star = w ∧
     load (store m ⟨p⟩ w) ((notstd.dereferencing_single_view.construct N p).cbegin.operator_plus (to_ptrdiff_t i)).operator_star = w) ∧
    ((repeat_n.foreign_view.construct N p).M_contents = p ∧
     load (store m ⟨p⟩ w) ((repeat_n.foreign_view.construct N p).begin.operator_plus (to_ptrdiff_t i)).operator_star = w ∧
     load (store m ⟨p⟩ w) ((repeat_n.foreign_view.construct N p).cbegin.operator_plus (to_ptrdiff_t i)).operator_star = w) := by
  refine ⟨?_, ?_, ?_⟩ <;>
  simp [load, store,
    repeat_n_view.repeat_n_foreign_view.const_iterator.operator_star,
    repeat_n_view.repeat_n_foreign_view.const_iterator.operator_plus,
    repeat_n_view.repeat_n_foreign_view.const_iterator.operator_add_assign,
    repeat_n_view.repeat_n_foreign_view.begin,
    repeat_n_view.repeat_n_foreign_view.cbegin,
    repeat_n_view.repeat_n_foreign_view.construct,
    notstd.dereferencing_single_view.iterator.operator_star,
    notstd.dereferencing_single_view.iterator.operator_plus,
    notstd.dereferencing_single_view.iterator.operator_add_assign,
    notstd.dereferencing_single_view.begin,
    notstd.dereferencing_single_view.cbegin,
    notstd.dereferencing_single_view.construct,
    repeat_n.foreign_view.const_iterator.operator_star,
    repeat_n.foreign_view.const_iterator.operator_plus,
    repeat_n.foreign_view.const_iterator.operator_add_assign,
    repeat_n.foreign_view.begin,
    repeat_n.foreign_view.cbegin,
    repeat_n.foreign_view.construct]

/-- C13 (witness): a `repeat_n_foreign_view` of length 3 on the address 4096 of a value 42;
after the owner stores 7 there, `*(begin() + 1)` reads 7. -/
theorem C13_foreign_view_observes_owner_write_witness :
    (1 : Nat) < 3 ∧
    load (store (fun _ => (42 : Int)) ⟨4096⟩ 7)
      ((repeat_n_view.repeat_n_foreign_view.construct 3 4096).begin.operator_plus
        (to_ptrdiff_t 1)).operator_star = 7 :=
  ⟨by decide,
   (C13_foreign_view_observes_owner_write 3 1 (fun _ => (42 : Int)) 4096 7 (by decide)).1.2.1⟩
/-! ## The iterators a view hands out -/

/-- C14: for every view, `begin()` and `cbegin()` return iterators at position 0 and `end()`
and `cend()` return iterators at position `N`, all carrying the storage address of the view
(the address of the owned value, or the borrowed pointer); hence for any two iterators `a`,
`b` of one type obtained from one view, each of `==`, `!=`, `<`, `<=`, `>`, `>=` and the
difference `a - b` returns a value and none throws. -/
theorem C14_accessors_carry_view_storage (N : Nat)
    (v1 : repeat_n_view.repeat_n_owned_view N)
    (v2 : notstd.single_view N)
    (v3 : repeat_n_view.repeat_n_foreign_view N)
    (v4 : notstd.dereferencing_single_view N)
    (v5 : repeat_n.foreign_view N)
    (v6 : repeat_n.owned_view N) :
    ((v1.begin.curr = 0 ∧ v1.begin.location = v1.addressof___contents) ∧
     (v1.cbegin.curr = 0 ∧ v1.cbegin.location = v1.addressof___contents) ∧
     (v1.begin_const.curr = 0 ∧ v1.begin_const.location = v1.addressof___contents) ∧
     (v1.end_.curr = N ∧ v1.end_.location = v1.addressof___contents) ∧
     (v1.cend.curr = N ∧ v1.cend.location = v1.addressof___contents) ∧
     (v1.end_const.curr = N ∧ v1.end_const.location = v1.addressof___contents) ∧
     (∀ a ∈ [v1.begin, v1.end_],
       ∀ b ∈ [v1.begin, v1.end_],
         (∃ r, a.operator_eq b = Except.ok r) ∧
         (∃ r, a.operator_ne b = Except.ok r) ∧
         (∃ r, a.operator_lt b = Except.ok r) ∧
         (∃ r, a.operator_le b = Except.ok r) ∧
         (∃ r, a.operator_gt b = Except.ok r) ∧
         (∃ r, a.operator_ge b = Except.ok r) ∧
         (∃ r, a.operator_diff b = Except.ok r)) ∧
     (∀ a ∈ [v1.begin_const, v1.cbegin, v1.end_const, v1.cend],
       ∀ b ∈ [v1.begin_const, v1.cbegin, v1.end_const, v1.cend],
         (∃ r, a.operator_eq b = Except.ok r) ∧
         (∃ r, a.operator_ne b = Except.ok r) ∧
         (∃ r, a.operator_lt b = Except.ok r) ∧
         (∃ r, a.operator_le b = Except.ok r) ∧
         (∃ r, a.operator_gt b = Except.ok r) ∧
         (∃ r, a.operator_ge b = Except.ok r) ∧
         (∃ r, a.operator_diff b = Except.ok r))) ∧
    ((v2.begin.curr = 0 ∧ v2.begin.location = v2.addressof_contents) ∧
     (v2.cbegin.curr = 0 ∧ v2.cbegin.location = v2.addressof_contents) ∧
     (v2.begin_const.curr = 0 ∧ v2.begin_const.location = v2.addressof_contents) ∧
     (v2.end_.curr = N ∧ v2.end_.location = v2.addressof_contents) ∧
     (v2.cend.curr = N ∧ v2.cend.location = v2.addressof_contents) ∧
     (v2.end_const.curr = N ∧ v2.end_const.location = v2.addressof_contents) ∧
     (∀ a ∈ [v2.begin, v2.end_],
       ∀ b ∈ [v2.begin, v2.end_],
         (∃ r, a.operator_eq b = Except.ok r) ∧
         (∃ r, a.operator_ne b = Except.ok r) ∧
         (∃ r, a.operator_lt b = Except.ok r) ∧
         (∃ r, a.operator_le b = Except.ok r) ∧
         (∃ r, a.operator_gt b = Except.ok r) ∧
         (∃ r, a.operator_ge b = Except.ok r) ∧
         (∃ r, a.operator_diff b = Except.ok r)) ∧
     (∀ a ∈ [v2.begin_const, v2.cbegin, v2.end_const, v2.cend],
       ∀ b ∈ [v2.begin_const, v2.cbegin, v2.end_const, v2.cend],
         (∃ r, a.operator_eq b = Except.ok r) ∧
         (∃ r, a.operator_ne b = Except.ok r) ∧
         (∃ r, a.operator_lt b = Except.ok r) ∧
         (∃ r, a.operator_le b = Except.ok r) ∧
         (∃ r, a.operator_gt b = Except.ok r) ∧
         (∃ r, a.operator_ge b = Except.ok r) ∧
         (∃ r, a.operator_diff b = Except.ok r))) ∧
    ((v3.begin.curr = 0 ∧ v3.begin.location = v3.__contents) ∧
     (v3.cbegin.curr = 0 ∧ v3.cbegin.location = v3.__contents) ∧
     (v3.end_.curr = N ∧ v3.end_.location = v3.__contents) ∧
     (v3.cend.curr = N ∧ v3.cend.location = v3.__contents) ∧
     (∀ a ∈ [v3.begin, v3.cbegin, v3.end_, v3.cend],
       ∀ b ∈ [v3.begin, v3.cbegin, v3.end_, v3.cend],
         (∃ r, a.operator_eq b = Except.ok r) ∧
         (∃ r, a.operator_ne b = Except.ok r) ∧
         (∃ r, a.operator_lt b = Except.ok r) ∧
         (∃ r, a.operator_le b = Except.ok r) ∧
         (∃ r, a.operator_gt b = Except.ok r) ∧
         (∃ r, a.operator_ge b = Except.ok r) ∧
         (∃ r, a.operator_diff b = Except.ok r))) ∧
    ((v4.begin.curr = 0 ∧ v4.begin.location = v4.contents) ∧
     (v4.cbegin.curr = 0 ∧ v4.cbegin.location = v4.contents) ∧
     (v4.begin_const.curr = 0 ∧ v4.begin_const.location = v4.contents) ∧
     (v4.end_.curr = N ∧ v4.end_.location = v4.contents) ∧
     (v4.cend.curr = N ∧ v4.cend.location = v4.contents) ∧
     (v4.end_const.curr = N ∧ v4.end_const.location = v4.contents) ∧
     (∀ a ∈ [v4.begin, v4.begin_const, v4.cbegin, v4.end_, v4.end_const, v4.cend],
       ∀ b ∈ [v4.begin, v4.begin_const, v4.cbegin, v4.end_, v4.end_const, v4.cend],
         (∃ r, a.operator_eq b = Except.ok r) ∧
         (∃ r, a.operator_ne b = Except.ok r) ∧
         (∃ r, a.operator_lt b = Except.ok r) ∧
         (∃ r, a.operator_le b = Except.ok r) ∧
         (∃ r, a.operator_gt b = Except.ok r) ∧
         (∃ r, a.operator_ge b = Except.ok r) ∧
         (∃ r, a.operator_diff b = Except.ok r))) ∧
    ((v5.begin.curr = 0 ∧ v5.begin.location = v5.M_contents) ∧
     (v5.cbegin.curr = 0 ∧ v5.cbegin.location = v5.M_contents) ∧
     (v5.end_.curr = N ∧ v5.end_.location = v5.M_contents) ∧
     (v5.cend.curr = N ∧ v5.cend.location = v5.M_contents) ∧
     (∀ a ∈ [v5.begin, v5.cbegin, v5.end_, v5.cend],
       ∀ b ∈ [v5.begin, v5.cbegin, v5.end_, v5.cend],
         (∃ r, a.operator_eq b = Except.ok r) ∧
         (∃ r, a.operator_ne b = Except.ok r) ∧
         (∃ r, a.operator_lt b = Except.ok r) ∧
         (∃ r, a.operator_le b = Except.ok r) ∧
         (∃ r, a.operator_gt b = Except.ok r) ∧
         (∃ r, a.operator_ge b = Except.ok r) ∧
         (∃ r, a.operator_diff b = Except.ok r))) ∧
    ((v6.begin.curr = 0 ∧ v6.begin.location = v6.addressof_M_contents) ∧
     (v6.cbegin.curr = 0 ∧ v6.cbegin.location = v6.addressof_M_contents) ∧
     (v6.begin_const.curr = 0 ∧ v6.begin_const.location = v6.addressof_M_contents) ∧
     (v6.end_.curr = N ∧ v6.end_.location = v6.addressof_M_contents) ∧
     (v6.cend.curr = N ∧ v6.cend.location = v6.addressof_M_contents) ∧
     (v6.end_const.curr = N ∧ v6.end_const.location = v6.addressof_M_contents) ∧
     (∀ a ∈ [v6.begin, v6.end_],
       ∀ b ∈ [v6.begin, v6.end_],
         (∃ r, a.operator_eq b = Except.ok r) ∧
         (∃ r, a.operator_ne b = Except.ok r) ∧
         (∃ r, a.operator_lt b = Except.ok r) ∧
         (∃ r, a.operator_le b = Except.ok r) ∧
         (∃ r, a.operator_gt b = Except.ok r) ∧
         (∃ r, a.operator_ge b = Except.ok r) ∧
         (∃ r, a.operator_diff b = Except.ok r)) ∧
     (∀ a ∈ [v6.begin_const, v6.cbegin, v6.end_const, v6.cend],
       ∀ b ∈ [v6.begin_const, v6.cbegin, v6.end_const, v6.cend],
         (∃ r, a.operator_eq b = Except.ok r) ∧
         (∃ r, a.operator_ne b = Except.ok r) ∧
         (∃ r, a.operator_lt b = Except.ok r) ∧
         (∃ r, a.operator_le b = Except.ok r) ∧
         (∃ r, a.operator_gt b = Except.ok r) ∧
         (∃ r, a.operator_ge b = Except.ok r) ∧
         (∃ r, a.operator_diff b = Except.ok r))) := by
  refine ⟨?_, ?_, ?_, ?_, ?_, ?_⟩
  · refine ⟨⟨rfl, rfl⟩, ⟨rfl, rfl⟩, ⟨rfl, rfl⟩, ⟨rfl, rfl⟩, ⟨rfl, rfl⟩, ⟨rfl, rfl⟩, ?_, ?_⟩
    · intro a ha b hb
      simp only [List.mem_cons, List.mem_singleton, List.not_mem_nil, or_false] at ha hb
      have hla : a.location = v1.addressof___contents := by
        rcases ha with h | h <;> rw [h] <;> rfl
      have hlb : b.location = v1.addressof___contents := by
        rcases hb with h | h <;> rw [h] <;> rfl
      simp [repeat_n_view.repeat_n_owned_view._iterator_templ.operator_eq, repeat_n_view.repeat_n_owned_view._iterator_templ.operator_ne, repeat_n_view.repeat_n_owned_view._iterator_templ.operator_lt, repeat_n_view.repeat_n_owned_view._iterator_templ.operator_le, repeat_n_view.repeat_n_owned_view._iterator_templ.operator_gt, repeat_n_view.repeat_n_owned_view._iterator_templ.operator_ge, repeat_n_view.repeat_n_owned_view._iterator_templ.operator_diff,
        hla, hlb]
      all_goals omega
    · intro a ha b hb
      simp only [List.mem_cons, List.mem_singleton, List.not_mem_nil, or_false] at ha hb
      have hla : a.location = v1.addressof___contents := by
        rcases ha with h | h | h | h <;> rw [h] <;> rfl
      have hlb : b.location = v1.addressof___contents := by
        rcases hb with h | h | h | h <;> rw [h] <;> rfl
      simp [repeat_n_view.repeat_n_owned_view._iterator_templ.operator_eq, repeat_n_view.repeat_n_owned_view._iterator_templ.operator_ne, repeat_n_view.repeat_n_owned_view._iterator_templ.operator_lt, repeat_n_view.repeat_n_owned_view._iterator_templ.operator_le, repeat_n_view.repeat_n_owned_view._iterator_templ.operator_gt, repeat_n_view.repeat_n_owned_view._iterator_templ.operator_ge, repeat_n_view.repeat_n_owned_view._iterator_templ.operator_diff,
        hla, hlb]
      all_goals omega
  · refine ⟨⟨rfl, rfl⟩, ⟨rfl, rfl⟩, ⟨rfl, rfl⟩, ⟨rfl, rfl⟩, ⟨rfl, rfl⟩, ⟨rfl, rfl⟩, ?_, ?_⟩
    · intro a ha b hb
      simp only [List.mem_cons, List.mem_singleton, List.not_mem_nil, or_false] at ha hb
      have hla : a.location = v2.addressof_contents := by
        rcases ha with h | h <;> rw [h] <;> rfl
      have hlb : b.location = v2.addressof_contents := by
        rcases hb with h | h <;> rw [h] <;> rfl
      simp [notstd.single_view._iterator_templ.operator_eq, notstd.single_view._iterator_templ.operator_ne, notstd.single_view._iterator_templ.operator_lt, notstd.single_view._iterator_templ.operator_le, notstd.single_view._iterator_templ.operator_gt, notstd.single_view._iterator_templ.operator_ge, notstd.single_view._iterator_templ.operator_diff,
        hla, hlb]
      all_goals omega
    · intro a ha b hb
      simp only [List.mem_cons, List.mem_singleton, List.not_mem_nil, or_false] at ha hb
      have hla : a.location = v2.addressof_contents := by
        rcases ha with h | h | h | h <;> rw [h] <;> rfl
      have hlb : b.location = v2.addressof_contents := by
        rcases hb with h | h | h | h <;> rw [h] <;> rfl
      simp [notstd.single_view._iterator_templ.operator_eq, notstd.single_view._iterator_templ.operator_ne, notstd.single_view._iterator_templ.operator_lt, notstd.single_view._iterator_templ.operator_le, notstd.single_view._iterator_templ.operator_gt, notstd.single_view._iterator_templ.operator_ge, notstd.single_view._iterator_templ.operator_diff,
        hla, hlb]
      all_goals omega
  · refine ⟨⟨rfl, rfl⟩, ⟨rfl, rfl⟩, ⟨rfl, rfl⟩, ⟨rfl, rfl⟩, ?_⟩
    · intro a ha b hb
      simp only [List.mem_cons, List.mem_singleton, List.not_mem_nil, or_false] at ha hb
      have hla : a.location = v3.__contents := by
        rcases ha with h | h | h | h <;> rw [h] <;> rfl
      have hlb : b.location = v3.__contents := by
        rcases hb with h | h | h | h <;> rw [h] <;> rfl
      simp [repeat_n_view.repeat_n_foreign_view.const_iterator.operator_eq, repeat_n_view.repeat_n_foreign_view.const_iterator.operator_ne, repeat_n_view.repeat_n_foreign_view.const_iterator.operator_lt, repeat_n_view.repeat_n_foreign_view.const_iterator.operator_le, repeat_n_view.repeat_n_foreign_view.const_iterator.operator_gt, repeat_n_view.repeat_n_foreign_view.const_iterator.operator_ge, repeat_n_view.repeat_n_foreign_view.const_iterator.operator_diff,
        hla, hlb]
      all_goals omega
  · refine ⟨⟨rfl, rfl⟩, ⟨rfl, rfl⟩, ⟨rfl, rfl⟩, ⟨rfl, rfl⟩, ⟨rfl, rfl⟩, ⟨rfl, rfl⟩, ?_⟩
    · intro a ha b hb
      simp only [List.mem_cons, List.mem_singleton, List.not_mem_nil, or_false] at ha hb
      have hla : a.location = v4.contents := by
        rcases ha with h | h | h | h | h | h <;> rw [h] <;> rfl
      have hlb : b.location = v4.contents := by
        rcases hb with h | h | h | h | h | h <;> rw [h] <;> rfl
      simp [notstd.dereferencing_single_view.iterator.operator_eq, notstd.dereferencing_single_view.iterator.operator_ne, notstd.dereferencing_single_view.iterator.operator_lt, notstd.dereferencing_single_view.iterator.operator_le, notstd.dereferencing_single_view.iterator.operator_gt, notstd.dereferencing_single_view.iterator.operator_ge, notstd.dereferencing_single_view.iterator.operator_diff,
        hla, hlb]
      all_goals omega
  · refine ⟨⟨rfl, rfl⟩, ⟨rfl, rfl⟩, ⟨rfl, rfl⟩, ⟨rfl, rfl⟩, ?_⟩
    · intro a ha b hb
      simp only [List.mem_cons, List.mem_singleton, List.not_mem_nil, or_false] at ha hb
      have hla : a.location = v5.M_contents := by
        rcases ha with h | h | h | h <;> rw [h] <;> rfl
      have hlb : b.location = v5.M_contents := by
        rcases hb with h | h | h | h <;> rw [h] <;> rfl
      simp [repeat_n.foreign_view.const_iterator.operator_eq, repeat_n.foreign_view.const_iterator.operator_ne, repeat_n.foreign_view.const_iterator.operator_lt, repeat_n.foreign_view.const_iterator.operator_le, repeat_n.foreign_view.const_iterator.operator_gt, repeat_n.foreign_view.const_iterator.operator_ge, repeat_n.foreign_view.const_iterator.operator_diff,
        hla, hlb]
      all_goals omega
  · refine ⟨⟨rfl, rfl⟩, ⟨rfl, rfl⟩, ⟨rfl, rfl⟩, ⟨rfl, rfl⟩, ⟨rfl, rfl⟩, ⟨rfl, rfl⟩, ?_, ?_⟩
    · intro a ha b hb
      simp only [List.mem_cons, List.mem_singleton, List.not_mem_nil, or_false] at ha hb
      have hla : a.location = v6.addressof_M_contents := by
        rcases ha with h | h <;> rw [h] <;> rfl
      have hlb : b.location = v6.addressof_M_contents := by
        rcases hb with h | h <;> rw [h] <;> rfl
      simp [repeat_n.owned_view._iterator_templ.operator_eq, repeat_n.owned_view._iterator_templ.operator_ne, repeat_n.owned_view._iterator_templ.operator_lt, repeat_n.owned_view._iterator_templ.operator_le, repeat_n.owned_view._iterator_templ.operator_gt, repeat_n.owned_view._iterator_templ.operator_ge, repeat_n.owned_view._iterator_templ.operator_diff,
        hla, hlb]
      all_goals omega
    · intro a ha b hb
      simp only [List.mem_cons, List.mem_singleton, List.not_mem_nil, or_false] at ha hb
      have hla : a.location = v6.addressof_M_contents := by
        rcases ha with h | h | h | h <;> rw [h] <;> rfl
      have hlb : b.location = v6.addressof_M_contents := by
        rcases hb with h | h | h | h <;> rw [h] <;> rfl
      simp [repeat_n.owned_view._iterator_templ.operator_eq, repeat_n.owned_view._iterator_templ.operator_ne, repeat_n.owned_view._iterator_templ.operator_lt, repeat_n.owned_view._iterator_templ.operator_le, repeat_n.owned_view._iterator_templ.operator_gt, repeat_n.owned_view._iterator_templ.operator_ge, repeat_n.owned_view._iterator_templ.operator_diff,
        hla, hlb]
      all_goals omega
/-- C14 (witness): in a `repeat_n_owned_view` of length 3 stored at 4096, `begin()` and
`end()` are among the iterators of the view and `begin() - end()` returns a value. -/
theorem C14_accessors_carry_view_storage_witness :
    ∃ r, (⟨4096⟩ : repeat_n_view.repeat_n_owned_view 3).begin.operator_diff
      (⟨4096⟩ : repeat_n_view.repeat_n_owned_view 3).end_ = Except.ok r :=
  ((C14_accessors_carry_view_storage 3 ⟨4096⟩ ⟨4096⟩ ⟨4096⟩ ⟨4096⟩ ⟨4096⟩ ⟨4096⟩).1.2.2.2.2.2.2.1
    (⟨4096⟩ : repeat_n_view.repeat_n_owned_view 3).begin (by simp)
    (⟨4096⟩ : repeat_n_view.repeat_n_owned_view 3).end_ (by simp)).2.2.2.2.2.2

/-! ## Moving an iterator -/

/-- A sequence of steps that each keep a component of the state keeps it. -/
theorem cxx.foldl_preserves {α β γ : Type} (f : α → β → α) (g : α → γ)
    (h : ∀ x y, g (f x y) = g x) (ys : List β) (x : α) :
    g (List.foldl f x ys) = g x := by
  induction ys generalizing x with
  | nil => rfl
  | cons y ys ih => rw [List.foldl_cons, ih, h]

/-- One move of an iterator of `repeat_n_view::repeat_n_owned_view` keeps its storage address. -/
theorem repeat_n_owned_view_apply_move_location {mb : Bool} (x : repeat_n_view.repeat_n_owned_view._iterator_templ mb) (mv : move) :
    (repeat_n_view.repeat_n_owned_view._iterator_templ.apply_move mv x).location = x.location := by
  cases mv <;> rfl

/-- One move of an iterator of `notstd::single_view` keeps its storage address. -/
theorem single_view_apply_move_location {mb : Bool} (x : notstd.single_view._iterator_templ mb) (mv : move) :
    (notstd.single_view._iterator_templ.apply_move mv x).location = x.location := by
  cases mv <;> rfl

/-- One move of an iterator of `repeat_n_view::repeat_n_foreign_view` keeps its storage address. -/
theorem repeat_n_foreign_view_apply_move_location (x : repeat_n_view.repeat_n_foreign_view.const_iterator) (mv : move) :
    (repeat_n_view.repeat_n_foreign_view.const_iterator.apply_move mv x).location = x.location := by
  cases mv <;> rfl

/-- One move of an iterator of `notstd::dereferencing_single_view` keeps its storage address. -/
theorem dereferencing_single_view_apply_move_location (x : notstd.dereferencing_single_view.iterator) (mv : move) :
    (notstd.dereferencing_single_view.iterator.apply_move mv x).location = x.location := by
  cases mv <;> rfl

/-- One move of an iterator of `repeat_n::foreign_view` keeps its storage address. -/
theorem noexcept_foreign_view_apply_move_location (x : repeat_n.foreign_view.const_iterator) (mv : move) :
    (repeat_n.foreign_view.const_iterator.apply_move mv x).location = x.location := by
  cases mv <;> rfl

/-- One move of an iterator of `repeat_n::owned_view` keeps its storage address. -/
theorem noexcept_owned_view_apply_move_location {mb : Bool} (x : repeat_n.owned_view._iterator_templ mb) (mv : move) :
    (repeat_n.owned_view._iterator_templ.apply_move mv x).location = x.location := by
  cases mv <;> rfl

/-- C15: in every class, each operation that moves an iterator (`++it`, `it++`, `--it`,
`it--`, `it += n`, `it -= n`, `it + n`, `n + it`, `it - n`) leaves the storage address
unchanged (the copies returned by the postfix forms are the unmoved iterator); so the
iterator reached from `begin()`, `end()`, `cbegin()` or `cend()` of a view by any sequence
`ms` of these operations carries the storage address of that view. -/
theorem C15_moves_keep_storage_address (N : Nat) (n : Int) (ms : List move)
    (v1 : repeat_n_view.repeat_n_owned_view N)
    (v2 : notstd.single_view N)
    (v3 : repeat_n_view.repeat_n_foreign_view N)
    (v4 : notstd.dereferencing_single_view N)
    (v5 : repeat_n.foreign_view N)
    (v6 : repeat_n.owned_view N)
    (m1 : Bool) (it1 : repeat_n_view.repeat_n_owned_view._iterator_templ m1)
    (m2 : Bool) (it2 : notstd.single_view._iterator_templ m2)
    (it3 : repeat_n_view.repeat_n_foreign_view.const_iterator)
    (it4 : notstd.dereferencing_single_view.iterator)
    (it5 : repeat_n.foreign_view.const_iterator)
    (m6 : Bool) (it6 : repeat_n.owned_view._iterator_templ m6) :
    (it1.operator_preinc.location = it1.location ∧
     it1.operator_postinc.1 = it1 ∧
     it1.operator_postinc.2.location = it1.location ∧
     it1.operator_predec.location = it1.location ∧
     it1.operator_postdec.1 = it1 ∧
     it1.operator_postdec.2.location = it1.location ∧
     (it1.operator_add_assign n).location = it1.location ∧
     (it1.operator_sub_assign n).location = it1.location ∧
     (it1.operator_plus n).location = it1.location ∧
     (repeat_n_view.repeat_n_owned_view._iterator_templ.operator_plus_left n it1).location = it1.location ∧
     (it1.operator_minus n).location = it1.location ∧
     (List.foldl (fun x mv => repeat_n_view.repeat_n_owned_view._iterator_templ.apply_move mv x) v1.begin ms).location = v1.addressof___contents ∧
     (List.foldl (fun x mv => repeat_n_view.repeat_n_owned_view._iterator_templ.apply_move mv x) v1.end_ ms).location = v1.addressof___contents ∧
     (List.foldl (fun x mv => repeat_n_view.repeat_n_owned_view._iterator_templ.apply_move mv x) v1.cbegin ms).location = v1.addressof___contents ∧
     (List.foldl (fun x mv => repeat_n_view.repeat_n_owned_view._iterator_templ.apply_move mv x) v1.cend ms).location = v1.addressof___contents) ∧
    (it2.operator_preinc.location = it2.location ∧
     it2.operator_postinc.1 = it2 ∧
     it2.operator_postinc.2.location = it2.location ∧
     it2.operator_predec.location = it2.location ∧
     it2.operator_postdec.1 = it2 ∧
     it2.operator_postdec.2.location = it2.location ∧
     (it2.operator_add_assign n).location = it2.location ∧
     (it2.operator_sub_assign n).location = it2.location ∧
     (it2.operator_plus n).location = it2.location ∧
     (notstd.single_view._iterator_templ.operator_plus_left n it2).location = it2.location ∧
     (it2.operator_minus n).location = it2.location ∧
     (List.foldl (fun x mv => notstd.single_view._iterator_templ.apply_move mv x) v2.begin ms).location = v2.addressof_contents ∧
     (List.foldl (fun x mv => notstd.single_view._iterator_templ.apply_move mv x) v2.end_ ms).location = v2.addressof_contents ∧
     (List.foldl (fun x mv => notstd.single_view._iterator_templ.apply_move mv x) v2.cbegin ms).location = v2.addressof_contents ∧
     (List.foldl (fun x mv => notstd.single_view._iterator_templ.apply_move mv x) v2.cend ms).location = v2.addressof_contents) ∧
    (it3.operator_preinc.location = it3.location ∧
     it3.operator_postinc.1 = it3 ∧
     it3.operator_postinc.2.location = it3.location ∧
     it3.operator_predec.location = it3.location ∧
     it3.operator_postdec.1 = it3 ∧
     it3.operator_postdec.2.location = it3.location ∧
     (it3.operator_add_assign n).location = it3.location ∧
     (it3.operator_sub_assign n).location = it3.location ∧
     (it3.operator_plus n).location = it3.location ∧
     (repeat_n_view.repeat_n_foreign_view.const_iterator.operator_plus_left n it3).location = it3.location ∧
     (it3.operator_minus n).location = it3.location ∧
     (List.foldl (fun x mv => repeat_n_view.repeat_n_foreign_view.const_iterator.apply_move mv x) v3.begin ms).location = v3.__contents ∧
     (List.foldl (fun x mv => repeat_n_view.repeat_n_foreign_view.const_iterator.apply_move mv x) v3.end_ ms).location = v3.__contents) ∧
    (it4.operator_preinc.location = it4.location ∧
     it4.operator_postinc.1 = it4 ∧
     it4.operator_postinc.2.location = it4.location ∧
     it4.operator_predec.location = it4.location ∧
     it4.operator_postdec.1 = it4 ∧
     it4.operator_postdec.2.location = it4.location ∧
     (it4.operator_add_assign n).location = it4.location ∧
     (it4.operator_sub_assign n).location = it4.location ∧
     (it4.operator_plus n).location = it4.location ∧
     (notstd.dereferencing_single_view.iterator.operator_plus_left n it4).location = it4.location ∧
     (it4.operator_minus n).location = it4.location ∧
     (List.foldl (fun x mv => notstd.dereferencing_single_view.iterator.apply_move mv x) v4.begin ms).location = v4.contents ∧
     (List.foldl (fun x mv => notstd.dereferencing_single_view.iterator.apply_move mv x) v4.end_ ms).location = v4.contents) ∧
    (it5.operator_preinc.location = it5.location ∧
     it5.operator_postinc.1 = it5 ∧
     it5.operator_postinc.2.location = it5.location ∧
     it5.operator_predec.location = it5.location ∧
     it5.operator_postdec.1 = it5 ∧
     it5.operator_postdec.2.location = it5.location ∧
     (it5.operator_add_assign n).location = it5.location ∧
     (it5.operator_sub_assign n).location = it5.location ∧
     (it5.operator_plus n).location = it5.location ∧
     (repeat_n.foreign_view.const_iterator.operator_plus_left n it5).location = it5.location ∧
     (it5.operator_minus n).location = it5.location ∧
     (List.foldl (fun x mv => repeat_n.foreign_view.const_iterator.apply_move mv x) v5.begin ms).location = v5.M_contents ∧
     (List.foldl (fun x mv => repeat_n.foreign_view.const_iterator.apply_move mv x) v5.end_ ms).location = v5.M_contents) ∧
    (it6.operator_preinc.location = it6.location ∧
     it6.operator_postinc.1 = it6 ∧
     it6.operator_postinc.2.location = it6.location ∧
     it6.operator_predec.location = it6.location ∧
     it6.operator_postdec.1 = it6 ∧
     it6.operator_postdec.2.location = it6.location ∧
     (it6.operator_add_assign n).location = it6.location ∧
     (it6.operator_sub_assign n).location = it6.location ∧
     (it6.operator_plus n).location = it6.location ∧
     (repeat_n.owned_view._iterator_templ.operator_plus_left n it6).location = it6.location ∧
     (it6.operator_minus n).location = it6.location ∧
     (List.foldl (fun x mv => repeat_n.owned_view._iterator_templ.apply_move mv x) v6.begin ms).location = v6.addressof_M_contents ∧
     (List.foldl (fun x mv => repeat_n.owned_view._iterator_templ.apply_move mv x) v6.end_ ms).location = v6.addressof_M_contents ∧
     (List.foldl (fun x mv => repeat_n.owned_view._iterator_templ.apply_move mv x) v6.cbegin ms).location = v6.addressof_M_contents ∧
     (List.foldl (fun x mv => repeat_n.owned_view._iterator_templ.apply_move mv x) v6.cend ms).location = v6.addressof_M_contents) := by
  refine ⟨?_, ?_, ?_, ?_, ?_, ?_⟩
  · exact ⟨rfl, rfl, rfl, rfl, rfl, rfl, rfl, rfl, rfl, rfl, rfl,
      cxx.foldl_preserves _ _ (fun x mv => repeat_n_owned_view_apply_move_location x mv) ms v1.begin,
      cxx.foldl_preserves _ _ (fun x mv => repeat_n_owned_view_apply_move_location x mv) ms v1.end_,
      cxx.foldl_preserves _ _ (fun x mv => repeat_n_owned_view_apply_move_location x mv) ms v1.cbegin,
      cxx.foldl_preserves _ _ (fun x mv => repeat_n_owned_view_apply_move_location x mv) ms v1.cend⟩
  · exact ⟨rfl, rfl, rfl, rfl, rfl, rfl, rfl, rfl, rfl, rfl, rfl,
      cxx.foldl_preserves _ _ (fun x mv => single_view_apply_move_location x mv) ms v2.begin,
      cxx.foldl_preserves _ _ (fun x mv => single_view_apply_move_location x mv) ms v2.end_,
      cxx.foldl_preserves _ _ (fun x mv => single_view_apply_move_location x mv) ms v2.cbegin,
      cxx.foldl_preserves _ _ (fun x mv => single_view_apply_move_location x mv) ms v2.cend⟩
  · exact ⟨rfl, rfl, rfl, rfl, rfl, rfl, rfl, rfl, rfl, rfl, rfl,
      cxx.foldl_preserves _ _ (fun x mv => repeat_n_foreign_view_apply_move_location x mv) ms v3.begin,
      cxx.foldl_preserves _ _ (fun x mv => repeat_n_foreign_view_apply_move_location x mv) ms v3.end_⟩
  · exact ⟨rfl, rfl, rfl, rfl, rfl, rfl, rfl, rfl, rfl, rfl, rfl,
      cxx.foldl_preserves _ _ (fun x mv => dereferencing_single_view_apply_move_location x mv) ms v4.begin,
      cxx.foldl_preserves _ _ (fun x mv => dereferencing_single_view_apply_move_location x mv) ms v4.end_⟩
  · exact ⟨rfl, rfl, rfl, rfl, rfl, rfl, rfl, rfl, rfl, rfl, rfl,
      cxx.foldl_preserves _ _ (fun x mv => noexcept_foreign_view_apply_move_location x mv) ms v5.begin,
      cxx.foldl_preserves _ _ (fun x mv => noexcept_foreign_view_apply_move_location x mv) ms v5.end_⟩
  · exact ⟨rfl, rfl, rfl, rfl, rfl, rfl, rfl, rfl, rfl, rfl, rfl,
      cxx.foldl_preserves _ _ (fun x mv => noexcept_owned_view_apply_move_location x mv) ms v6.begin,
      cxx.foldl_preserves _ _ (fun x mv => noexcept_owned_view_apply_move_location x mv) ms v6.end_,
      cxx.foldl_preserves _ _ (fun x mv => noexcept_owned_view_apply_move_location x mv) ms v6.cbegin,
      cxx.foldl_preserves _ _ (fun x mv => noexcept_owned_view_apply_move_location x mv) ms v6.cend⟩

/-- C17: in the three owned classes, the constant iterator made from a mutable iterator,
by the converting constructor or by the converting assignment, has the storage address and
the position of the mutable one; for every `k` in `[0, N]` the constant iterator obtained
from `begin()+k` compares equal to `cbegin()+k` and dereferences to the same object as
`begin()+k` and `cbegin()+k`. -/
theorem C17_conversion_to_const_iterator (N k : Nat)
    (v1 : repeat_n_view.repeat_n_owned_view N)
    (v2 : notstd.single_view N)
    (v6 : repeat_n.owned_view N)
    (it1 : repeat_n_view.repeat_n_owned_view.iterator) (c1 : repeat_n_view.repeat_n_owned_view.const_iterator)
    (it2 : notstd.single_view.iterator) (c2 : notstd.single_view.const_iterator)
    (it6 : repeat_n.owned_view.iterator) (c6 : repeat_n.owned_view.const_iterator)
    (_hk : k ≤ N) :
    ((repeat_n_view.repeat_n_owned_view._iterator_templ.of_iterator it1).location = it1.location ∧
     (repeat_n_view.repeat_n_owned_view._iterator_templ.of_iterator it1).curr = it1.curr ∧
     (c1.operator_assign it1).location = it1.location ∧
     (c1.operator_assign it1).curr = it1.curr ∧
     (repeat_n_view.repeat_n_owned_view._iterator_templ.of_iterator (v1.begin.operator_plus (to_ptrdiff_t k))).operator_eq (v1.cbegin.operator_plus (to_ptrdiff_t k)) = Except.ok true ∧
     (repeat_n_view.repeat_n_owned_view._iterator_templ.of_iterator (v1.begin.operator_plus (to_ptrdiff_t k))).operator_star = (v1.begin.operator_plus (to_ptrdiff_t k)).operator_star ∧
     (repeat_n_view.repeat_n_owned_view._iterator_templ.of_iterator (v1.begin.operator_plus (to_ptrdiff_t k))).operator_star = (v1.cbegin.operator_plus (to_ptrdiff_t k)).operator_star ∧
     (c1.operator_assign (v1.begin.operator_plus (to_ptrdiff_t k))).operator_eq (v1.cbegin.operator_plus (to_ptrdiff_t k)) = Except.ok true ∧
     (c1.operator_assign (v1.begin.operator_plus (to_ptrdiff_t k))).operator_star = (v1.begin.operator_plus (to_ptrdiff_t k)).operator_star ∧
     (c1.operator_assign (v1.begin.operator_plus (to_ptrdiff_t k))).operator_star = (v1.cbegin.operator_plus (to_ptrdiff_t k)).operator_star) ∧
    ((notstd.single_view._iterator_templ.of_iterator it2).location = it2.location ∧
     (notstd.single_view._iterator_templ.of_iterator it2).curr = it2.curr ∧
     (c2.operator_assign it2).location = it2.location ∧
     (c2.operator_assign it2).curr = it2.curr ∧
     (notstd.single_view._iterator_templ.of_iterator (v2.begin.operator_plus (to_ptrdiff_t k))).operator_eq (v2.cbegin.operator_plus (to_ptrdiff_t k)) = Except.ok true ∧
     (notstd.single_view._iterator_templ.of_iterator (v2.begin.operator_plus (to_ptrdiff_t k))).operator_star = (v2.begin.operator_plus (to_ptrdiff_t k)).operator_star ∧
     (notstd.single_view._iterator_templ.of_iterator (v2.begin.operator_plus (to_ptrdiff_t k))).operator_star = (v2.cbegin.operator_plus (to_ptrdiff_t k)).operator_star ∧
     (c2.operator_assign (v2.begin.operator_plus (to_ptrdiff_t k))).operator_eq (v2.cbegin.operator_plus (to_ptrdiff_t k)) = Except.ok true ∧
     (c2.operator_assign (v2.begin.operator_plus (to_ptrdiff_t k))).operator_star = (v2.begin.operator_plus (to_ptrdiff_t k)).operator_star ∧
     (c2.operator_assign (v2.begin.operator_plus (to_ptrdiff_t k))).operator_star = (v2.cbegin.operator_plus (to_ptrdiff_t k)).operator_star) ∧
    ((repeat_n.owned_view._iterator_templ.of_iterator it6).location = it6.location ∧
     (repeat_n.owned_view._iterator_templ.of_iterator it6).curr = it6.curr ∧
     (c6.operator_assign it6).location = it6.location ∧
     (c6.operator_assign it6).curr = it6.curr ∧
     (repeat_n.owned_view._iterator_templ.of_iterator (v6.begin.operator_plus (to_ptrdiff_t k))).operator_eq (v6.cbegin.operator_plus (to_ptrdiff_t k)) = Except.ok true ∧
     (repeat_n.owned_view._iterator_templ.of_iterator (v6.begin.operator_plus (to_ptrdiff_t k))).operator_star = (v6.begin.operator_plus (to_ptrdiff_t k)).operator_star ∧
     (repeat_n.owned_view._iterator_templ.of_iterator (v6.begin.operator_plus (to_ptrdiff_t k))).operator_star = (v6.cbegin.operator_plus (to_ptrdiff_t k)).operator_star ∧
     (c6.operator_assign (v6.begin.operator_plus (to_ptrdiff_t k))).operator_eq (v6.cbegin.operator_plus (to_ptrdiff_t k)) = Except.ok true ∧
     (c6.operator_assign (v6.begin.operator_plus (to_ptrdiff_t k))).operator_star = (v6.begin.operator_plus (to_ptrdiff_t k)).operator_star ∧
     (c6.operator_assign (v6.begin.operator_plus (to_ptrdiff_t k))).operator_star = (v6.cbegin.operator_plus (to_ptrdiff_t k)).operator_star) := by
  refine ⟨?_, ?_, ?_⟩ <;>
  simp [repeat_n_view.repeat_n_owned_view._iterator_templ.of_iterator,
    repeat_n_view.repeat_n_owned_view._iterator_templ.operator_assign,
    repeat_n_view.repeat_n_owned_view._iterator_templ.operator_eq,
    repeat_n_view.repeat_n_owned_view._iterator_templ.operator_star,
    repeat_n_view.repeat_n_owned_view._iterator_templ.operator_plus,
    repeat_n_view.repeat_n_owned_view._iterator_templ.operator_add_assign,
    repeat_n_view.repeat_n_owned_view.begin,
    repeat_n_view.repeat_n_owned_view.cbegin,
    notstd.single_view._iterator_templ.of_iterator,
    notstd.single_view._iterator_templ.operator_assign,
    notstd.single_view._iterator_templ.operator_eq,
    notstd.single_view._iterator_templ.operator_star,
    notstd.single_view._iterator_templ.operator_plus,
    notstd.single_view._iterator_templ.operator_add_assign,
    notstd.single_view.begin,
    notstd.single_view.cbegin,
    repeat_n.owned_view._iterator_templ.of_iterator,
    repeat_n.owned_view._iterator_templ.operator_assign,
    repeat_n.owned_view._iterator_templ.operator_eq,
    repeat_n.owned_view._iterator_templ.operator_star,
    repeat_n.owned_view._iterator_templ.operator_plus,
    repeat_n.owned_view._iterator_templ.operator_add_assign,
    repeat_n.owned_view.begin,
    repeat_n.owned_view.cbegin]

/-- C17 (witness): the claim at `N = 3`, `k = 2` for views stored at 4096. -/
theorem C17_conversion_to_const_iterator_witness :
    (2 : Nat) ≤ 3 ∧
    (repeat_n_view.repeat_n_owned_view._iterator_templ.of_iterator ((⟨4096⟩ : repeat_n_view.repeat_n_owned_view 3).begin.operator_plus (to_ptrdiff_t 2))).operator_eq
      ((⟨4096⟩ : repeat_n_view.repeat_n_owned_view 3).cbegin.operator_plus (to_ptrdiff_t 2)) = Except.ok true :=
  ⟨by decide,
   (C17_conversion_to_const_iterator 3 2 ⟨4096⟩ ⟨4096⟩ ⟨4096⟩ ⟨4096, 0⟩ ⟨4096, 0⟩
      ⟨4096, 0⟩ ⟨4096, 0⟩ ⟨4096, 0⟩ ⟨4096, 0⟩ (by decide)).1.2.2.2.2.1⟩

/-! ## Capacity -/

/-- C18: for every view, `size()` returns `N` and `max_size()` returns `2^63 - 1`, the
largest `std::ptrdiff_t` of a 64-bit target, whatever `N` is. Both are functions of the view
alone, whose only state is its storage address: the memory (the stored value and every
write to it) and the iterators are not among their arguments. -/
theorem C18_size_and_max_size (N : Nat)
    (v1 : repeat_n_view.repeat_n_owned_view N)
    (v2 : notstd.single_view N)
    (v3 : repeat_n_view.repeat_n_foreign_view N)
    (v4 : notstd.dereferencing_single_view N)
    (v5 : repeat_n.foreign_view N)
    (v6 : repeat_n.owned_view N) :
    (v1.size = N ∧ v1.max_size = 9223372036854775807) ∧
    (v2.size = N ∧ v2.max_size = 9223372036854775807) ∧
    (v3.size = N ∧ v3.max_size = 9223372036854775807) ∧
    (v4.size = N ∧ v4.max_size = 9223372036854775807) ∧
    (v5.size = N ∧ v5.max_size = 9223372036854775807) ∧
    (v6.size = N ∧ v6.max_size = 9223372036854775807) :=
  ⟨⟨rfl, rfl⟩, ⟨rfl, rfl⟩, ⟨rfl, rfl⟩, ⟨rfl, rfl⟩, ⟨rfl, rfl⟩, ⟨rfl, rfl⟩⟩

/-! ## Increment and decrement -/

/-- C19 (as amended): on a 64-bit target, for every iterator at position `p`, pre-increment
sets the position to `(p + 1) mod 2^64`, which is `p + 1` exactly when `p + 1 < 2^64`, and
returns the updated iterator; post-increment leaves the iterator as pre-increment does and
returns the iterator as it was, at position `p`; pre- and post-decrement do the same with
`(p - 1) mod 2^64`, which is `p - 1` exactly when `p >= 1` (for `p <= 2^64`). No bound is
checked: every statement holds for every position. -/
theorem C19_increment_and_decrement
    (m1 : Bool) (it1 : repeat_n_view.repeat_n_owned_view._iterator_templ m1)
    (m2 : Bool) (it2 : notstd.single_view._iterator_templ m2)
    (it3 : repeat_n_view.repeat_n_foreign_view.const_iterator)
    (it4 : notstd.dereferencing_single_view.iterator)
    (it5 : repeat_n.foreign_view.const_iterator)
    (m6 : Bool) (it6 : repeat_n.owned_view._iterator_templ m6) :
    (((it1.operator_preinc.curr : Nat) : Int) = ((it1.curr : Int) + 1) % 18446744073709551616 ∧
     (it1.operator_preinc.curr = it1.curr + 1 ↔ it1.curr + 1 < 18446744073709551616) ∧
     it1.operator_postinc.1 = it1 ∧
     it1.operator_postinc.2 = it1.operator_preinc ∧
     ((it1.operator_predec.curr : Nat) : Int) = ((it1.curr : Int) - 1) % 18446744073709551616 ∧
     (((it1.operator_predec.curr : Nat) : Int) = (it1.curr : Int) - 1 ↔
        (1 ≤ it1.curr ∧ it1.curr ≤ 18446744073709551616)) ∧
     it1.operator_postdec.1 = it1 ∧
     it1.operator_postdec.2 = it1.operator_predec) ∧
    (((it2.operator_preinc.curr : Nat) : Int) = ((it2.curr : Int) + 1) % 18446744073709551616 ∧
     (it2.operator_preinc.curr = it2.curr + 1 ↔ it2.curr + 1 < 18446744073709551616) ∧
     it2.operator_postinc.1 = it2 ∧
     it2.operator_postinc.2 = it2.operator_preinc ∧
     ((it2.operator_predec.curr : Nat) : Int) = ((it2.curr : Int) - 1) % 18446744073709551616 ∧
     (((it2.operator_predec.curr : Nat) : Int) = (it2.curr : Int) - 1 ↔
        (1 ≤ it2.curr ∧ it2.curr ≤ 18446744073709551616)) ∧
     it2.operator_postdec.1 = it2 ∧
     it2.operator_postdec.2 = it2.operator_predec) ∧
    (((it3.operator_preinc.curr : Nat) : Int) = ((it3.curr : Int) + 1) % 18446744073709551616 ∧
     (it3.operator_preinc.curr = it3.curr + 1 ↔ it3.curr + 1 < 18446744073709551616) ∧
     it3.operator_postinc.1 = it3 ∧
     it3.operator_postinc.2 = it3.operator_preinc ∧
     ((it3.operator_predec.curr : Nat) : Int) = ((it3.curr : Int) - 1) % 18446744073709551616 ∧
     (((it3.operator_predec.curr : Nat) : Int) = (it3.curr : Int) - 1 ↔
        (1 ≤ it3.curr ∧ it3.curr ≤ 18446744073709551616)) ∧
     it3.operator_postdec.1 = it3 ∧
     it3.operator_postdec.2 = it3.operator_predec) ∧
    (((it4.operator_preinc.curr : Nat) : Int) = ((it4.curr : Int) + 1) % 18446744073709551616 ∧
     (it4.operator_preinc.curr = it4.curr + 1 ↔ it4.curr + 1 < 18446744073709551616) ∧
     it4.operator_postinc.1 = it4 ∧
     it4.operator_postinc.2 = it4.operator_preinc ∧
     ((it4.operator_predec.curr : Nat) : Int) = ((it4.curr : Int) - 1) % 18446744073709551616 ∧
     (((it4.operator_predec.curr : Nat) : Int) = (it4.curr : Int) - 1 ↔
        (1 ≤ it4.curr ∧ it4.curr ≤ 18446744073709551616)) ∧
     it4.operator_postdec.1 = it4 ∧
     it4.operator_postdec.2 = it4.operator_predec) ∧
    (((it5.operator_preinc.curr : Nat) : Int) = ((it5.curr : Int) + 1) % 18446744073709551616 ∧
     (it5.operator_preinc.curr = it5.curr + 1 ↔ it5.curr + 1 < 18446744073709551616) ∧
     it5.operator_postinc.1 = it5 ∧
     it5.operator_postinc.2 = it5.operator_preinc ∧
     ((it5.operator_predec.curr : Nat) : Int) = ((it5.curr : Int) - 1) % 18446744073709551616 ∧
     (((it5.operator_predec.curr : Nat) : Int) = (it5.curr : Int) - 1 ↔
        (1 ≤ it5.curr ∧ it5.curr ≤ 18446744073709551616)) ∧
     it5.operator_postdec.1 = it5 ∧
     it5.operator_postdec.2 = it5.operator_predec) ∧
    (((it6.operator_preinc.curr : Nat) : Int) = ((it6.curr : Int) + 1) % 18446744073709551616 ∧
     (it6.operator_preinc.curr = it6.curr + 1 ↔ it6.curr + 1 < 18446744073709551616) ∧
     it6.operator_postinc.1 = it6 ∧
     it6.operator_postinc.2 = it6.operator_preinc ∧
     ((it6.operator_predec.curr : Nat) : Int) = ((it6.curr : Int) - 1) % 18446744073709551616 ∧
     (((it6.operator_predec.curr : Nat) : Int) = (it6.curr : Int) - 1 ↔
        (1 ≤ it6.curr ∧ it6.curr ≤ 18446744073709551616)) ∧
     it6.operator_postdec.1 = it6 ∧
     it6.operator_postdec.2 = it6.operator_predec) := by
  refine ⟨?_, ?_, ?_, ?_, ?_, ?_⟩
  all_goals
    refine ⟨?_, ?_, rfl, rfl, ?_, ?_, rfl, rfl⟩
  all_goals
    simp only [repeat_n_view.repeat_n_owned_view._iterator_templ.operator_preinc,
    repeat_n_view.repeat_n_owned_view._iterator_templ.operator_predec,
    notstd.single_view._iterator_templ.operator_preinc,
    notstd.single_view._iterator_templ.operator_predec,
    repeat_n_view.repeat_n_foreign_view.const_iterator.operator_preinc,
    repeat_n_view.repeat_n_foreign_view.const_iterator.operator_predec,
    notstd.dereferencing_single_view.iterator.operator_preinc,
    notstd.dereferencing_single_view.iterator.operator_predec,
    repeat_n.foreign_view.const_iterator.operator_preinc,
    repeat_n.foreign_view.const_iterator.operator_predec,
    repeat_n.owned_view._iterator_templ.operator_preinc,
    repeat_n.owned_view._iterator_templ.operator_predec]
    unfold to_size_t
    omega

/-- C19 (counterexample): decrementing `begin()` (position `p = 0`) of a
`repeat_n_owned_view` of length 3 stored at 4096 gives position `2^64 - 1`, not `p - 1`. -/
theorem C19_decrement_wraps_counterexample :
    (((⟨4096⟩ : repeat_n_view.repeat_n_owned_view 3).begin.operator_predec.curr : Nat) : Int) = 18446744073709551615 ∧
    (((⟨4096⟩ : repeat_n_view.repeat_n_owned_view 3).begin.operator_predec.curr : Nat) : Int) ≠
      ((⟨4096⟩ : repeat_n_view.repeat_n_owned_view 3).begin.curr : Int) - 1 := by
  decide

/-! ## Reverse iterators -/

/-- C20 (as amended): on a 64-bit target, for every view of length `N` (a `std::size_t`),
`rbegin()` and `crbegin()` wrap `end()` and `rend()` and `crend()` wrap `begin()`: the base
of `rbegin()` is `end()`, the base of `rend()` is `begin()`, `rend() - rbegin()` equals `N`
exactly when `N < 2^63`, and dereferencing `rbegin()` yields the lvalue at the storage
address of the view, the single stored object (for every `N`, in particular for
`N >= 1`). -/
theorem C20_reverse_iterators (N : Nat)
    (v1 : repeat_n_view.repeat_n_owned_view N)
    (v2 : notstd.single_view N)
    (v3 : repeat_n_view.repeat_n_foreign_view N)
    (v4 : notstd.dereferencing_single_view N)
    (v5 : repeat_n.foreign_view N)
    (v6 : repeat_n.owned_view N)
    (hN : N < 18446744073709551616) :
    (v1.rbegin.base = v1.end_ ∧
     v1.rend.base = v1.begin ∧
     (cxx.reverse_iterator.operator_diff repeat_n_view.repeat_n_owned_view._iterator_templ.operator_diff v1.rend v1.rbegin = Except.ok (N : Int) ↔
        N < 9223372036854775808) ∧
     cxx.reverse_iterator.operator_star repeat_n_view.repeat_n_owned_view._iterator_templ.operator_predec repeat_n_view.repeat_n_owned_view._iterator_templ.operator_star v1.rbegin =
        ⟨v1.addressof___contents⟩) ∧
    (v1.rbegin_const.base = v1.end_const ∧
     v1.rend_const.base = v1.begin_const ∧
     (cxx.reverse_iterator.operator_diff repeat_n_view.repeat_n_owned_view._iterator_templ.operator_diff v1.rend_const v1.rbegin_const = Except.ok (N : Int) ↔
        N < 9223372036854775808) ∧
     cxx.reverse_iterator.operator_star repeat_n_view.repeat_n_owned_view._iterator_templ.operator_predec repeat_n_view.repeat_n_owned_view._iterator_templ.operator_star v1.rbegin_const =
        ⟨v1.addressof___contents⟩) ∧
    (v1.crbegin.base = v1.cend ∧
     v1.crend.base = v1.cbegin ∧
     (cxx.reverse_iterator.operator_diff repeat_n_view.repeat_n_owned_view._iterator_templ.operator_diff v1.crend v1.crbegin = Except.ok (N : Int) ↔
        N < 9223372036854775808) ∧
     cxx.reverse_iterator.operator_star repeat_n_view.repeat_n_owned_view._iterator_templ.operator_predec repeat_n_view.repeat_n_owned_view._iterator_templ.operator_star v1.crbegin =
        ⟨v1.addressof___contents⟩) ∧
    (v2.rbegin.base = v2.end_ ∧
     v2.rend.base = v2.begin ∧
     (cxx.reverse_iterator.operator_diff notstd.single_view._iterator_templ.operator_diff v2.rend v2.rbegin = Except.ok (N : Int) ↔
        N < 9223372036854775808) ∧
     cxx.reverse_iterator.operator_star notstd.single_view._iterator_templ.operator_predec notstd.single_view._iterator_templ.operator_star v2.rbegin =
        ⟨v2.addressof_contents⟩) ∧
    (v2.rbegin_const.base = v2.end_const ∧
     v2.rend_const.base = v2.begin_const ∧
     (cxx.reverse_iterator.operator_diff notstd.single_view._iterator_templ.operator_diff v2.rend_const v2.rbegin_const = Except.ok (N : Int) ↔
        N < 9223372036854775808) ∧
     cxx.reverse_iterator.operator_star notstd.single_view._iterator_templ.operator_predec notstd.single_view._iterator_templ.operator_star v2.rbegin_const =
        ⟨v2.addressof_contents⟩) ∧
    (v2.crbegin.base = v2.cend ∧
     v2.crend.base = v2.cbegin ∧
     (cxx.reverse_iterator.operator_diff notstd.single_view._iterator_templ.operator_diff v2.crend v2.crbegin = Except.ok (N : Int) ↔
        N < 9223372036854775808) ∧
     cxx.reverse_iterator.operator_star notstd.single_view._iterator_templ.operator_predec notstd.single_view._iterator_templ.operator_star v2.crbegin =
        ⟨v2.addressof_contents⟩) ∧
    (v3.rbegin.base = v3.end_ ∧
     v3.rend.base = v3.begin ∧
     (cxx.reverse_iterator.operator_diff repeat_n_view.repeat_n_foreign_view.const_iterator.operator_diff v3.rend v3.rbegin = Except.ok (N : Int) ↔
        N < 9223372036854775808) ∧
     cxx.reverse_iterator.operator_star repeat_n_view.repeat_n_foreign_view.const_iterator.operator_predec repeat_n_view.repeat_n_foreign_view.const_iterator.operator_star v3.rbegin =
        ⟨v3.__contents⟩) ∧
    (v3.crbegin.base = v3.cend ∧
     v3.crend.base = v3.cbegin ∧
     (cxx.reverse_iterator.operator_diff repeat_n_view.repeat_n_foreign_view.const_iterator.operator_diff v3.crend v3.crbegin = Except.ok (N : Int) ↔
        N < 9223372036854775808) ∧
     cxx.reverse_iterator.operator_star repeat_n_view.repeat_n_foreign_view.const_iterator.operator_predec repeat_n_view.repeat_n_foreign_view.const_iterator.operator_star v3.crbegin =
        ⟨v3.__contents⟩) ∧
    (v4.rbegin.base = v4.end_ ∧
     v4.rend.base = v4.begin ∧
     (cxx.reverse_iterator.operator_diff notstd.dereferencing_single_view.iterator.operator_diff v4.rend v4.rbegin = Except.ok (N : Int) ↔
        N < 9223372036854775808) ∧
     cxx.reverse_iterator.operator_star notstd.dereferencing_single_view.iterator.operator_predec notstd.dereferencing_single_view.iterator.operator_star v4.rbegin =
        ⟨v4.contents⟩) ∧
    (v4.rbegin_const.base = v4.end_const ∧
     v4.rend_const.base = v4.begin_const ∧
     (cxx.reverse_iterator.operator_diff notstd.dereferencing_single_view.iterator.operator_diff v4.rend_const v4.rbegin_const = Except.ok (N : Int) ↔
        N < 9223372036854775808) ∧
     cxx.reverse_iterator.operator_star notstd.dereferencing_single_view.iterator.operator_predec notstd.dereferencing_single_view.iterator.operator_star v4.rbegin_const =
        ⟨v4.contents⟩) ∧
    (v4.crbegin.base = v4.cend ∧
     v4.crend.base = v4.cbegin ∧
     (cxx.reverse_iterator.operator_diff notstd.dereferencing_single_view.iterator.operator_diff v4.crend v4.crbegin = Except.ok (N : Int) ↔
        N < 9223372036854775808) ∧
     cxx.reverse_iterator.operator_star notstd.dereferencing_single_view.iterator.operator_predec notstd.dereferencing_single_view.iterator.operator_star v4.crbegin =
        ⟨v4.contents⟩) ∧
    (v5.rbegin.base = v5.end_ ∧
     v5.rend.base = v5.begin ∧
     (cxx.reverse_iterator.operator_diff repeat_n.foreign_view.const_iterator.operator_diff v5.rend v5.rbegin = Except.ok (N : Int) ↔
        N < 9223372036854775808) ∧
     cxx.reverse_iterator.operator_star repeat_n.foreign_view.const_iterator.operator_predec repeat_n.foreign_view.const_iterator.operator_star v5.rbegin =
        ⟨v5.M_contents⟩) ∧
    (v5.crbegin.base = v5.cend ∧
     v5.crend.base = v5.cbegin ∧
     (cxx.reverse_iterator.operator_diff repeat_n.foreign_view.const_iterator.operator_diff v5.crend v5.crbegin = Except.ok (N : Int) ↔
        N < 9223372036854775808) ∧
     cxx.reverse_iterator.operator_star repeat_n.foreign_view.const_iterator.operator_predec repeat_n.foreign_view.const_iterator.operator_star v5.crbegin =
        ⟨v5.M_contents⟩) ∧
    (v6.rbegin.base = v6.end_ ∧
     v6.rend.base = v6.begin ∧
     (cxx.reverse_iterator.operator_diff repeat_n.owned_view._iterator_templ.operator_diff v6.rend v6.rbegin = Except.ok (N : Int) ↔
        N < 9223372036854775808) ∧
     cxx.reverse_iterator.operator_star repeat_n.owned_view._iterator_templ.operator_predec repeat_n.owned_view._iterator_templ.operator_star v6.rbegin =
        ⟨v6.addressof_M_contents⟩) ∧
    (v6.rbegin_const.base = v6.end_const ∧
     v6.rend_const.base = v6.begin_const ∧
     (cxx.reverse_iterator.operator_diff repeat_n.owned_view._iterator_templ.operator_diff v6.rend_const v6.rbegin_const = Except.ok (N : Int) ↔
        N < 9223372036854775808) ∧
     cxx.reverse_iterator.operator_star repeat_n.owned_view._iterator_templ.operator_predec repeat_n.owned_view._iterator_templ.operator_star v6.rbegin_const =
        ⟨v6.addressof_M_contents⟩) ∧
    (v6.crbegin.base = v6.cend ∧
     v6.crend.base = v6.cbegin ∧
     (cxx.reverse_iterator.operator_diff repeat_n.owned_view._iterator_templ.operator_diff v6.crend v6.crbegin = Except.ok (N : Int) ↔
        N < 9223372036854775808) ∧
     cxx.reverse_iterator.operator_star repeat_n.owned_view._iterator_templ.operator_predec repeat_n.owned_view._iterator_templ.operator_star v6.crbegin =
        ⟨v6.addressof_M_contents⟩) := by
  have h3 := cxx.to_size_t_of_lt N hN
  have h4 := cxx.to_ptrdiff_t_eq_iff N hN
  refine ⟨?_, ?_, ?_, ?_, ?_, ?_, ?_, ?_, ?_, ?_, ?_, ?_, ?_, ?_, ?_, ?_⟩
  all_goals
    refine ⟨rfl, rfl, ?_, rfl⟩
  all_goals
    simp only [cxx.reverse_iterator.operator_diff, cxx.reverse_iterator.base,
    repeat_n_view.repeat_n_owned_view._iterator_templ.operator_diff,
    repeat_n_view.repeat_n_owned_view.begin,
    repeat_n_view.repeat_n_owned_view.end_,
    repeat_n_view.repeat_n_owned_view.cbegin,
    repeat_n_view.repeat_n_owned_view.cend,
    repeat_n_view.repeat_n_owned_view.begin_const,
    repeat_n_view.repeat_n_owned_view.end_const,
    repeat_n_view.repeat_n_owned_view.rbegin,
    repeat_n_view.repeat_n_owned_view.rend,
    repeat_n_view.repeat_n_owned_view.crbegin,
    repeat_n_view.repeat_n_owned_view.crend,
    repeat_n_view.repeat_n_owned_view.rbegin_const,
    repeat_n_view.repeat_n_owned_view.rend_const,
    notstd.single_view._iterator_templ.operator_diff,
    notstd.single_view.begin,
    notstd.single_view.end_,
    notstd.single_view.cbegin,
    notstd.single_view.cend,
    notstd.single_view.begin_const,
    notstd.single_view.end_const,
    notstd.single_view.rbegin,
    notstd.single_view.rend,
    notstd.single_view.crbegin,
    notstd.single_view.crend,
    notstd.single_view.rbegin_const,
    notstd.single_view.rend_const,
    repeat_n_view.repeat_n_foreign_view.const_iterator.operator_diff,
    repeat_n_view.repeat_n_foreign_view.begin,
    repeat_n_view.repeat_n_foreign_view.end_,
    repeat_n_view.repeat_n_foreign_view.cbegin,
    repeat_n_view.repeat_n_foreign_view.cend,
    repeat_n_view.repeat_n_foreign_view.rbegin,
    repeat_n_view.repeat_n_foreign_view.rend,
    repeat_n_view.repeat_n_foreign_view.crbegin,
    repeat_n_view.repeat_n_foreign_view.crend,
    notstd.dereferencing_single_view.iterator.operator_diff,
    notstd.dereferencing_single_view.begin,
    notstd.dereferencing_single_view.end_,
    notstd.dereferencing_single_view.cbegin,
    notstd.dereferencing_single_view.cend,
    notstd.dereferencing_single_view.begin_const,
    notstd.dereferencing_single_view.end_const,
    notstd.dereferencing_single_view.rbegin,
    notstd.dereferencing_single_view.rend,
    notstd.dereferencing_single_view.crbegin,
    notstd.dereferencing_single_view.crend,
    notstd.dereferencing_single_view.rbegin_const,
    notstd.dereferencing_single_view.rend_const,
    repeat_n.foreign_view.const_iterator.operator_diff,
    repeat_n.foreign_view.begin,
    repeat_n.foreign_view.end_,
    repeat_n.foreign_view.cbegin,
    repeat_n.foreign_view.cend,
    repeat_n.foreign_view.rbegin,
    repeat_n.foreign_view.rend,
    repeat_n.foreign_view.crbegin,
    repeat_n.foreign_view.crend,
    repeat_n.owned_view._iterator_templ.operator_diff,
    repeat_n.owned_view.begin,
    repeat_n.owned_view.end_,
    repeat_n.owned_view.cbegin,
    repeat_n.owned_view.cend,
    repeat_n.owned_view.begin_const,
    repeat_n.owned_view.end_const,
    repeat_n.owned_view.rbegin,
    repeat_n.owned_view.rend,
    repeat_n.owned_view.crbegin,
    repeat_n.owned_view.crend,
    repeat_n.owned_view.rbegin_const,
    repeat_n.owned_view.rend_const,
    ne_eq, not_true_eq_false, if_false, if_true, Except.ok.injEq, Nat.cast_zero, sub_zero,
    h3, h4]

/-- C20 (witness): the amended claim at `N = 3`: `rend() - rbegin() == 3` for a
`repeat_n_owned_view` stored at 4096. -/
theorem C20_reverse_iterators_witness :
    (3 : Nat) < 18446744073709551616 ∧
    cxx.reverse_iterator.operator_diff repeat_n_view.repeat_n_owned_view._iterator_templ.operator_diff
      (⟨4096⟩ : repeat_n_view.repeat_n_owned_view 3).rend (⟨4096⟩ : repeat_n_view.repeat_n_owned_view 3).rbegin = Except.ok 3 :=
  ⟨by decide,
   ((C20_reverse_iterators 3 ⟨4096⟩ ⟨4096⟩ ⟨4096⟩ ⟨4096⟩ ⟨4096⟩ ⟨4096⟩ (by decide)).1.2.2.1).mpr
     (by decide)⟩

/-- C20 (counterexample): in a `repeat_n_owned_view` of length `N = 2^63` stored at 4096,
`rend() - rbegin()` is `-2^63`, not `N`. -/
theorem C20_reverse_difference_counterexample :
    cxx.reverse_iterator.operator_diff repeat_n_view.repeat_n_owned_view._iterator_templ.operator_diff
      (⟨4096⟩ : repeat_n_view.repeat_n_owned_view 9223372036854775808).rend (⟨4096⟩ : repeat_n_view.repeat_n_owned_view 9223372036854775808).rbegin = Except.ok (-9223372036854775808) ∧
    cxx.reverse_iterator.operator_diff repeat_n_view.repeat_n_owned_view._iterator_templ.operator_diff
      (⟨4096⟩ : repeat_n_view.repeat_n_owned_view 9223372036854775808).rend (⟨4096⟩ : repeat_n_view.repeat_n_owned_view 9223372036854775808).rbegin ≠
        Except.ok ((9223372036854775808 : Nat) : Int) := by
  constructor
  · rfl
  · intro h
    have h2 : (Except.ok (-9223372036854775808) : Except exception Int)
        = Except.ok ((9223372036854775808 : Nat) : Int) := h
    simp at h2
/-! ## The difference as a machine integer -/

/-- The unsigned value converted to `std::ptrdiff_t`, written out. -/
theorem cxx.to_ptrdiff_t_to_size_t (x : Int) :
    to_ptrdiff_t (to_size_t x) =
      (if x % 18446744073709551616 < 9223372036854775808 then x % 18446744073709551616 else x % 18446744073709551616 - 18446744073709551616) := by
  unfold to_size_t to_ptrdiff_t
  split_ifs <;> omega

/-- C21: on a 64-bit target, in every class, for two iterators `a`, `b` on the same storage
at positions `p`, `q`, the difference `a - b` is `(p - q) mod 2^64` reinterpreted as a
signed 64-bit integer; it is the integer `p - q` exactly when `-2^63 <= p - q < 2^63`; so
`end() - begin()` of a view of length `N` (a `std::size_t`) is `N` exactly when
`N < 2^63`. -/
theorem C21_difference_is_wrapped_subtraction (N : Nat)
    (v1 : repeat_n_view.repeat_n_owned_view N)
    (v2 : notstd.single_view N)
    (v3 : repeat_n_view.repeat_n_foreign_view N)
    (v4 : notstd.dereferencing_single_view N)
    (v5 : repeat_n.foreign_view N)
    (v6 : repeat_n.owned_view N)
    (m1 : Bool) (a1 b1 : repeat_n_view.repeat_n_owned_view._iterator_templ m1)
    (m2 : Bool) (a2 b2 : notstd.single_view._iterator_templ m2)
    (a3 b3 : repeat_n_view.repeat_n_foreign_view.const_iterator)
    (a4 b4 : notstd.dereferencing_single_view.iterator)
    (a5 b5 : repeat_n.foreign_view.const_iterator)
    (m6 : Bool) (a6 b6 : repeat_n.owned_view._iterator_templ m6)
    (h1 : a1.location = b1.location) (h2 : a2.location = b2.location) (h3 : a3.location = b3.location) (h4 : a4.location = b4.location) (h5 : a5.location = b5.location) (h6 : a6.location = b6.location)
    (hN : N < 18446744073709551616) :
    (a1.operator_diff b1 = Except.ok
        (if ((a1.curr : Int) - (b1.curr : Int)) % 18446744073709551616 < 9223372036854775808
         then ((a1.curr : Int) - (b1.curr : Int)) % 18446744073709551616
         else ((a1.curr : Int) - (b1.curr : Int)) % 18446744073709551616 - 18446744073709551616) ∧
     (a1.operator_diff b1 = Except.ok ((a1.curr : Int) - (b1.curr : Int)) ↔
        (-9223372036854775808 ≤ ((a1.curr : Int) - (b1.curr : Int)) ∧ ((a1.curr : Int) - (b1.curr : Int)) < 9223372036854775808)) ∧
     (v1.end_.operator_diff v1.begin = Except.ok (N : Int) ↔ N < 9223372036854775808)) ∧
    (a2.operator_diff b2 = Except.ok
        (if ((a2.curr : Int) - (b2.curr : Int)) % 18446744073709551616 < 9223372036854775808
         then ((a2.curr : Int) - (b2.curr : Int)) % 18446744073709551616
         else ((a2.curr : Int) - (b2.curr : Int)) % 18446744073709551616 - 18446744073709551616) ∧
     (a2.operator_diff b2 = Except.ok ((a2.curr : Int) - (b2.curr : Int)) ↔
        (-9223372036854775808 ≤ ((a2.curr : Int) - (b2.curr : Int)) ∧ ((a2.curr : Int) - (b2.curr : Int)) < 9223372036854775808)) ∧
     (v2.end_.operator_diff v2.begin = Except.ok (N : Int) ↔ N < 9223372036854775808)) ∧
    (a3.operator_diff b3 = Except.ok
        (if ((a3.curr : Int) - (b3.curr : Int)) % 18446744073709551616 < 9223372036854775808
         then ((a3.curr : Int) - (b3.curr : Int)) % 18446744073709551616
         else ((a3.curr : Int) - (b3.curr : Int)) % 18446744073709551616 - 18446744073709551616) ∧
     (a3.operator_diff b3 = Except.ok ((a3.curr : Int) - (b3.curr : Int)) ↔
        (-9223372036854775808 ≤ ((a3.curr : Int) - (b3.curr : Int)) ∧ ((a3.curr : Int) - (b3.curr : Int)) < 9223372036854775808)) ∧
     (v3.end_.operator_diff v3.begin = Except.ok (N : Int) ↔ N < 9223372036854775808)) ∧
    (a4.operator_diff b4 = Except.ok
        (if ((a4.curr : Int) - (b4.curr : Int)) % 18446744073709551616 < 9223372036854775808
         then ((a4.curr : Int) - (b4.curr : Int)) % 18446744073709551616
         else ((a4.curr : Int) - (b4.curr : Int)) % 18446744073709551616 - 18446744073709551616) ∧
     (a4.operator_diff b4 = Except.ok ((a4.curr : Int) - (b4.curr : Int)) ↔
        (-9223372036854775808 ≤ ((a4.curr : Int) - (b4.curr : Int)) ∧ ((a4.curr : Int) - (b4.curr : Int)) < 9223372036854775808)) ∧
     (v4.end_.operator_diff v4.begin = Except.ok (N : Int) ↔ N < 9223372036854775808)) ∧
    (a5.operator_diff b5 = Except.ok
        (if ((a5.curr : Int) - (b5.curr : Int)) % 18446744073709551616 < 9223372036854775808
         then ((a5.curr : Int) - (b5.curr : Int)) % 18446744073709551616
         else ((a5.curr : Int) - (b5.curr : Int)) % 18446744073709551616 - 18446744073709551616) ∧
     (a5.operator_diff b5 = Except.ok ((a5.curr : Int) - (b5.curr : Int)) ↔
        (-9223372036854775808 ≤ ((a5.curr : Int) - (b5.curr : Int)) ∧ ((a5.curr : Int) - (b5.curr : Int)) < 9223372036854775808)) ∧
     (v5.end_.operator_diff v5.begin = Except.ok (N : Int) ↔ N < 9223372036854775808)) ∧
    (a6.operator_diff b6 = Except.ok
        (if ((a6.curr : Int) - (b6.curr : Int)) % 18446744073709551616 < 9223372036854775808
         then ((a6.curr : Int) - (b6.curr : Int)) % 18446744073709551616
         else ((a6.curr : Int) - (b6.curr : Int)) % 18446744073709551616 - 18446744073709551616) ∧
     (a6.operator_diff b6 = Except.ok ((a6.curr : Int) - (b6.curr : Int)) ↔
        (-9223372036854775808 ≤ ((a6.curr : Int) - (b6.curr : Int)) ∧ ((a6.curr : Int) - (b6.curr : Int)) < 9223372036854775808)) ∧
     (v6.end_.operator_diff v6.begin = Except.ok (N : Int) ↔ N < 9223372036854775808)) := by
  have hs := cxx.to_size_t_of_lt N hN
  have ht := cxx.to_ptrdiff_t_eq_iff N hN
  refine ⟨?_, ?_, ?_, ?_, ?_, ?_⟩
  all_goals
    refine ⟨?_, ?_, ?_⟩
  all_goals
    simp only [repeat_n_view.repeat_n_owned_view._iterator_templ.operator_diff,
    repeat_n_view.repeat_n_owned_view.begin,
    repeat_n_view.repeat_n_owned_view.end_,
    notstd.single_view._iterator_templ.operator_diff,
    notstd.single_view.begin,
    notstd.single_view.end_,
    repeat_n_view.repeat_n_foreign_view.const_iterator.operator_diff,
    repeat_n_view.repeat_n_foreign_view.begin,
    repeat_n_view.repeat_n_foreign_view.end_,
    notstd.dereferencing_single_view.iterator.operator_diff,
    notstd.dereferencing_single_view.begin,
    notstd.dereferencing_single_view.end_,
    repeat_n.foreign_view.const_iterator.operator_diff,
    repeat_n.foreign_view.begin,
    repeat_n.foreign_view.end_,
    repeat_n.owned_view._iterator_templ.operator_diff,
    repeat_n.owned_view.begin,
    repeat_n.owned_view.end_,
    h1, h2, h3, h4, h5, h6, hs, ht, ne_eq, not_true_eq_false, if_false, if_true, Except.ok.injEq,
    Nat.cast_zero, sub_zero, cxx.to_ptrdiff_t_to_size_t]
  all_goals
    split_ifs <;> omega

/-- C21 (witness): iterators at positions 1 and 3 of storage 4096: the difference is
`(1 - 3) mod 2^64` read as a signed integer, that is -2. -/
theorem C21_difference_is_wrapped_subtraction_witness :
    (3 : Nat) < 18446744073709551616 ∧
    (⟨4096, 1⟩ : repeat_n_view.repeat_n_owned_view._iterator_templ true).operator_diff ⟨4096, 3⟩ = Except.ok (-2) :=
  ⟨by decide,
   (C21_difference_is_wrapped_subtraction 3 ⟨4096⟩ ⟨4096⟩ ⟨4096⟩ ⟨4096⟩ ⟨4096⟩ ⟨4096⟩
      true ⟨4096, 1⟩ ⟨4096, 3⟩ true ⟨4096, 1⟩ ⟨4096, 3⟩ ⟨4096, 1⟩ ⟨4096, 3⟩
      ⟨4096, 1⟩ ⟨4096, 3⟩ ⟨4096, 1⟩ ⟨4096, 3⟩ true ⟨4096, 1⟩ ⟨4096, 3⟩
      rfl rfl rfl rfl rfl rfl (by decide)).1.1⟩

/-- Moving by `n` modulo `2^64` and subtracting the start gives back a signed 64-bit
`n`. -/
theorem cxx.to_ptrdiff_t_move (p : Nat) (n : Int) (hlo : -9223372036854775808 ≤ n) (hhi : n < 9223372036854775808) :
    to_ptrdiff_t (to_size_t (((to_size_t ((p : Int) + n) : Nat) : Int) - (p : Int))) = n := by
  unfold to_size_t to_ptrdiff_t
  split_ifs <;> omega

/-- C22: on a 64-bit target, in every class, for every iterator `it` at any position and
every signed 64-bit offset `n`, `(it + n) - it` returns `n`, also when the position wraps
around the unsigned range. -/
theorem C22_advance_then_difference (n : Int)
    (m1 : Bool) (it1 : repeat_n_view.repeat_n_owned_view._iterator_templ m1)
    (m2 : Bool) (it2 : notstd.single_view._iterator_templ m2)
    (it3 : repeat_n_view.repeat_n_foreign_view.const_iterator)
    (it4 : notstd.dereferencing_single_view.iterator)
    (it5 : repeat_n.foreign_view.const_iterator)
    (m6 : Bool) (it6 : repeat_n.owned_view._iterator_templ m6)
    (hlo : -9223372036854775808 ≤ n) (hhi : n < 9223372036854775808) :
    (it1.operator_plus n).operator_diff it1 = Except.ok n ∧
    (it2.operator_plus n).operator_diff it2 = Except.ok n ∧
    (it3.operator_plus n).operator_diff it3 = Except.ok n ∧
    (it4.operator_plus n).operator_diff it4 = Except.ok n ∧
    (it5.operator_plus n).operator_diff it5 = Except.ok n ∧
    (it6.operator_plus n).operator_diff it6 = Except.ok n := by
  refine ⟨?_, ?_, ?_, ?_, ?_, ?_⟩
  all_goals
    simp only [repeat_n_view.repeat_n_owned_view._iterator_templ.operator_diff,
    repeat_n_view.repeat_n_owned_view._iterator_templ.operator_plus,
    repeat_n_view.repeat_n_owned_view._iterator_templ.operator_add_assign,
    notstd.single_view._iterator_templ.operator_diff,
    notstd.single_view._iterator_templ.operator_plus,
    notstd.single_view._iterator_templ.operator_add_assign,
    repeat_n_view.repeat_n_foreign_view.const_iterator.operator_diff,
    repeat_n_view.repeat_n_foreign_view.const_iterator.operator_plus,
    repeat_n_view.repeat_n_foreign_view.const_iterator.operator_add_assign,
    notstd.dereferencing_single_view.iterator.operator_diff,
    notstd.dereferencing_single_view.iterator.operator_plus,
    notstd.dereferencing_single_view.iterator.operator_add_assign,
    repeat_n.foreign_view.const_iterator.operator_diff,
    repeat_n.foreign_view.const_iterator.operator_plus,
    repeat_n.foreign_view.const_iterator.operator_add_assign,
    repeat_n.owned_view._iterator_templ.operator_diff,
    repeat_n.owned_view._iterator_templ.operator_plus,
    repeat_n.owned_view._iterator_templ.operator_add_assign,
    ne_eq, not_true_eq_false, if_false, if_true, cxx.to_ptrdiff_t_move _ n hlo hhi]

/-- C22 (witness): `(begin() + (-1)) - begin()` is -1 although the position wraps to
`2^64 - 1`. -/
theorem C22_advance_then_difference_witness :
    (-9223372036854775808 ≤ (-1 : Int) ∧ (-1 : Int) < 9223372036854775808) ∧
    ((⟨4096⟩ : repeat_n_view.repeat_n_owned_view 3).begin.operator_plus (-1)).operator_diff (⟨4096⟩ : repeat_n_view.repeat_n_owned_view 3).begin
      = Except.ok (-1) :=
  ⟨by decide,
   (C22_advance_then_difference (-1) true (⟨4096⟩ : repeat_n_view.repeat_n_owned_view 3).begin true ⟨4096, 0⟩ ⟨4096, 0⟩
      ⟨4096, 0⟩ ⟨4096, 0⟩ true ⟨4096, 0⟩ (by decide) (by decide)).1⟩

/-! ## Below position 0 -/

/-- C23 (as amended): on a 64-bit target, for every view of length `N`, the iterator
obtained by decrementing `begin()` once has position `2^64 - 1`;
`(begin() - 1) < begin()` is false, `(begin() - 1) <= end()` is false exactly when
`N < 2^64 - 1`, and `(begin() - 1) - begin()` is -1. -/
theorem C23_below_begin (N : Nat)
    (v1 : repeat_n_view.repeat_n_owned_view N)
    (v2 : notstd.single_view N)
    (v3 : repeat_n_view.repeat_n_foreign_view N)
    (v4 : notstd.dereferencing_single_view N)
    (v5 : repeat_n.foreign_view N)
    (v6 : repeat_n.owned_view N) :
    (v1.begin.operator_predec.curr = 18446744073709551615 ∧
     (v1.begin.operator_minus 1).curr = 18446744073709551615 ∧
     (v1.begin.operator_minus 1).operator_lt v1.begin = Except.ok false ∧
     ((v1.begin.operator_minus 1).operator_le v1.end_ = Except.ok false ↔ N < 18446744073709551615) ∧
     (v1.begin.operator_minus 1).operator_diff v1.begin = Except.ok (-1)) ∧
    (v1.cbegin.operator_predec.curr = 18446744073709551615 ∧
     (v1.cbegin.operator_minus 1).curr = 18446744073709551615 ∧
     (v1.cbegin.operator_minus 1).operator_lt v1.cbegin = Except.ok false ∧
     ((v1.cbegin.operator_minus 1).operator_le v1.cend = Except.ok false ↔ N < 18446744073709551615) ∧
     (v1.cbegin.operator_minus 1).operator_diff v1.cbegin = Except.ok (-1)) ∧
    (v2.begin.operator_predec.curr = 18446744073709551615 ∧
     (v2.begin.operator_minus 1).curr = 18446744073709551615 ∧
     (v2.begin.operator_minus 1).operator_lt v2.begin = Except.ok false ∧
     ((v2.begin.operator_minus 1).operator_le v2.end_ = Except.ok false ↔ N < 18446744073709551615) ∧
     (v2.begin.operator_minus 1).operator_diff v2.begin = Except.ok (-1)) ∧
    (v2.cbegin.operator_predec.curr = 18446744073709551615 ∧
     (v2.cbegin.operator_minus 1).curr = 18446744073709551615 ∧
     (v2.cbegin.operator_minus 1).operator_lt v2.cbegin = Except.ok false ∧
     ((v2.cbegin.operator_minus 1).operator_le v2.cend = Except.ok false ↔ N < 18446744073709551615) ∧
     (v2.cbegin.operator_minus 1).operator_diff v2.cbegin = Except.ok (-1)) ∧
    (v3.begin.operator_predec.curr = 18446744073709551615 ∧
     (v3.begin.operator_minus 1).curr = 18446744073709551615 ∧
     (v3.begin.operator_minus 1).operator_lt v3.begin = Except.ok false ∧
     ((v3.begin.operator_minus 1).operator_le v3.end_ = Except.ok false ↔ N < 18446744073709551615) ∧
     (v3.begin.operator_minus 1).operator_diff v3.begin = Except.ok (-1)) ∧
    (v4.begin.operator_predec.curr = 18446744073709551615 ∧
     (v4.begin.operator_minus 1).curr = 18446744073709551615 ∧
     (v4.begin.operator_minus 1).operator_lt v4.begin = Except.ok false ∧
     ((v4.begin.operator_minus 1).operator_le v4.end_ = Except.ok false ↔ N < 18446744073709551615) ∧
     (v4.begin.operator_minus 1).operator_diff v4.begin = Except.ok (-1)) ∧
    (v5.begin.operator_predec.curr = 18446744073709551615 ∧
     (v5.begin.operator_minus 1).curr = 18446744073709551615 ∧
     (v5.begin.operator_minus 1).operator_lt v5.begin = Except.ok false ∧
     ((v5.begin.operator_minus 1).operator_le v5.end_ = Except.ok false ↔ N < 18446744073709551615) ∧
     (v5.begin.operator_minus 1).operator_diff v5.begin = Except.ok (-1)) ∧
    (v6.begin.operator_predec.curr = 18446744073709551615 ∧
     (v6.begin.operator_minus 1).curr = 18446744073709551615 ∧
     (v6.begin.operator_minus 1).operator_lt v6.begin = Except.ok false ∧
     ((v6.begin.operator_minus 1).operator_le v6.end_ = Except.ok false ↔ N < 18446744073709551615) ∧
     (v6.begin.operator_minus 1).operator_diff v6.begin = Except.ok (-1)) ∧
    (v6.cbegin.operator_predec.curr = 18446744073709551615 ∧
     (v6.cbegin.operator_minus 1).curr = 18446744073709551615 ∧
     (v6.cbegin.operator_minus 1).operator_lt v6.cbegin = Except.ok false ∧
     ((v6.cbegin.operator_minus 1).operator_le v6.cend = Except.ok false ↔ N < 18446744073709551615) ∧
     (v6.cbegin.operator_minus 1).operator_diff v6.cbegin = Except.ok (-1)) := by
  have hp : to_size_t ((0 : Int) - 1) = 18446744073709551615 := by decide
  have hm : to_size_t ((0 : Int) + -1) = 18446744073709551615 := by decide
  have hd : to_ptrdiff_t (to_size_t (((18446744073709551615 : Nat) : Int) - (0 : Int))) = -1 := by
    decide
  refine ⟨?_, ?_, ?_, ?_, ?_, ?_, ?_, ?_, ?_⟩
  all_goals
    refine ⟨?_, ?_, ?_, ?_, ?_⟩
  all_goals
    simp only [repeat_n_view.repeat_n_owned_view._iterator_templ.operator_predec,
    repeat_n_view.repeat_n_owned_view._iterator_templ.operator_minus,
    repeat_n_view.repeat_n_owned_view._iterator_templ.operator_sub_assign,
    repeat_n_view.repeat_n_owned_view._iterator_templ.operator_add_assign,
    repeat_n_view.repeat_n_owned_view._iterator_templ.operator_lt,
    repeat_n_view.repeat_n_owned_view._iterator_templ.operator_le,
    repeat_n_view.repeat_n_owned_view._iterator_templ.operator_diff,
    repeat_n_view.repeat_n_owned_view.begin,
    repeat_n_view.repeat_n_owned_view.end_,
    repeat_n_view.repeat_n_owned_view.cbegin,
    repeat_n_view.repeat_n_owned_view.cend,
    notstd.single_view._iterator_templ.operator_predec,
    notstd.single_view._iterator_templ.operator_minus,
    notstd.single_view._iterator_templ.operator_sub_assign,
    notstd.single_view._iterator_templ.operator_add_assign,
    notstd.single_view._iterator_templ.operator_lt,
    notstd.single_view._iterator_templ.operator_le,
    notstd.single_view._iterator_templ.operator_diff,
    notstd.single_view.begin,
    notstd.single_view.end_,
    notstd.single_view.cbegin,
    notstd.single_view.cend,
    repeat_n_view.repeat_n_foreign_view.const_iterator.operator_predec,
    repeat_n_view.repeat_n_foreign_view.const_iterator.operator_minus,
    repeat_n_view.repeat_n_foreign_view.const_iterator.operator_sub_assign,
    repeat_n_view.repeat_n_foreign_view.const_iterator.operator_add_assign,
    repeat_n_view.repeat_n_foreign_view.const_iterator.operator_lt,
    repeat_n_view.repeat_n_foreign_view.const_iterator.operator_le,
    repeat_n_view.repeat_n_foreign_view.const_iterator.operator_diff,
    repeat_n_view.repeat_n_foreign_view.begin,
    repeat_n_view.repeat_n_foreign_view.end_,
    repeat_n_view.repeat_n_foreign_view.cbegin,
    repeat_n_view.repeat_n_foreign_view.cend,
    notstd.dereferencing_single_view.iterator.operator_predec,
    notstd.dereferencing_single_view.iterator.operator_minus,
    notstd.dereferencing_single_view.iterator.operator_sub_assign,
    notstd.dereferencing_single_view.iterator.operator_add_assign,
    notstd.dereferencing_single_view.iterator.operator_lt,
    notstd.dereferencing_single_view.iterator.operator_le,
    notstd.dereferencing_single_view.iterator.operator_diff,
    notstd.dereferencing_single_view.begin,
    notstd.dereferencing_single_view.end_,
    notstd.dereferencing_single_view.cbegin,
    notstd.dereferencing_single_view.cend,
    repeat_n.foreign_view.const_iterator.operator_predec,
    repeat_n.foreign_view.const_iterator.operator_minus,
    repeat_n.foreign_view.const_iterator.operator_sub_assign,
    repeat_n.foreign_view.const_iterator.operator_add_assign,
    repeat_n.foreign_view.const_iterator.operator_lt,
    repeat_n.foreign_view.const_iterator.operator_le,
    repeat_n.foreign_view.const_iterator.operator_diff,
    repeat_n.foreign_view.begin,
    repeat_n.foreign_view.end_,
    repeat_n.foreign_view.cbegin,
    repeat_n.foreign_view.cend,
    repeat_n.owned_view._iterator_templ.operator_predec,
    repeat_n.owned_view._iterator_templ.operator_minus,
    repeat_n.owned_view._iterator_templ.operator_sub_assign,
    repeat_n.owned_view._iterator_templ.operator_add_assign,
    repeat_n.owned_view._iterator_templ.operator_lt,
    repeat_n.owned_view._iterator_templ.operator_le,
    repeat_n.owned_view._iterator_templ.operator_diff,
    repeat_n.owned_view.begin,
    repeat_n.owned_view.end_,
    repeat_n.owned_view.cbegin,
    repeat_n.owned_view.cend,
    Nat.cast_zero, hp, hm, hd, ne_eq, not_true_eq_false, if_false, if_true, Except.ok.injEq,
    decide_True, Bool.true_and, decide_eq_false_iff_not, not_lt, not_le, Nat.zero_le]

/-- C23 (counterexample): in a `repeat_n_owned_view` of length `N = 2^64 - 1` stored at 4096,
`begin() - 1` has the position of `end()`, and `(begin() - 1) <= end()` is true, not
false. -/
theorem C23_below_begin_counterexample :
    ((⟨4096⟩ : repeat_n_view.repeat_n_owned_view 18446744073709551615).begin.operator_minus 1).operator_le
      (⟨4096⟩ : repeat_n_view.repeat_n_owned_view 18446744073709551615).end_ = Except.ok true ∧
    ((⟨4096⟩ : repeat_n_view.repeat_n_owned_view 18446744073709551615).begin.operator_minus 1).operator_le
      (⟨4096⟩ : repeat_n_view.repeat_n_owned_view 18446744073709551615).end_ ≠ Except.ok false := by
  constructor
  · rfl
  · intro h
    have h2 : (Except.ok true : Except exception Bool) = Except.ok false := h
    simp at h2
/-! ## The unchecked class against the checked one -/

/-- C24: for iterators with storage addresses `la`, `lb` and positions `p`, `q`, each of
`==`, `!=`, `<`, `<=`, `>`, `>=` and the iterator difference of the unchecked
`repeat_n::owned_view` returns the result of the same operator of the checked
`repeat_n_owned_view` exactly when `la = lb`: the two classes agree on every pair with the
same storage address and differ on every pair with different ones. -/
theorem C24_unchecked_agrees_with_checked (m : Bool) (la lb : pointer) (p q : Nat) :
    ((repeat_n.owned_view._iterator_templ.operator_eq (⟨la, p⟩ : repeat_n.owned_view._iterator_templ m) ⟨lb, q⟩ =
        repeat_n_view.repeat_n_owned_view._iterator_templ.operator_eq (⟨la, p⟩ : repeat_n_view.repeat_n_owned_view._iterator_templ m) ⟨lb, q⟩) ↔ la = lb) ∧
    ((repeat_n.owned_view._iterator_templ.operator_ne (⟨la, p⟩ : repeat_n.owned_view._iterator_templ m) ⟨lb, q⟩ =
        repeat_n_view.repeat_n_owned_view._iterator_templ.operator_ne (⟨la, p⟩ : repeat_n_view.repeat_n_owned_view._iterator_templ m) ⟨lb, q⟩) ↔ la = lb) ∧
    ((repeat_n.owned_view._iterator_templ.operator_lt (⟨la, p⟩ : repeat_n.owned_view._iterator_templ m) ⟨lb, q⟩ =
        repeat_n_view.repeat_n_owned_view._iterator_templ.operator_lt (⟨la, p⟩ : repeat_n_view.repeat_n_owned_view._iterator_templ m) ⟨lb, q⟩) ↔ la = lb) ∧
    ((repeat_n.owned_view._iterator_templ.operator_le (⟨la, p⟩ : repeat_n.owned_view._iterator_templ m) ⟨lb, q⟩ =
        repeat_n_view.repeat_n_owned_view._iterator_templ.operator_le (⟨la, p⟩ : repeat_n_view.repeat_n_owned_view._iterator_templ m) ⟨lb, q⟩) ↔ la = lb) ∧
    ((repeat_n.owned_view._iterator_templ.operator_gt (⟨la, p⟩ : repeat_n.owned_view._iterator_templ m) ⟨lb, q⟩ =
        repeat_n_view.repeat_n_owned_view._iterator_templ.operator_gt (⟨la, p⟩ : repeat_n_view.repeat_n_owned_view._iterator_templ m) ⟨lb, q⟩) ↔ la = lb) ∧
    ((repeat_n.owned_view._iterator_templ.operator_ge (⟨la, p⟩ : repeat_n.owned_view._iterator_templ m) ⟨lb, q⟩ =
        repeat_n_view.repeat_n_owned_view._iterator_templ.operator_ge (⟨la, p⟩ : repeat_n_view.repeat_n_owned_view._iterator_templ m) ⟨lb, q⟩) ↔ la = lb) ∧
    ((repeat_n.owned_view._iterator_templ.operator_diff (⟨la, p⟩ : repeat_n.owned_view._iterator_templ m) ⟨lb, q⟩ =
        repeat_n_view.repeat_n_owned_view._iterator_templ.operator_diff (⟨la, p⟩ : repeat_n_view.repeat_n_owned_view._iterator_templ m) ⟨lb, q⟩) ↔ la = lb) := by
  by_cases h : la = lb <;>
  simp [repeat_n.owned_view._iterator_templ.operator_eq, repeat_n.owned_view._iterator_templ.operator_ne, repeat_n.owned_view._iterator_templ.operator_lt, repeat_n.owned_view._iterator_templ.operator_le, repeat_n.owned_view._iterator_templ.operator_gt, repeat_n.owned_view._iterator_templ.operator_ge, repeat_n.owned_view._iterator_templ.operator_diff,
    repeat_n_view.repeat_n_owned_view._iterator_templ.operator_eq, repeat_n_view.repeat_n_owned_view._iterator_templ.operator_ne, repeat_n_view.repeat_n_owned_view._iterator_templ.operator_lt, repeat_n_view.repeat_n_owned_view._iterator_templ.operator_le, repeat_n_view.repeat_n_owned_view._iterator_templ.operator_gt, repeat_n_view.repeat_n_owned_view._iterator_templ.operator_ge, repeat_n_view.repeat_n_owned_view._iterator_templ.operator_diff, h]

/-! ## The derived comparison operators -/

/-- C25: in every class, whenever `c == d`, `c <= d` or `c < d` returns a value `r`,
`c != d`, `c > d` or `c >= d` respectively returns its negation; consequently for two
iterators `a`, `b` on the same storage exactly one of `a < b`, `a == b`, `a > b` is true,
and `a > b` is true exactly when `b < a` is. -/
theorem C25_derived_operators_are_negations
    (m1 : Bool) (a1 b1 : repeat_n_view.repeat_n_owned_view._iterator_templ m1)
    (m2 : Bool) (a2 b2 : notstd.single_view._iterator_templ m2)
    (a3 b3 : repeat_n_view.repeat_n_foreign_view.const_iterator)
    (a4 b4 : notstd.dereferencing_single_view.iterator)
    (a5 b5 : repeat_n.foreign_view.const_iterator)
    (m6 : Bool) (a6 b6 : repeat_n.owned_view._iterator_templ m6)
    (k1 : Bool) (c1 d1 : repeat_n_view.repeat_n_owned_view._iterator_templ k1)
    (k2 : Bool) (c2 d2 : notstd.single_view._iterator_templ k2)
    (c3 d3 : repeat_n_view.repeat_n_foreign_view.const_iterator)
    (c4 d4 : notstd.dereferencing_single_view.iterator)
    (c5 d5 : repeat_n.foreign_view.const_iterator)
    (k6 : Bool) (c6 d6 : repeat_n.owned_view._iterator_templ k6)
    (h1 : a1.location = b1.location) (h2 : a2.location = b2.location) (h3 : a3.location = b3.location)
    (h4 : a4.location = b4.location) (h5 : a5.location = b5.location) (h6 : a6.location = b6.location) :
    ((∀ r, c1.operator_eq d1 = Except.ok r → c1.operator_ne d1 = Except.ok (!r)) ∧
     (∀ r, c1.operator_le d1 = Except.ok r → c1.operator_gt d1 = Except.ok (!r)) ∧
     (∀ r, c1.operator_lt d1 = Except.ok r → c1.operator_ge d1 = Except.ok (!r)) ∧
     ((a1.operator_lt b1 = Except.ok true ∧ a1.operator_eq b1 = Except.ok false ∧
         a1.operator_gt b1 = Except.ok false) ∨
      (a1.operator_lt b1 = Except.ok false ∧ a1.operator_eq b1 = Except.ok true ∧
         a1.operator_gt b1 = Except.ok false) ∨
      (a1.operator_lt b1 = Except.ok false ∧ a1.operator_eq b1 = Except.ok false ∧
         a1.operator_gt b1 = Except.ok true)) ∧
     (a1.operator_gt b1 = Except.ok true ↔ b1.operator_lt a1 = Except.ok true)) ∧
    ((∀ r, c2.operator_eq d2 = Except.ok r → c2.operator_ne d2 = Except.ok (!r)) ∧
     (∀ r, c2.operator_le d2 = Except.ok r → c2.operator_gt d2 = Except.ok (!r)) ∧
     (∀ r, c2.operator_lt d2 = Except.ok r → c2.operator_ge d2 = Except.ok (!r)) ∧
     ((a2.operator_lt b2 = Except.ok true ∧ a2.operator_eq b2 = Except.ok false ∧
         a2.operator_gt b2 = Except.ok false) ∨
      (a2.operator_lt b2 = Except.ok false ∧ a2.operator_eq b2 = Except.ok true ∧
         a2.operator_gt b2 = Except.ok false) ∨
      (a2.operator_lt b2 = Except.ok false ∧ a2.operator_eq b2 = Except.ok false ∧
         a2.operator_gt b2 = Except.ok true)) ∧
     (a2.operator_gt b2 = Except.ok true ↔ b2.operator_lt a2 = Except.ok true)) ∧
    ((∀ r, c3.operator_eq d3 = Except.ok r → c3.operator_ne d3 = Except.ok (!r)) ∧
     (∀ r, c3.operator_le d3 = Except.ok r → c3.operator_gt d3 = Except.ok (!r)) ∧
     (∀ r, c3.operator_lt d3 = Except.ok r → c3.operator_ge d3 = Except.ok (!r)) ∧
     ((a3.operator_lt b3 = Except.ok true ∧ a3.operator_eq b3 = Except.ok false ∧
         a3.operator_gt b3 = Except.ok false) ∨
      (a3.operator_lt b3 = Except.ok false ∧ a3.operator_eq b3 = Except.ok true ∧
         a3.operator_gt b3 = Except.ok false) ∨
      (a3.operator_lt b3 = Except.ok false ∧ a3.operator_eq b3 = Except.ok false ∧
         a3.operator_gt b3 = Except.ok true)) ∧
     (a3.operator_gt b3 = Except.ok true ↔ b3.operator_lt a3 = Except.ok true)) ∧
    ((∀ r, c4.operator_eq d4 = Except.ok r → c4.operator_ne d4 = Except.ok (!r)) ∧
     (∀ r, c4.operator_le d4 = Except.ok r → c4.operator_gt d4 = Except.ok (!r)) ∧
     (∀ r, c4.operator_lt d4 = Except.ok r → c4.operator_ge d4 = Except.ok (!r)) ∧
     ((a4.operator_lt b4 = Except.ok true ∧ a4.operator_eq b4 = Except.ok false ∧
         a4.operator_gt b4 = Except.ok false) ∨
      (a4.operator_lt b4 = Except.ok false ∧ a4.operator_eq b4 = Except.ok true ∧
         a4.operator_gt b4 = Except.ok false) ∨
      (a4.operator_lt b4 = Except.ok false ∧ a4.operator_eq b4 = Except.ok false ∧
         a4.operator_gt b4 = Except.ok true)) ∧
     (a4.operator_gt b4 = Except.ok true ↔ b4.operator_lt a4 = Except.ok true)) ∧
    ((∀ r, c5.operator_eq d5 = Except.ok r → c5.operator_ne d5 = Except.ok (!r)) ∧
     (∀ r, c5.operator_le d5 = Except.ok r → c5.operator_gt d5 = Except.ok (!r)) ∧
     (∀ r, c5.operator_lt d5 = Except.ok r → c5.operator_ge d5 = Except.ok (!r)) ∧
     ((a5.operator_lt b5 = Except.ok true ∧ a5.operator_eq b5 = Except.ok false ∧
         a5.operator_gt b5 = Except.ok false) ∨
      (a5.operator_lt b5 = Except.ok false ∧ a5.operator_eq b5 = Except.ok true ∧
         a5.operator_gt b5 = Except.ok false) ∨
      (a5.operator_lt b5 = Except.ok false ∧ a5.operator_eq b5 = Except.ok false ∧
         a5.operator_gt b5 = Except.ok true)) ∧
     (a5.operator_gt b5 = Except.ok true ↔ b5.operator_lt a5 = Except.ok true)) ∧
    ((∀ r, c6.operator_eq d6 = Except.ok r → c6.operator_ne d6 = Except.ok (!r)) ∧
     (∀ r, c6.operator_le d6 = Except.ok r → c6.operator_gt d6 = Except.ok (!r)) ∧
     (∀ r, c6.operator_lt d6 = Except.ok r → c6.operator_ge d6 = Except.ok (!r)) ∧
     ((a6.operator_lt b6 = Except.ok true ∧ a6.operator_eq b6 = Except.ok false ∧
         a6.operator_gt b6 = Except.ok false) ∨
      (a6.operator_lt b6 = Except.ok false ∧ a6.operator_eq b6 = Except.ok true ∧
         a6.operator_gt b6 = Except.ok false) ∨
      (a6.operator_lt b6 = Except.ok false ∧ a6.operator_eq b6 = Except.ok false ∧
         a6.operator_gt b6 = Except.ok true)) ∧
     (a6.operator_gt b6 = Except.ok true ↔ b6.operator_lt a6 = Except.ok true)) := by
  refine ⟨?_, ?_, ?_, ?_, ?_, ?_⟩
  · refine ⟨?_, ?_, ?_, ?_, ?_⟩
    · intro r hr
      simp only [repeat_n_view.repeat_n_owned_view._iterator_templ.operator_ne, hr]
    · intro r hr
      simp only [repeat_n_view.repeat_n_owned_view._iterator_templ.operator_gt, hr]
    · intro r hr
      simp only [repeat_n_view.repeat_n_owned_view._iterator_templ.operator_ge, hr]
    · have hba : b1.location = a1.location := h1.symm
      rcases Nat.lt_trichotomy a1.curr b1.curr with hlt | heq | hgt
      · left
        simp [repeat_n_view.repeat_n_owned_view._iterator_templ.operator_eq, repeat_n_view.repeat_n_owned_view._iterator_templ.operator_lt, repeat_n_view.repeat_n_owned_view._iterator_templ.operator_le, repeat_n_view.repeat_n_owned_view._iterator_templ.operator_gt, h1]
        omega
      · right; left
        simp [repeat_n_view.repeat_n_owned_view._iterator_templ.operator_eq, repeat_n_view.repeat_n_owned_view._iterator_templ.operator_lt, repeat_n_view.repeat_n_owned_view._iterator_templ.operator_le, repeat_n_view.repeat_n_owned_view._iterator_templ.operator_gt, h1, heq]
      · right; right
        simp [repeat_n_view.repeat_n_owned_view._iterator_templ.operator_eq, repeat_n_view.repeat_n_owned_view._iterator_templ.operator_lt, repeat_n_view.repeat_n_owned_view._iterator_templ.operator_le, repeat_n_view.repeat_n_owned_view._iterator_templ.operator_gt, h1]
        omega
    · have hba : b1.location = a1.location := h1.symm
      simp [repeat_n_view.repeat_n_owned_view._iterator_templ.operator_lt, repeat_n_view.repeat_n_owned_view._iterator_templ.operator_le, repeat_n_view.repeat_n_owned_view._iterator_templ.operator_gt, h1]
  · refine ⟨?_, ?_, ?_, ?_, ?_⟩
    · intro r hr
      simp only [notstd.single_view._iterator_templ.operator_ne, hr]
    · intro r hr
      simp only [notstd.single_view._iterator_templ.operator_gt, hr]
    · intro r hr
      simp only [notstd.single_view._iterator_templ.operator_ge, hr]
    · have hba : b2.location = a2.location := h2.symm
      rcases Nat.lt_trichotomy a2.curr b2.curr with hlt | heq | hgt
      · left
        simp [notstd.single_view._iterator_templ.operator_eq, notstd.single_view._iterator_templ.operator_lt, notstd.single_view._iterator_templ.operator_le, notstd.single_view._iterator_templ.operator_gt, h2]
        omega
      · right; left
        simp [notstd.single_view._iterator_templ.operator_eq, notstd.single_view._iterator_templ.operator_lt, notstd.single_view._iterator_templ.operator_le, notstd.single_view._iterator_templ.operator_gt, h2, heq]
      · right; right
        simp [notstd.single_view._iterator_templ.operator_eq, notstd.single_view._iterator_templ.operator_lt, notstd.single_view._iterator_templ.operator_le, notstd.single_view._iterator_templ.operator_gt, h2]
        omega
    · have hba : b2.location = a2.location := h2.symm
      simp [notstd.single_view._iterator_templ.operator_lt, notstd.single_view._iterator_templ.operator_le, notstd.single_view._iterator_templ.operator_gt, h2]
  · refine ⟨?_, ?_, ?_, ?_, ?_⟩
    · intro r hr
      simp only [repeat_n_view.repeat_n_foreign_view.const_iterator.operator_ne, hr]
    · intro r hr
      simp only [repeat_n_view.repeat_n_foreign_view.const_iterator.operator_gt, hr]
    · intro r hr
      simp only [repeat_n_view.repeat_n_foreign_view.const_iterator.operator_ge, hr]
    · have hba : b3.location = a3.location := h3.symm
      rcases Nat.lt_trichotomy a3.curr b3.curr with hlt | heq | hgt
      · left
        simp [repeat_n_view.repeat_n_foreign_view.const_iterator.operator_eq, repeat_n_view.repeat_n_foreign_view.const_iterator.operator_lt, repeat_n_view.repeat_n_foreign_view.const_iterator.operator_le, repeat_n_view.repeat_n_foreign_view.const_iterator.operator_gt, h3]
        omega
      · right; left
        simp [repeat_n_view.repeat_n_foreign_view.const_iterator.operator_eq, repeat_n_view.repeat_n_foreign_view.const_iterator.operator_lt, repeat_n_view.repeat_n_foreign_view.const_iterator.operator_le, repeat_n_view.repeat_n_foreign_view.const_iterator.operator_gt, h3, heq]
      · right; right
        simp [repeat_n_view.repeat_n_foreign_view.const_iterator.operator_eq, repeat_n_view.repeat_n_foreign_view.const_iterator.operator_lt, repeat_n_view.repeat_n_foreign_view.const_iterator.operator_le, repeat_n_view.repeat_n_foreign_view.const_iterator.operator_gt, h3]
        omega
    · have hba : b3.location = a3.location := h3.symm
      simp [repeat_n_view.repeat_n_foreign_view.const_iterator.operator_lt, repeat_n_view.repeat_n_foreign_view.const_iterator.operator_le, repeat_n_view.repeat_n_foreign_view.const_iterator.operator_gt, h3]
  · refine ⟨?_, ?_, ?_, ?_, ?_⟩
    · intro r hr
      simp only [notstd.dereferencing_single_view.iterator.operator_ne, hr]
    · intro r hr
      simp only [notstd.dereferencing_single_view.iterator.operator_gt, hr]
    · intro r hr
      simp only [notstd.dereferencing_single_view.iterator.operator_ge, hr]
    · have hba : b4.location = a4.location := h4.symm
      rcases Nat.lt_trichotomy a4.curr b4.curr with hlt | heq | hgt
      · left
        simp [notstd.dereferencing_single_view.iterator.operator_eq, notstd.dereferencing_single_view.iterator.operator_lt, notstd.dereferencing_single_view.iterator.operator_le, notstd.dereferencing_single_view.iterator.operator_gt, h4]
        omega
      · right; left
        simp [notstd.dereferencing_single_view.iterator.operator_eq, notstd.dereferencing_single_view.iterator.operator_lt, notstd.dereferencing_single_view.iterator.operator_le, notstd.dereferencing_single_view.iterator.operator_gt, h4, heq]
      · right; right
        simp [notstd.dereferencing_single_view.iterator.operator_eq, notstd.dereferencing_single_view.iterator.operator_lt, notstd.dereferencing_single_view.iterator.operator_le, notstd.dereferencing_single_view.iterator.operator_gt, h4]
        omega
    · have hba : b4.location = a4.location := h4.symm
      simp [notstd.dereferencing_single_view.iterator.operator_lt, notstd.dereferencing_single_view.iterator.operator_le, notstd.dereferencing_single_view.iterator.operator_gt, h4]
  · refine ⟨?_, ?_, ?_, ?_, ?_⟩
    · intro r hr
      simp only [repeat_n.foreign_view.const_iterator.operator_ne, hr]
    · intro r hr
      simp only [repeat_n.foreign_view.const_iterator.operator_gt, hr]
    · intro r hr
      simp only [repeat_n.foreign_view.const_iterator.operator_ge, hr]
    · have hba : b5.location = a5.location := h5.symm
      rcases Nat.lt_trichotomy a5.curr b5.curr with hlt | heq | hgt
      · left
        simp [repeat_n.foreign_view.const_iterator.operator_eq, repeat_n.foreign_view.const_iterator.operator_lt, repeat_n.foreign_view.const_iterator.operator_le, repeat_n.foreign_view.const_iterator.operator_gt, h5]
        omega
      · right; left
        simp [repeat_n.foreign_view.const_iterator.operator_eq, repeat_n.foreign_view.const_iterator.operator_lt, repeat_n.foreign_view.const_iterator.operator_le, repeat_n.foreign_view.const_iterator.operator_gt, h5, heq]
      · right; right
        simp [repeat_n.foreign_view.const_iterator.operator_eq, repeat_n.foreign_view.const_iterator.operator_lt, repeat_n.foreign_view.const_iterator.operator_le, repeat_n.foreign_view.const_iterator.operator_gt, h5]
        omega
    · have hba : b5.location = a5.location := h5.symm
      simp [repeat_n.foreign_view.const_iterator.operator_lt, repeat_n.foreign_view.const_iterator.operator_le, repeat_n.foreign_view.const_iterator.operator_gt, h5]
  · refine ⟨?_, ?_, ?_, ?_, ?_⟩
    · intro r hr
      simp only [repeat_n.owned_view._iterator_templ.operator_ne, hr]
    · intro r hr
      simp only [repeat_n.owned_view._iterator_templ.operator_gt, hr]
    · intro r hr
      simp only [repeat_n.owned_view._iterator_templ.operator_ge, hr]
    · have hba : b6.location = a6.location := h6.symm
      rcases Nat.lt_trichotomy a6.curr b6.curr with hlt | heq | hgt
      · left
        simp [repeat_n.owned_view._iterator_templ.operator_eq, repeat_n.owned_view._iterator_templ.operator_lt, repeat_n.owned_view._iterator_templ.operator_le, repeat_n.owned_view._iterator_templ.operator_gt, h6]
        omega
      · right; left
        simp [repeat_n.owned_view._iterator_templ.operator_eq, repeat_n.owned_view._iterator_templ.operator_lt, repeat_n.owned_view._iterator_templ.operator_le, repeat_n.owned_view._iterator_templ.operator_gt, h6, heq]
      · right; right
        simp [repeat_n.owned_view._iterator_templ.operator_eq, repeat_n.owned_view._iterator_templ.operator_lt, repeat_n.owned_view._iterator_templ.operator_le, repeat_n.owned_view._iterator_templ.operator_gt, h6]
        omega
    · have hba : b6.location = a6.location := h6.symm
      simp [repeat_n.owned_view._iterator_templ.operator_lt, repeat_n.owned_view._iterator_templ.operator_le, repeat_n.owned_view._iterator_templ.operator_gt, h6]

/-- C25 (witness): iterators at positions 1 and 2 of storage 4096: `a > b` is true exactly
when `b < a` is. -/
theorem C25_derived_operators_are_negations_witness :
    ((⟨4096, 1⟩ : repeat_n_view.repeat_n_owned_view._iterator_templ true).operator_gt ⟨4096, 2⟩ = Except.ok true ↔
      (⟨4096, 2⟩ : repeat_n_view.repeat_n_owned_view._iterator_templ true).operator_lt ⟨4096, 1⟩ = Except.ok true) :=
  (C25_derived_operators_are_negations
      true ⟨4096, 1⟩ ⟨4096, 2⟩ true ⟨4096, 1⟩ ⟨4096, 2⟩ ⟨4096, 1⟩ ⟨4096, 2⟩
      ⟨4096, 1⟩ ⟨4096, 2⟩ ⟨4096, 1⟩ ⟨4096, 2⟩ true ⟨4096, 1⟩ ⟨4096, 2⟩
      true ⟨4096, 1⟩ ⟨8192, 2⟩ true ⟨4096, 1⟩ ⟨8192, 2⟩ ⟨4096, 1⟩ ⟨8192, 2⟩
      ⟨4096, 1⟩ ⟨8192, 2⟩ ⟨4096, 1⟩ ⟨8192, 2⟩ true ⟨4096, 1⟩ ⟨8192, 2⟩
      rfl rfl rfl rfl rfl rfl).1.2.2.2.2

/-! ## Totality of the unchecked class -/

/-- C26: in the unchecked `repeat_n::owned_view`, for every pair of iterators, whatever their
storage addresses and positions, each of `==`, `!=`, `<`, `<=`, `>`, `>=` and the iterator
difference returns a value and none throws; and `a == b` is true exactly when both the
storage addresses and the positions are equal. -/
theorem C26_unchecked_operators_are_total (m : Bool) (a b : repeat_n.owned_view._iterator_templ m) :
    (∃ r, a.operator_eq b = Except.ok r) ∧
    (∃ r, a.operator_ne b = Except.ok r) ∧
    (∃ r, a.operator_lt b = Except.ok r) ∧
    (∃ r, a.operator_le b = Except.ok r) ∧
    (∃ r, a.operator_gt b = Except.ok r) ∧
    (∃ r, a.operator_ge b = Except.ok r) ∧
    (∃ r, a.operator_diff b = Except.ok r) ∧
    (a.operator_eq b = Except.ok true ↔ (a.location = b.location ∧ a.curr = b.curr)) := by
  simp [repeat_n.owned_view._iterator_templ.operator_eq, repeat_n.owned_view._iterator_templ.operator_ne, repeat_n.owned_view._iterator_templ.operator_lt, repeat_n.owned_view._iterator_templ.operator_le, repeat_n.owned_view._iterator_templ.operator_gt, repeat_n.owned_view._iterator_templ.operator_ge, repeat_n.owned_view._iterator_templ.operator_diff]

/-! ## Views that share their storage -/

/-- C27 (as amended): on a 64-bit target, the same-origin check is by storage address: for
two foreign views `viewA`, `viewB` of the same length `N` (a `std::size_t`) holding the same
address (a view object is, for every operation, the pointer it stores),
`viewA.begin() == viewB.begin()` returns true and `viewB.end() - viewA.begin()` returns a
value, which is `N` exactly when `N < 2^63`; nothing throws. -/
theorem C27_same_address_views_are_comparable (N : Nat)
    (viewA3 viewB3 : repeat_n_view.repeat_n_foreign_view N)
    (viewA4 viewB4 : notstd.dereferencing_single_view N)
    (viewA5 viewB5 : repeat_n.foreign_view N)
    (h3 : viewA3.__contents = viewB3.__contents) (h4 : viewA4.contents = viewB4.contents) (h5 : viewA5.M_contents = viewB5.M_contents)
    (hN : N < 18446744073709551616) :
    (viewA3.begin.operator_eq viewB3.begin = Except.ok true ∧
     (viewB3.end_.operator_diff viewA3.begin = Except.ok (N : Int) ↔ N < 9223372036854775808)) ∧
    (viewA4.begin.operator_eq viewB4.begin = Except.ok true ∧
     (viewB4.end_.operator_diff viewA4.begin = Except.ok (N : Int) ↔ N < 9223372036854775808)) ∧
    (viewA5.begin.operator_eq viewB5.begin = Except.ok true ∧
     (viewB5.end_.operator_diff viewA5.begin = Except.ok (N : Int) ↔ N < 9223372036854775808)) := by
  have hs := cxx.to_size_t_of_lt N hN
  have ht := cxx.to_ptrdiff_t_eq_iff N hN
  refine ⟨?_, ?_, ?_⟩ <;>
  simp only [repeat_n_view.repeat_n_foreign_view.const_iterator.operator_eq,
    repeat_n_view.repeat_n_foreign_view.const_iterator.operator_diff,
    repeat_n_view.repeat_n_foreign_view.begin,
    repeat_n_view.repeat_n_foreign_view.end_,
    notstd.dereferencing_single_view.iterator.operator_eq,
    notstd.dereferencing_single_view.iterator.operator_diff,
    notstd.dereferencing_single_view.begin,
    notstd.dereferencing_single_view.end_,
    repeat_n.foreign_view.const_iterator.operator_eq,
    repeat_n.foreign_view.const_iterator.operator_diff,
    repeat_n.foreign_view.begin,
    repeat_n.foreign_view.end_,
    h3, h4, h5, hs, ht, ne_eq, not_true_eq_false, if_false, Except.ok.injEq, Nat.cast_zero,
    sub_zero, decide_True, and_self]

/-- C27 (witness): two `repeat_n_foreign_view`s of length 3 constructed from the address
4096: `viewA.begin() == viewB.begin()` is true and `viewB.end() - viewA.begin()` is 3. -/
theorem C27_same_address_views_are_comparable_witness :
    (3 : Nat) < 18446744073709551616 ∧
    (repeat_n_view.repeat_n_foreign_view.construct 3 4096).begin.operator_eq (repeat_n_view.repeat_n_foreign_view.construct 3 4096).begin
      = Except.ok true ∧
    (repeat_n_view.repeat_n_foreign_view.construct 3 4096).end_.operator_diff (repeat_n_view.repeat_n_foreign_view.construct 3 4096).begin
      = Except.ok 3 :=
  ⟨by decide,
   (C27_same_address_views_are_comparable 3 (repeat_n_view.repeat_n_foreign_view.construct 3 4096) (repeat_n_view.repeat_n_foreign_view.construct 3 4096)
      ⟨4096⟩ ⟨4096⟩ ⟨4096⟩ ⟨4096⟩ rfl rfl rfl (by decide)).1.1,
   ((C27_same_address_views_are_comparable 3 (repeat_n_view.repeat_n_foreign_view.construct 3 4096)
      (repeat_n_view.repeat_n_foreign_view.construct 3 4096) ⟨4096⟩ ⟨4096⟩ ⟨4096⟩ ⟨4096⟩ rfl rfl rfl
      (by decide)).1.2).mpr (by decide)⟩

/-- C27 (counterexample): for two `repeat_n_foreign_view`s of length `N = 2^63` constructed
from the address 4096, `viewB.end() - viewA.begin()` is `-2^63`, not `N`. -/
theorem C27_shared_storage_difference_counterexample :
    (repeat_n_view.repeat_n_foreign_view.construct 9223372036854775808 4096).end_.operator_diff (repeat_n_view.repeat_n_foreign_view.construct 9223372036854775808 4096).begin
      = Except.ok (-9223372036854775808) ∧
    (repeat_n_view.repeat_n_foreign_view.construct 9223372036854775808 4096).end_.operator_diff (repeat_n_view.repeat_n_foreign_view.construct 9223372036854775808 4096).begin
      ≠ Except.ok ((9223372036854775808 : Nat) : Int) := by
  constructor
  · rfl
  · intro h
    have h2 : (Except.ok (-9223372036854775808) : Except exception Int)
        = Except.ok ((9223372036854775808 : Nat) : Int) := h
    simp at h2

/-! ## Default-constructed iterators -/

/-- C28: in every class a default-constructed iterator has the null storage address and
position 0; two default-constructed iterators of one type compare equal and their
difference is 0, with no error; and in the five checked classes each of `==`, `!=`, `<`,
`<=`, `>`, `>=` between a default-constructed iterator and an iterator whose storage
address is not null, in either order, throws `std::invalid_argument`. -/
theorem C28_default_constructed_iterators
    (m1 : Bool) (it1 : repeat_n_view.repeat_n_owned_view._iterator_templ m1)
    (m2 : Bool) (it2 : notstd.single_view._iterator_templ m2)
    (it3 : repeat_n_view.repeat_n_foreign_view.const_iterator)
    (it4 : notstd.dereferencing_single_view.iterator)
    (it5 : repeat_n.foreign_view.const_iterator)
    (m6 : Bool)
    (h1 : it1.location ≠ nullptr) (h2 : it2.location ≠ nullptr) (h3 : it3.location ≠ nullptr)
    (h4 : it4.location ≠ nullptr) (h5 : it5.location ≠ nullptr) :
    ((repeat_n_view.repeat_n_owned_view._iterator_templ.default_constructor : repeat_n_view.repeat_n_owned_view._iterator_templ m1).location = nullptr ∧
     (repeat_n_view.repeat_n_owned_view._iterator_templ.default_constructor : repeat_n_view.repeat_n_owned_view._iterator_templ m1).curr = 0 ∧
     (repeat_n_view.repeat_n_owned_view._iterator_templ.default_constructor : repeat_n_view.repeat_n_owned_view._iterator_templ m1).operator_eq (repeat_n_view.repeat_n_owned_view._iterator_templ.default_constructor : repeat_n_view.repeat_n_owned_view._iterator_templ m1) = Except.ok true ∧
     (repeat_n_view.repeat_n_owned_view._iterator_templ.default_constructor : repeat_n_view.repeat_n_owned_view._iterator_templ m1).operator_diff (repeat_n_view.repeat_n_owned_view._iterator_templ.default_constructor : repeat_n_view.repeat_n_owned_view._iterator_templ m1) = Except.ok 0 ∧
     throws_invalid_argument ((repeat_n_view.repeat_n_owned_view._iterator_templ.default_constructor : repeat_n_view.repeat_n_owned_view._iterator_templ m1).operator_eq it1) ∧
     throws_invalid_argument (it1.operator_eq (repeat_n_view.repeat_n_owned_view._iterator_templ.default_constructor : repeat_n_view.repeat_n_owned_view._iterator_templ m1)) ∧
     throws_invalid_argument ((repeat_n_view.repeat_n_owned_view._iterator_templ.default_constructor : repeat_n_view.repeat_n_owned_view._iterator_templ m1).operator_ne it1) ∧
     throws_invalid_argument (it1.operator_ne (repeat_n_view.repeat_n_owned_view._iterator_templ.default_constructor : repeat_n_view.repeat_n_owned_view._iterator_templ m1)) ∧
     throws_invalid_argument ((repeat_n_view.repeat_n_owned_view._iterator_templ.default_constructor : repeat_n_view.repeat_n_owned_view._iterator_templ m1).operator_lt it1) ∧
     throws_invalid_argument (it1.operator_lt (repeat_n_view.repeat_n_owned_view._iterator_templ.default_constructor : repeat_n_view.repeat_n_owned_view._iterator_templ m1)) ∧
     throws_invalid_argument ((repeat_n_view.repeat_n_owned_view._iterator_templ.default_constructor : repeat_n_view.repeat_n_owned_view._iterator_templ m1).operator_le it1) ∧
     throws_invalid_argument (it1.operator_le (repeat_n_view.repeat_n_owned_view._iterator_templ.default_constructor : repeat_n_view.repeat_n_owned_view._iterator_templ m1)) ∧
     throws_invalid_argument ((repeat_n_view.repeat_n_owned_view._iterator_templ.default_constructor : repeat_n_view.repeat_n_owned_view._iterator_templ m1).operator_gt it1) ∧
     throws_invalid_argument (it1.operator_gt (repeat_n_view.repeat_n_owned_view._iterator_templ.default_constructor : repeat_n_view.repeat_n_owned_view._iterator_templ m1)) ∧
     throws_invalid_argument ((repeat_n_view.repeat_n_owned_view._iterator_templ.default_constructor : repeat_n_view.repeat_n_owned_view._iterator_templ m1).operator_ge it1) ∧
     throws_invalid_argument (it1.operator_ge (repeat_n_view.repeat_n_owned_view._iterator_templ.default_constructor : repeat_n_view.repeat_n_owned_view._iterator_templ m1))) ∧
    ((notstd.single_view._iterator_templ.default_constructor : notstd.single_view._iterator_templ m2).location = nullptr ∧
     (notstd.single_view._iterator_templ.default_constructor : notstd.single_view._iterator_templ m2).curr = 0 ∧
     (notstd.single_view._iterator_templ.default_constructor : notstd.single_view._iterator_templ m2).operator_eq (notstd.single_view._iterator_templ.default_constructor : notstd.single_view._iterator_templ m2) = Except.ok true ∧
     (notstd.single_view._iterator_templ.default_constructor : notstd.single_view._iterator_templ m2).operator_diff (notstd.single_view._iterator_templ.default_constructor : notstd.single_view._iterator_templ m2) = Except.ok 0 ∧
     throws_invalid_argument ((notstd.single_view._iterator_templ.default_constructor : notstd.single_view._iterator_templ m2).operator_eq it2) ∧
     throws_invalid_argument (it2.operator_eq (notstd.single_view._iterator_templ.default_constructor : notstd.single_view._iterator_templ m2)) ∧
     throws_invalid_argument ((notstd.single_view._iterator_templ.default_constructor : notstd.single_view._iterator_templ m2).operator_ne it2) ∧
     throws_invalid_argument (it2.operator_ne (notstd.single_view._iterator_templ.default_constructor : notstd.single_view._iterator_templ m2)) ∧
     throws_invalid_argument ((notstd.single_view._iterator_templ.default_constructor : notstd.single_view._iterator_templ m2).operator_lt it2) ∧
     throws_invalid_argument (it2.operator_lt (notstd.single_view._iterator_templ.default_constructor : notstd.single_view._iterator_templ m2)) ∧
     throws_invalid_argument ((notstd.single_view._iterator_templ.default_constructor : notstd.single_view._iterator_templ m2).operator_le it2) ∧
     throws_invalid_argument (it2.operator_le (notstd.single_view._iterator_templ.default_constructor : notstd.single_view._iterator_templ m2)) ∧
     throws_invalid_argument ((notstd.single_view._iterator_templ.default_constructor : notstd.single_view._iterator_templ m2).operator_gt it2) ∧
     throws_invalid_argument (it2.operator_gt (notstd.single_view._iterator_templ.default_constructor : notstd.single_view._iterator_templ m2)) ∧
     throws_invalid_argument ((notstd.single_view._iterator_templ.default_constructor : notstd.single_view._iterator_templ m2).operator_ge it2) ∧
     throws_invalid_argument (it2.operator_ge (notstd.single_view._iterator_templ.default_constructor : notstd.single_view._iterator_templ m2))) ∧
    (repeat_n_view.repeat_n_foreign_view.const_iterator.default_constructor.location = nullptr ∧
     repeat_n_view.repeat_n_foreign_view.const_iterator.default_constructor.curr = 0 ∧
     repeat_n_view.repeat_n_foreign_view.const_iterator.default_constructor.operator_eq repeat_n_view.repeat_n_foreign_view.const_iterator.default_constructor = Except.ok true ∧
     repeat_n_view.repeat_n_foreign_view.const_iterator.default_constructor.operator_diff repeat_n_view.repeat_n_foreign_view.const_iterator.default_constructor = Except.ok 0 ∧
     throws_invalid_argument (repeat_n_view.repeat_n_foreign_view.const_iterator.default_constructor.operator_eq it3) ∧
     throws_invalid_argument (it3.operator_eq repeat_n_view.repeat_n_foreign_view.const_iterator.default_constructor) ∧
     throws_invalid_argument (repeat_n_view.repeat_n_foreign_view.const_iterator.default_constructor.operator_ne it3) ∧
     throws_invalid_argument (it3.operator_ne repeat_n_view.repeat_n_foreign_view.const_iterator.default_constructor) ∧
     throws_invalid_argument (repeat_n_view.repeat_n_foreign_view.const_iterator.default_constructor.operator_lt it3) ∧
     throws_invalid_argument (it3.operator_lt repeat_n_view.repeat_n_foreign_view.const_iterator.default_constructor) ∧
     throws_invalid_argument (repeat_n_view.repeat_n_foreign_view.const_iterator.default_constructor.operator_le it3) ∧
     throws_invalid_argument (it3.operator_le repeat_n_view.repeat_n_foreign_view.const_iterator.default_constructor) ∧
     throws_invalid_argument (repeat_n_view.repeat_n_foreign_view.const_iterator.default_constructor.operator_gt it3) ∧
     throws_invalid_argument (it3.operator_gt repeat_n_view.repeat_n_foreign_view.const_iterator.default_constructor) ∧
     throws_invalid_argument (repeat_n_view.repeat_n_foreign_view.const_iterator.default_constructor.operator_ge it3) ∧
     throws_invalid_argument (it3.operator_ge repeat_n_view.repeat_n_foreign_view.const_iterator.default_constructor)) ∧
    (notstd.dereferencing_single_view.iterator.default_constructor.location = nullptr ∧
     notstd.dereferencing_single_view.iterator.default_constructor.curr = 0 ∧
     notstd.dereferencing_single_view.iterator.default_constructor.operator_eq notstd.dereferencing_single_view.iterator.default_constructor = Except.ok true ∧
     notstd.dereferencing_single_view.iterator.default_constructor.operator_diff notstd.dereferencing_single_view.iterator.default_constructor = Except.ok 0 ∧
     throws_invalid_argument (notstd.dereferencing_single_view.iterator.default_constructor.operator_eq it4) ∧
     throws_invalid_argument (it4.operator_eq notstd.dereferencing_single_view.iterator.default_constructor) ∧
     throws_invalid_argument (notstd.dereferencing_single_view.iterator.default_constructor.operator_ne it4) ∧
     throws_invalid_argument (it4.operator_ne notstd.dereferencing_single_view.iterator.default_constructor) ∧
     throws_invalid_argument (notstd.dereferencing_single_view.iterator.default_constructor.operator_lt it4) ∧
     throws_invalid_argument (it4.operator_lt notstd.dereferencing_single_view.iterator.default_constructor) ∧
     throws_invalid_argument (notstd.dereferencing_single_view.iterator.default_constructor.operator_le it4) ∧
     throws_invalid_argument (it4.operator_le notstd.dereferencing_single_view.iterator.default_constructor) ∧
     throws_invalid_argument (notstd.dereferencing_single_view.iterator.default_constructor.operator_gt it4) ∧
     throws_invalid_argument (it4.operator_gt notstd.dereferencing_single_view.iterator.default_constructor) ∧
     throws_invalid_argument (notstd.dereferencing_single_view.iterator.default_constructor.operator_ge it4) ∧
     throws_invalid_argument (it4.operator_ge notstd.dereferencing_single_view.iterator.default_constructor)) ∧
    (repeat_n.foreign_view.const_iterator.default_constructor.location = nullptr ∧
     repeat_n.foreign_view.const_iterator.default_constructor.curr = 0 ∧
     repeat_n.foreign_view.const_iterator.default_constructor.operator_eq repeat_n.foreign_view.const_iterator.default_constructor = Except.ok true ∧
     repeat_n.foreign_view.const_iterator.default_constructor.operator_diff repeat_n.foreign_view.const_iterator.default_constructor = Except.ok 0 ∧
     throws_invalid_argument (repeat_n.foreign_view.const_iterator.default_constructor.operator_eq it5) ∧
     throws_invalid_argument (it5.operator_eq repeat_n.foreign_view.const_iterator.default_constructor) ∧
     throws_invalid_argument (repeat_n.foreign_view.const_iterator.default_constructor.operator_ne it5) ∧
     throws_invalid_argument (it5.operator_ne repeat_n.foreign_view.const_iterator.default_constructor) ∧
     throws_invalid_argument (repeat_n.foreign_view.const_iterator.default_constructor.operator_lt it5) ∧
     throws_invalid_argument (it5.operator_lt repeat_n.foreign_view.const_iterator.default_constructor) ∧
     throws_invalid_argument (repeat_n.foreign_view.const_iterator.default_constructor.operator_le it5) ∧
     throws_invalid_argument (it5.operator_le repeat_n.foreign_view.const_iterator.default_constructor) ∧
     throws_invalid_argument (repeat_n.foreign_view.const_iterator.default_constructor.operator_gt it5) ∧
     throws_invalid_argument (it5.operator_gt repeat_n.foreign_view.const_iterator.default_constructor) ∧
     throws_invalid_argument (repeat_n.foreign_view.const_iterator.default_constructor.operator_ge it5) ∧
     throws_invalid_argument (it5.operator_ge repeat_n.foreign_view.const_iterator.default_constructor)) ∧
    ((repeat_n.owned_view._iterator_templ.default_constructor : repeat_n.owned_view._iterator_templ m6).location = nullptr ∧
     (repeat_n.owned_view._iterator_templ.default_constructor : repeat_n.owned_view._iterator_templ m6).curr = 0 ∧
     (repeat_n.owned_view._iterator_templ.default_constructor : repeat_n.owned_view._iterator_templ m6).operator_eq (repeat_n.owned_view._iterator_templ.default_constructor : repeat_n.owned_view._iterator_templ m6) = Except.ok true ∧
     (repeat_n.owned_view._iterator_templ.default_constructor : repeat_n.owned_view._iterator_templ m6).operator_diff (repeat_n.owned_view._iterator_templ.default_constructor : repeat_n.owned_view._iterator_templ m6) = Except.ok 0) := by
  have g1 : ¬ (nullptr = it1.location) := fun h => h1 h.symm
  have g2 : ¬ (nullptr = it2.location) := fun h => h2 h.symm
  have g3 : ¬ (nullptr = it3.location) := fun h => h3 h.symm
  have g4 : ¬ (nullptr = it4.location) := fun h => h4 h.symm
  have g5 : ¬ (nullptr = it5.location) := fun h => h5 h.symm
  have z : to_ptrdiff_t (to_size_t 0) = 0 := by decide
  refine ⟨?_, ?_, ?_, ?_, ?_, ?_⟩ <;>
  simp [throws_invalid_argument,
    repeat_n_view.repeat_n_owned_view._iterator_templ.default_constructor,
    repeat_n_view.repeat_n_owned_view._iterator_templ.operator_eq,
    repeat_n_view.repeat_n_owned_view._iterator_templ.operator_ne,
    repeat_n_view.repeat_n_owned_view._iterator_templ.operator_lt,
    repeat_n_view.repeat_n_owned_view._iterator_templ.operator_le,
    repeat_n_view.repeat_n_owned_view._iterator_templ.operator_gt,
    repeat_n_view.repeat_n_owned_view._iterator_templ.operator_ge,
    repeat_n_view.repeat_n_owned_view._iterator_templ.operator_diff,
    notstd.single_view._iterator_templ.default_constructor,
    notstd.single_view._iterator_templ.operator_eq,
    notstd.single_view._iterator_templ.operator_ne,
    notstd.single_view._iterator_templ.operator_lt,
    notstd.single_view._iterator_templ.operator_le,
    notstd.single_view._iterator_templ.operator_gt,
    notstd.single_view._iterator_templ.operator_ge,
    notstd.single_view._iterator_templ.operator_diff,
    repeat_n_view.repeat_n_foreign_view.const_iterator.default_constructor,
    repeat_n_view.repeat_n_foreign_view.const_iterator.operator_eq,
    repeat_n_view.repeat_n_foreign_view.const_iterator.operator_ne,
    repeat_n_view.repeat_n_foreign_view.const_iterator.operator_lt,
    repeat_n_view.repeat_n_foreign_view.const_iterator.operator_le,
    repeat_n_view.repeat_n_foreign_view.const_iterator.operator_gt,
    repeat_n_view.repeat_n_foreign_view.const_iterator.operator_ge,
    repeat_n_view.repeat_n_foreign_view.const_iterator.operator_diff,
    notstd.dereferencing_single_view.iterator.default_constructor,
    notstd.dereferencing_single_view.iterator.operator_eq,
    notstd.dereferencing_single_view.iterator.operator_ne,
    notstd.dereferencing_single_view.iterator.operator_lt,
    notstd.dereferencing_single_view.iterator.operator_le,
    notstd.dereferencing_single_view.iterator.operator_gt,
    notstd.dereferencing_single_view.iterator.operator_ge,
    notstd.dereferencing_single_view.iterator.operator_diff,
    repeat_n.foreign_view.const_iterator.default_constructor,
    repeat_n.foreign_view.const_iterator.operator_eq,
    repeat_n.foreign_view.const_iterator.operator_ne,
    repeat_n.foreign_view.const_iterator.operator_lt,
    repeat_n.foreign_view.const_iterator.operator_le,
    repeat_n.foreign_view.const_iterator.operator_gt,
    repeat_n.foreign_view.const_iterator.operator_ge,
    repeat_n.foreign_view.const_iterator.operator_diff,
    repeat_n.owned_view._iterator_templ.default_constructor,
    repeat_n.owned_view._iterator_templ.operator_eq,
    repeat_n.owned_view._iterator_templ.operator_ne,
    repeat_n.owned_view._iterator_templ.operator_lt,
    repeat_n.owned_view._iterator_templ.operator_le,
    repeat_n.owned_view._iterator_templ.operator_gt,
    repeat_n.owned_view._iterator_templ.operator_ge,
    repeat_n.owned_view._iterator_templ.operator_diff,
    h1, h2, h3, h4, h5, g1, g2, g3, g4, g5, z]

/-- C28 (witness): the claim at the `begin()` iterators of views stored at 4096. -/
theorem C28_default_constructed_iterators_witness :
    throws_invalid_argument
      ((repeat_n_view.repeat_n_owned_view._iterator_templ.default_constructor : repeat_n_view.repeat_n_owned_view._iterator_templ true).operator_eq (⟨4096⟩ : repeat_n_view.repeat_n_owned_view 3).begin) :=
  (C28_default_constructed_iterators true (⟨4096⟩ : repeat_n_view.repeat_n_owned_view 3).begin true ⟨4096, 0⟩ ⟨4096, 0⟩
      ⟨4096, 0⟩ ⟨4096, 0⟩ true (by decide) (by decide) (by decide) (by decide)
      (by decide)).1.2.2.2.2.1
